import Mathlib

/-!
# FAT32 driver and text search of the kernel: a shallow embedding

The definitions follow `src/fat32.c`.  Bytes are natural numbers below 256,
`uint32_t` values are natural numbers below `2 ^ 32`, `int` values are integers.
-/

namespace Fat32

/-! ## C strings -/

/-- The characters of the NUL-terminated string stored in a buffer: the bytes
before the first NUL. -/
def cstr (buffer : List Nat) : List Nat :=
  buffer.takeWhile (fun c => c != 0)

/-- The C library `strlen`. -/
def strlen (buffer : List Nat) : Nat :=
  (cstr buffer).length

/-- The byte `s[i]` of a string; the byte behind the last character is the NUL. -/
def charAt (s : List Nat) (i : Nat) : Nat :=
  s.getD i 0

/-! ## `knuth_morris_pratt` -/

/-- The inner loop `while (k > 0 && pattern[k] != c) k = pi[k - 1];`.
The first argument bounds the number of iterations; `k` itself is such a
bound because every entry `pi[k - 1]` is smaller than `k`
(see `kmp_fallback_fuel`). -/
def kmp_fallback (p : List Nat) (pi : List Nat) (c : Nat) : Nat → Nat → Nat
  | 0, k => k
  | fuel + 1, k =>
    if 0 < k ∧ charAt p k ≠ c then kmp_fallback p pi c fuel (pi.getD (k - 1) 0) else k

/-- One round of the body shared by both `for` loops of `knuth_morris_pratt`:
the `while` loop followed by `if (pattern[k] == c) k++;`. -/
def kmp_step (p : List Nat) (pi : List Nat) (c : Nat) (k : Nat) : Nat :=
  let k1 := kmp_fallback p pi c k k
  if charAt p k1 = c then k1 + 1 else k1

/-- The loop `for (int i = 1; i < m; i++)` that fills `pi`; the first argument
is the number of rounds left, `pi` holds the entries `pi[0..i-1]`. -/
def kmp_table_loop (p : List Nat) : Nat → Nat → Nat → List Nat → List Nat
  | 0, _, _, pi => pi
  | rounds + 1, i, k, pi =>
    let k2 := kmp_step p pi (charAt p i) k
    kmp_table_loop p rounds (i + 1) k2 (pi ++ [k2])

/-- The failure array `pi` of a pattern of length `m ≥ 1`. -/
def kmp_table (p : List Nat) (m : Nat) : List Nat :=
  kmp_table_loop p (m - 1) 1 0 [0]

/-- The loop `for (int i = 0; i < n; i++)` over the text, from state `j`. -/
def kmp_search (p : List Nat) (pi : List Nat) (m : Nat) : List Nat → Nat → Bool
  | [], _ => false
  | c :: text, j =>
    let j2 := kmp_step p pi c j
    if j2 = m then true else kmp_search p pi m text j2

/-- The function `knuth_morris_pratt(buffer_pattern, buffer_text)`. -/
def knuth_morris_pratt (buffer_pattern buffer_text : List Nat) : Bool :=
  let p := cstr buffer_pattern
  let m := strlen buffer_pattern
  if m = 0 then false
  else kmp_search p (kmp_table p m) m (cstr buffer_text) 0

/-! ## `boyer_moore` -/

/-- The loop `for (int i = 0; i < m; i++) bad_char[(unsigned char) pattern[i]] = i;`
from index `i`, over the rest of the pattern. -/
def bad_char_fill : List Nat → Nat → List Int → List Int
  | [], _, bad => bad
  | c :: rest, i, bad => bad_char_fill rest (i + 1) (bad.set (c % 256) (i : Int))

/-- The last-occurrence table `bad_char[256]`. -/
def bad_char_table (p : List Nat) : List Int :=
  bad_char_fill p 0 (List.replicate 256 (-1))

/-- The loop `while (j >= 0 && pattern[j] == text[s + j]) j--;` started with
`j = k - 1`; the result is the final `j`. -/
def bm_scan (p t : List Nat) (s : Nat) : Nat → Int
  | 0 => -1
  | k + 1 => if charAt p k = charAt t (s + k) then bm_scan p t s k else (k : Int)

/-- The shift `(j - bad_char[c] > 1) ? j - bad_char[c] : 1`. -/
def bm_shift (bad : List Int) (c : Nat) (j : Int) : Int :=
  if j - bad.getD (c % 256) (-1) > 1 then j - bad.getD (c % 256) (-1) else 1

/-- The loop `while (s <= n - m)`.  The first argument bounds the number of
rounds; `s` grows in every round, so `n + 1` rounds are never used up
(see `bm_loop_fuel`). -/
def bm_loop (p t : List Nat) (bad : List Int) (m n : Nat) : Nat → Nat → Bool
  | 0, _ => false
  | fuel + 1, s =>
    if (s : Int) ≤ (n : Int) - (m : Int) then
      let j := bm_scan p t s m
      if j < 0 then true
      else bm_loop p t bad m n fuel (s + (bm_shift bad (charAt t (s + j.toNat)) j).toNat)
    else false

/-- The function `boyer_moore(buffer_pattern, buffer_text)`. -/
def boyer_moore (buffer_pattern buffer_text : List Nat) : Bool :=
  let p := cstr buffer_pattern
  let t := cstr buffer_text
  let m := strlen buffer_pattern
  let n := strlen buffer_text
  bm_loop p t (bad_char_table p) m n (n + 1) 0


/-! ## Data model of the FAT32 driver

`header/filesystem/fat32.h` is not among the sources, so its constants and the
byte layout of its structures are parameters of the model (`Platform`). -/

/-- A `struct FAT32DirectoryEntry`, with the fields the driver reads or writes
one by one (`attr` is the field `attribute`).  The remaining fields of the C
structure are only ever copied together with the whole entry. -/
structure FAT32DirectoryEntry where
  name : List Nat
  ext : List Nat
  attr : Nat
  user_attribute : Nat
  cluster_high : Nat
  cluster_low : Nat
  filesize : Nat
deriving DecidableEq

/-- The array `table` of a `struct FAT32DirectoryTable`. -/
abbrev FAT32DirectoryTable := Nat → FAT32DirectoryEntry

/-- The array `cluster_map` of a `struct FAT32FileAllocationTable`. -/
abbrev FAT32FileAllocationTable := Nat → Nat

/-- What one cluster of the disk holds: the object last stored in it. -/
inductive ClusterData where
  | bytes (b : Nat → Nat)
  | dir (t : FAT32DirectoryTable)
  | fat (f : FAT32FileAllocationTable)

/-- The parts of the build that the sources leave open: the constants of
`fat32.h`, how the bytes of an object of one type read as an object of another
type, and the three bytes that follow the string literal "root" in memory. -/
structure Platform where
  BLOCK_SIZE : Nat
  CLUSTER_SIZE : Nat
  CLUSTER_MAP_SIZE : Nat
  CLUSTER_0_VALUE : Nat
  CLUSTER_1_VALUE : Nat
  FAT32_FAT_END_OF_FILE : Nat
  FAT32_FAT_EMPTY_ENTRY : Nat
  ATTR_SUBDIRECTORY : Nat
  UATTR_NOT_EMPTY : Nat
  dir_of_bytes : (Nat → Nat) → FAT32DirectoryTable
  dir_of_fat : FAT32FileAllocationTable → FAT32DirectoryTable
  bytes_of_dir : FAT32DirectoryTable → Nat → Nat
  bytes_of_fat : FAT32FileAllocationTable → Nat → Nat
  fat_of_bytes : (Nat → Nat) → FAT32FileAllocationTable
  fat_of_dir : FAT32DirectoryTable → FAT32FileAllocationTable
  root_literal_tail : List Nat

/-- Modelled from the spec: `BOOT_SECTOR`, block 0 holds the boot signature. -/
def BOOT_SECTOR : Nat := 0

/-- Modelled from the spec: `FAT_CLUSTER_NUMBER`, cluster 1 holds the FAT. -/
def FAT_CLUSTER_NUMBER : Nat := 1

/-- Modelled from the spec: `ROOT_CLUSTER_NUMBER`, cluster 2 is the root
directory. -/
def ROOT_CLUSTER_NUMBER : Nat := 2

/-- Modelled from the spec: the value of
`sizeof(struct FAT32DirectoryTable) / sizeof(struct FAT32DirectoryEntry)`,
a directory table has 64 entries. -/
def directory_size : Nat := 64

/-- The cluster read as a `struct FAT32DirectoryTable`. -/
def Platform.as_dir (E : Platform) : ClusterData → FAT32DirectoryTable
  | .dir t => t
  | .bytes b => E.dir_of_bytes b
  | .fat f => E.dir_of_fat f

/-- The cluster read as bytes. -/
def Platform.as_bytes (E : Platform) : ClusterData → Nat → Nat
  | .bytes b => b
  | .dir t => E.bytes_of_dir t
  | .fat f => E.bytes_of_fat f

/-- The cluster read as a `struct FAT32FileAllocationTable`. -/
def Platform.as_fat (E : Platform) : ClusterData → FAT32FileAllocationTable
  | .fat f => f
  | .bytes b => E.fat_of_bytes b
  | .dir t => E.fat_of_dir t

/-- The static `driver_state`. -/
structure FAT32DriverState where
  fat_table : FAT32FileAllocationTable
  dir_table_buf : FAT32DirectoryTable

/-- The driver state together with the disk, cluster by cluster. -/
structure Machine where
  driver_state : FAT32DriverState
  storage : Nat → ClusterData

/-- A `struct FAT32DriverRequest`; `buf` is the memory that `request.buf`
points to, byte by byte. -/
structure FAT32DriverRequest where
  buf : Nat → Nat
  name : List Nat
  ext : List Nat
  parent_cluster_number : Nat
  buffer_size : Nat

/-- Assignment to one element of an array. -/
def upd {α : Type} (f : Nat → α) (i : Nat) (v : α) : Nat → α :=
  fun x => if x = i then v else f x

/-- The test `memcmp(a, b, n) == 0`. -/
def memcmp_eq (a b : List Nat) (n : Nat) : Bool :=
  a.take n == b.take n

/-- A zero-initialised `struct FAT32DirectoryEntry`. -/
def zero_entry : FAT32DirectoryEntry :=
  { name := List.replicate 8 0, ext := List.replicate 3 0, attr := 0,
    user_attribute := 0, cluster_high := 0, cluster_low := 0, filesize := 0 }

/-- A zero-initialised `struct FAT32DirectoryTable`. -/
def zero_table : FAT32DirectoryTable :=
  fun _ => zero_entry

/-- The function `init_directory_table(dir_table, name, parent_dir_cluster)`. -/
def init_directory_table (E : Platform) (dir_table : FAT32DirectoryTable) (name : List Nat)
    (parent_dir_cluster : Nat) : FAT32DirectoryTable :=
  upd dir_table 0
    { dir_table 0 with
      cluster_low := parent_dir_cluster &&& 0xFFFF
      cluster_high := (parent_dir_cluster >>> 16) &&& 0xFFFF
      user_attribute := E.UATTR_NOT_EMPTY
      attr := E.ATTR_SUBDIRECTORY
      name := name.take 8 }

/-- The cluster number `entry.cluster_low | (entry.cluster_high << 16)`. -/
def entry_cluster (e : FAT32DirectoryEntry) : Nat :=
  e.cluster_low ||| (e.cluster_high <<< 16)

/-- The test `is_name_match && is_ext_match` of `read`, `write` and `delete`. -/
def entry_matches (e : FAT32DirectoryEntry) (request : FAT32DriverRequest) : Bool :=
  memcmp_eq e.name request.name 8 && memcmp_eq e.ext request.ext 3

/-- The conversion of a `uint32_t` to `int32_t`. -/
def to_int32 (n : Nat) : Int :=
  if n % 2 ^ 32 < 2 ^ 31 then ((n % 2 ^ 32 : Nat) : Int) else ((n % 2 ^ 32 : Nat) : Int) - 2 ^ 32

/-- The conversion of an `int32_t` to `uint32_t`. -/
def to_uint32 (z : Int) : Nat :=
  (z % 2 ^ 32).toNat

/-- The function `ceil_div(a, b)`: `a / b + (a % b != 0)` on `int32_t`. -/
def ceil_div (a b : Int) : Int :=
  Int.tdiv a b + (if Int.tmod a b ≠ 0 then 1 else 0)

/-! ## `write` -/

/-- The value of `cluster_count` in `write`. -/
def write_cluster_count (E : Platform) (request : FAT32DriverRequest) : Nat :=
  to_uint32 (ceil_div (to_int32 request.buffer_size) (E.CLUSTER_SIZE : Int))

/-- The value of `cluster_available` in `write`: the loop
`for (i = 2; i < CLUSTER_MAP_SIZE; i++)` counts the empty entries. -/
def write_cluster_available (E : Platform) (fat : FAT32FileAllocationTable) : Nat :=
  ((List.range' 2 (E.CLUSTER_MAP_SIZE - 2)).filter
    (fun i => fat i == E.FAT32_FAT_EMPTY_ENTRY)).length

/-- The value of `empty_cluster` in `write`: the first empty entry from index 2
on, and 0 when there is none. -/
def write_empty_cluster (E : Platform) (fat : FAT32FileAllocationTable) : Nat :=
  ((List.range' 2 (E.CLUSTER_MAP_SIZE - 2)).find?
    (fun i => fat i == E.FAT32_FAT_EMPTY_ENTRY)).getD 0

/-- The filled part of the array `empty_clusters` in `write`: the loop
`for (i = 0; i < CLUSTER_MAP_SIZE; i++)` collects the empty entries.  The rest
of the array is zero, so element `i` is `(write_empty_clusters E fat).getD i 0`. -/
def write_empty_clusters (E : Platform) (fat : FAT32FileAllocationTable) : List Nat :=
  (List.range E.CLUSTER_MAP_SIZE).filter (fun i => fat i == E.FAT32_FAT_EMPTY_ENTRY)

/-- The `CLUSTER_SIZE` bytes at `request.buf + i * CLUSTER_SIZE`. -/
def buf_cluster (E : Platform) (buf : Nat → Nat) (i : Nat) : Nat → Nat :=
  fun k => if k < E.CLUSTER_SIZE then buf (i * E.CLUSTER_SIZE + k) else 0

/-- The loop `for (i = 0; i < cluster_count; i++)` of `write` that links the
clusters of a file and stores its content; the first argument is the number of
rounds left. -/
def write_file_loop (E : Platform) (buf : Nat → Nat) (empty_clusters : List Nat)
    (cluster_count : Nat) :
    Nat → Nat → FAT32FileAllocationTable → (Nat → ClusterData) →
      FAT32FileAllocationTable × (Nat → ClusterData)
  | 0, _, fat, storage => (fat, storage)
  | rounds + 1, i, fat, storage =>
    let cluster_number := empty_clusters.getD i 0
    let fat1 := if i = cluster_count - 1
      then upd fat cluster_number E.FAT32_FAT_END_OF_FILE
      else upd fat cluster_number (empty_clusters.getD (i + 1) 0)
    write_file_loop E buf empty_clusters cluster_count rounds (i + 1) fat1
      (upd storage cluster_number (.bytes (buf_cluster E buf i)))

/-- The value of `new_entry_idx` in `write`: the first slot from index 1 on
whose `user_attribute` is not `UATTR_NOT_EMPTY`, and 0 when there is none. -/
def write_new_entry_idx (E : Platform) (dir : FAT32DirectoryTable) : Nat :=
  ((List.range' 1 (directory_size - 1)).find?
    (fun i => (dir i).user_attribute != E.UATTR_NOT_EMPTY)).getD 0

/-- The value of `new_entry` in `write` before the attribute of a folder is
set. -/
def write_new_entry (E : Platform) (request : FAT32DriverRequest) (empty_cluster : Nat) :
    FAT32DirectoryEntry :=
  { zero_entry with
    filesize := request.buffer_size
    user_attribute := E.UATTR_NOT_EMPTY
    name := request.name.take 8
    ext := request.ext.take 3
    cluster_low := empty_cluster &&& 0xFFFF
    cluster_high := (empty_cluster >>> 16) &&& 0xFFFF }

/-- The function `write(request)`: the return code and the state afterwards. -/
def write (E : Platform) (m : Machine) (request : FAT32DriverRequest) : Int × Machine :=
  let dir := E.as_dir (m.storage request.parent_cluster_number)
  let m1 : Machine := { m with driver_state := { m.driver_state with dir_table_buf := dir } }
  if (dir 0).attr ≠ E.ATTR_SUBDIRECTORY then (-1, m1)
  else if (List.range directory_size).any (fun i => entry_matches (dir i) request) then (1, m1)
  else
    let cluster_count := write_cluster_count E request
    if write_cluster_available E m.driver_state.fat_table < cluster_count then (-1, m1)
    else
      let empty_cluster := write_empty_cluster E m.driver_state.fat_table
      let new_entry := write_new_entry E request empty_cluster
      let new_entry_idx := write_new_entry_idx E dir
      if request.buffer_size = 0 then
        let new_dir_table := init_directory_table E zero_table request.name
          request.parent_cluster_number
        let fat := upd m.driver_state.fat_table empty_cluster E.FAT32_FAT_END_OF_FILE
        let storage := upd m.storage empty_cluster (.dir new_dir_table)
        let dir1 := upd dir new_entry_idx { new_entry with attr := E.ATTR_SUBDIRECTORY }
        (0, { driver_state := { fat_table := fat, dir_table_buf := dir1 },
              storage := upd (upd storage request.parent_cluster_number (.dir dir1))
                FAT_CLUSTER_NUMBER (.fat fat) })
      else
        let r := write_file_loop E request.buf (write_empty_clusters E m.driver_state.fat_table)
          cluster_count cluster_count 0 m.driver_state.fat_table m.storage
        let dir1 := upd dir new_entry_idx new_entry
        (0, { driver_state := { fat_table := r.1, dir_table_buf := dir1 },
              storage := upd (upd r.2 request.parent_cluster_number (.dir dir1))
                FAT_CLUSTER_NUMBER (.fat r.1) })

/-! ## `read` -/

/-- The memory behind a pointer after `read_clusters(ptr + offset * CLUSTER_SIZE, c, 1)`
has stored the bytes `b` of the cluster. -/
def store_cluster (E : Platform) (mem : Nat → Nat) (offset : Nat) (b : Nat → Nat) : Nat → Nat :=
  fun k => if offset * E.CLUSTER_SIZE ≤ k ∧ k < (offset + 1) * E.CLUSTER_SIZE
    then b (k - offset * E.CLUSTER_SIZE) else mem k

/-- The `do ... while (cluster_number != FAT32_FAT_END_OF_FILE)` loop of `read`.
The first argument bounds the number of rounds; the result is `none` when the
bound is reached before the loop ends. -/
def read_loop (E : Platform) (fat : FAT32FileAllocationTable) (storage : Nat → ClusterData) :
    Nat → Nat → Nat → (Nat → Nat) → Option (Nat → Nat)
  | 0, _, _, _ => none
  | fuel + 1, cluster_number, offset, mem =>
    let mem1 := store_cluster E mem offset (E.as_bytes (storage cluster_number))
    if fat cluster_number ≠ E.FAT32_FAT_END_OF_FILE
    then read_loop E fat storage fuel (fat cluster_number) (offset + 1) mem1
    else some mem1

/-- The function `read(request)`: the return code, the state and the memory
behind `request.buf` afterwards; `none` when the cluster walk does not end
within `fuel` rounds. -/
def read (E : Platform) (fuel : Nat) (m : Machine) (request : FAT32DriverRequest) :
    Option (Int × Machine × (Nat → Nat)) :=
  let dir := E.as_dir (m.storage request.parent_cluster_number)
  let m1 : Machine := { m with driver_state := { m.driver_state with dir_table_buf := dir } }
  if (dir 0).attr ≠ E.ATTR_SUBDIRECTORY then some (-1, m1, request.buf)
  else
    match (List.range directory_size).find? (fun i => entry_matches (dir i) request) with
    | none => some (3, m1, request.buf)
    | some i =>
      if (dir i).attr = E.ATTR_SUBDIRECTORY then some (1, m1, request.buf)
      else if ¬ (request.buffer_size ≥ (dir i).filesize) then some (2, m1, request.buf)
      else
        (read_loop E m.driver_state.fat_table m.storage fuel (entry_cluster (dir i)) 0
          request.buf).map (fun mem => (0, m1, mem))

/-! ## `delete` -/

/-- The `do ... while (cluster_number != FAT32_FAT_END_OF_FILE)` loop of
`delete`; `none` when it does not end within the given number of rounds. -/
def delete_loop (E : Platform) :
    Nat → Nat → FAT32FileAllocationTable → Option FAT32FileAllocationTable
  | 0, _, _ => none
  | fuel + 1, cluster_number, fat =>
    let next_cluster := fat cluster_number
    let fat1 := upd fat cluster_number E.FAT32_FAT_EMPTY_ENTRY
    if next_cluster ≠ E.FAT32_FAT_END_OF_FILE then delete_loop E fuel next_cluster fat1
    else some fat1

/-- The function `delete(request)`: the return code and the state afterwards;
`none` when the cluster walk does not end within `fuel` rounds. -/
def delete (E : Platform) (fuel : Nat) (m : Machine) (request : FAT32DriverRequest) :
    Option (Int × Machine) :=
  let dir := E.as_dir (m.storage request.parent_cluster_number)
  let m1 : Machine := { m with driver_state := { m.driver_state with dir_table_buf := dir } }
  if (dir 0).attr ≠ E.ATTR_SUBDIRECTORY then some (-1, m1)
  else
    match (List.range directory_size).find? (fun i => entry_matches (dir i) request) with
    | none => some (1, m1)
    | some i =>
      let entry := dir i
      if entry.attr = E.ATTR_SUBDIRECTORY ∧
          (List.range' 1 (directory_size - 1)).any (fun k =>
            (E.as_dir (m.storage (entry_cluster entry)) k).user_attribute
              == E.UATTR_NOT_EMPTY)
      then some (2, m1)
      else
        let dir1 := upd dir i
          { entry with user_attribute := 0, name := List.replicate 8 0,
                       ext := List.replicate 3 0 }
        (delete_loop E fuel (entry_cluster entry) m.driver_state.fat_table).map (fun fat =>
          (0, { driver_state := { fat_table := fat, dir_table_buf := dir1 },
                storage := upd (upd m.storage request.parent_cluster_number (.dir dir1))
                  FAT_CLUSTER_NUMBER (.fat fat) }))

/-! ## `create_fat32` -/

/-- The array `fs_signature`, as far as it is initialised explicitly. -/
def fs_signature_text : List Nat :=
  [67, 111, 117, 114, 115, 101, 32, 32, 32, 32, 32, 32, 32, 32, 32, 32,
   68, 101, 115, 105, 103, 110, 101, 100, 32, 98, 121, 32, 32, 32, 32, 32,
   76, 97, 98, 32, 83, 105, 115, 116, 101, 114, 32, 73, 84, 66, 32, 32,
   77, 97, 100, 101, 32, 119, 105, 116, 104, 32, 60, 51, 32, 32, 32, 32,
   45, 45, 45, 45, 45, 45, 45, 45, 45, 45, 45, 50, 48, 50, 52, 10]

/-- The array `fs_signature[BLOCK_SIZE]`. -/
def fs_signature (E : Platform) : Nat → Nat :=
  fun k =>
    if k = E.BLOCK_SIZE - 1 then 107
    else if k = E.BLOCK_SIZE - 2 then 79
    else fs_signature_text.getD k 0

/-- The loop `for (uint16_t i = 3; i < CLUSTER_MAP_SIZE; i++)` of
`create_fat32` with its 16-bit counter; `none` when it does not end within the
given number of rounds. -/
def create_fat32_loop (E : Platform) :
    Nat → Nat → FAT32FileAllocationTable → Option FAT32FileAllocationTable
  | 0, _, _ => none
  | fuel + 1, i, fat =>
    if i < E.CLUSTER_MAP_SIZE then
      create_fat32_loop E fuel ((i + 1) % 65536) (upd fat i E.FAT32_FAT_EMPTY_ENTRY)
    else some fat

/-- The function `create_fat32()`.  The loop over the FAT is taken as the pass
over the entries 3 .. `CLUSTER_MAP_SIZE - 1`, which is what `create_fat32_loop`
computes when `CLUSTER_MAP_SIZE` fits the 16-bit counter. -/
def create_fat32 (E : Platform) (m : Machine) : Machine :=
  let storage0 := upd m.storage BOOT_SECTOR
    (.bytes (fun k => if k < E.BLOCK_SIZE then fs_signature E k
      else E.as_bytes (m.storage BOOT_SECTOR) k))
  let fat0 := upd (upd (upd m.driver_state.fat_table 0 E.CLUSTER_0_VALUE) 1 E.CLUSTER_1_VALUE)
    ROOT_CLUSTER_NUMBER E.FAT32_FAT_END_OF_FILE
  let fat := (List.range' 3 (E.CLUSTER_MAP_SIZE - 3)).foldl
    (fun f i => upd f i E.FAT32_FAT_EMPTY_ENTRY) fat0
  let storage1 := upd storage0 FAT_CLUSTER_NUMBER (.fat fat)
  let root_dir_table := init_directory_table E zero_table
    ([114, 111, 111, 116, 0] ++ E.root_literal_tail) ROOT_CLUSTER_NUMBER
  { driver_state := { m.driver_state with fat_table := fat },
    storage := upd storage1 ROOT_CLUSTER_NUMBER (.dir root_dir_table) }

/-! ## `read_directory`, directory moves and `initialize_filesystem_fat32` -/

/-- The function `read_directory(request)`: the return code, the state and the
memory behind `request.buf` afterwards.  The function stores the table it reads
in `driver_state.dir_table_buf`; it has no store through `request.buf`. -/
def read_directory (E : Platform) (m : Machine) (request : FAT32DriverRequest) :
    Int × Machine × (Nat → Nat) :=
  let dir := E.as_dir (m.storage request.parent_cluster_number)
  let m1 : Machine := { m with driver_state := { m.driver_state with dir_table_buf := dir } }
  if (dir 0).attr ≠ E.ATTR_SUBDIRECTORY then (-1, m1, request.buf)
  else
    match (List.range directory_size).find? (fun i => entry_matches (dir i) request) with
    | none => (2, m1, request.buf)
    | some i =>
      if ¬ ((dir i).attr = E.ATTR_SUBDIRECTORY) then (1, m1, request.buf)
      else
        (0, { m with driver_state :=
                { m.driver_state with
                  dir_table_buf := E.as_dir (m.storage (entry_cluster (dir i))) } },
          request.buf)

/-- The function `move_to_child_directory(request)`. -/
def move_to_child_directory (E : Platform) (m : Machine) (request : FAT32DriverRequest) : Nat :=
  let directory := E.as_dir (m.storage request.parent_cluster_number)
  match (List.range' 1 (directory_size - 1)).find? (fun i =>
      memcmp_eq (directory i).ext [100, 105, 114] 3
        && memcmp_eq (directory i).name request.name 8) with
  | some i => ((directory i).cluster_high <<< 16) ||| (directory i).cluster_low
  | none => 0

/-- The function `move_to_parent_directory(request)`. -/
def move_to_parent_directory (E : Platform) (m : Machine) (request : FAT32DriverRequest) : Nat :=
  let directory := E.as_dir (m.storage request.parent_cluster_number)
  ((directory 0).cluster_high <<< 16) ||| (directory 0).cluster_low

/-- The function `is_empty_storage()`: whether block 0 differs from
`fs_signature`. -/
def is_empty_storage (E : Platform) (m : Machine) : Bool :=
  !(List.range E.BLOCK_SIZE).all
    (fun k => E.as_bytes (m.storage BOOT_SECTOR) k == fs_signature E k)

/-- The function `initialize_filesystem_fat32()`. -/
def initialize_filesystem_fat32 (E : Platform) (m : Machine) : Machine :=
  if is_empty_storage E m then create_fat32 E m
  else { m with driver_state :=
          { m.driver_state with fat_table := E.as_fat (m.storage FAT_CLUSTER_NUMBER) } }

/-! ## `print_path_to_dir`

The kernel's `memcmp` is not among the sources; the functions of this section
take it as the argument `memcmp`, applied to the two byte arrays and the
length. -/

/-- The loop of `custom_strncpy(dest, src, n)` from index `i` on; the first
argument is the number of rounds left, `n - i`. -/
def custom_strncpy_loop (src : List Nat) : Nat → Nat → List Nat → List Nat
  | 0, _, dest => dest
  | rounds + 1, i, dest =>
    let dest1 := dest.set i (src.getD i 0)
    if src.getD i 0 = 0 then dest1 else custom_strncpy_loop src rounds (i + 1) dest1

/-- The function `custom_strncpy(dest, src, n)`: the array `dest` afterwards. -/
def custom_strncpy (dest src : List Nat) (n : Nat) : List Nat :=
  let dest1 := custom_strncpy_loop src n 0 dest
  if n > 0 then dest1.set (n - 1) 0 else dest1

/-- The function `custom_strcmp(s1, s2)`; a byte behind the end of a list reads
as NUL. -/
def custom_strcmp : List Nat → List Nat → Int
  | [], s2 => 0 - (s2.headD 0 : Int)
  | c :: s1, s2 =>
    if c ≠ 0 ∧ c = s2.headD 0 then custom_strcmp s1 s2.tail
    else (c : Int) - (s2.headD 0 : Int)

/-- The function `clear_buffer(buffer, size)`. -/
def clear_buffer (buffer : Nat → Nat) (size : Nat) : Nat → Nat :=
  fun k => if k < size then 0 else buffer k

/-- The values behind the pointers `buffer`, `dir_idx`, `level` and `found` of
`find_and_print_path`. -/
structure PathState where
  buffer : Nat → Nat
  dir_idx : Nat
  level : Nat
  found : Bool

/-- The stores `buffer[(*dir_idx)] = c; (*dir_idx)++` for the bytes of a list,
one after the other. -/
def put_bytes (buffer : Nat → Nat) (dir_idx : Nat) (bytes : List Nat) : (Nat → Nat) × Nat :=
  bytes.foldl (fun r c => (upd r.1 r.2 c, r.2 + 1)) (buffer, dir_idx)

/-- The bytes that the loops `for (j = 0; j < *level; j++)` and
`for (j = 0; j < 8; j++)` of `find_and_print_path` store: three spaces per
level and the bytes of the name before its first NUL. -/
def path_line_start (level : Nat) (name : List Nat) : List Nat :=
  List.replicate (3 * level) 32 ++ cstr (name.take 8)

/-- The loop `while (*dir_idx > 0 && buffer[*dir_idx - 1] != '\n')` of
`find_and_print_path`, by recursion on `*dir_idx`. -/
def remove_path_loop : Nat → (Nat → Nat) → (Nat → Nat) × Nat
  | 0, buffer => (buffer, 0)
  | dir_idx + 1, buffer =>
    if buffer dir_idx ≠ 10 then remove_path_loop dir_idx (upd buffer dir_idx 0)
    else (buffer, dir_idx + 1)

/-- One round of the loop over the entries of `find_and_print_path`: the state
and `found_lokal` afterwards; `recurse` is the recursive call.  The array
`name[9]` starts out as zero bytes: the bytes that `custom_strncpy` does not
store lie behind a NUL byte and are not read. -/
def find_and_print_path_entry (memcmp : List Nat → List Nat → Nat → Int)
    (target_dir_name : List Nat) (recurse : Nat → PathState → Option PathState)
    (current_content : FAT32DirectoryEntry) (st : PathState) (found_lokal : Bool) :
    Option (PathState × Bool) :=
  if memcmp current_content.name (List.replicate 8 0) 8 = 0
      ∧ memcmp current_content.ext (List.replicate 3 0) 3 = 0 then some (st, found_lokal)
  else
    let name := (custom_strncpy (List.replicate 9 0) current_content.name 8).set 8 0
    if memcmp current_content.ext [100, 105, 114] 3 = 0
        ∧ custom_strcmp name target_dir_name = 0 then
      let r := put_bytes st.buffer st.dir_idx
        (path_line_start st.level current_content.name ++ [47, 10])
      some ({ st with buffer := r.1, dir_idx := r.2, found := true }, found_lokal)
    else if memcmp current_content.ext [100, 105, 114] 3 = 0 then
      let r := put_bytes st.buffer st.dir_idx
        (path_line_start st.level current_content.name ++ [47, 10])
      let found_lokal1 := if st.found then true else found_lokal
      match recurse (entry_cluster current_content)
          { buffer := r.1, dir_idx := r.2, level := st.level + 1, found := st.found } with
      | none => none
      | some st1 =>
        let st2 := { st1 with level := st1.level - 1 }
        if !st2.found then
          let r1 := remove_path_loop (st2.dir_idx - 1) (upd st2.buffer (st2.dir_idx - 1) 0)
          some ({ st2 with buffer := r1.1, dir_idx := r1.2 }, found_lokal1)
        else some (st2, found_lokal1)
    else if memcmp current_content.ext [100, 105, 114] 3 = 1 then
      if custom_strcmp name target_dir_name = 0 then
        let r := put_bytes st.buffer st.dir_idx
          (path_line_start st.level current_content.name
            ++ [46, current_content.ext.getD 0 0, current_content.ext.getD 1 0,
                current_content.ext.getD 2 0, 10])
        some ({ st with buffer := r.1, dir_idx := r.2, found := true }, found_lokal)
      else some (st, found_lokal)
    else some (st, found_lokal)

/-- The function `find_and_print_path`; `none` when the recursion through the
subdirectories is deeper than `fuel`. -/
def find_and_print_path (E : Platform) (memcmp : List Nat → List Nat → Nat → Int)
    (m : Machine) (target_dir_name : List Nat) : Nat → Nat → PathState → Option PathState
  | 0, _, _ => none
  | fuel + 1, dir_cluster_number, st =>
    let dirtable := E.as_dir (m.storage dir_cluster_number)
    match (List.range directory_size).foldl
        (fun acc i => acc.bind (fun r =>
          find_and_print_path_entry memcmp target_dir_name
            (fun c s => find_and_print_path E memcmp m target_dir_name fuel c s)
            (dirtable i) r.1 r.2))
        (some ({ st with found := false }, false)) with
    | none => none
    | some r => some (if r.2 then { r.1 with found := true } else r.1)

/-- The function `print_path_to_dir(buffer, dir_cluster_number,
target_dir_name)`: the memory behind `buffer` afterwards. -/
def print_path_to_dir (E : Platform) (memcmp : List Nat → List Nat → Nat → Int) (m : Machine)
    (fuel : Nat) (buffer : Nat → Nat) (dir_cluster_number : Nat) (target_dir_name : List Nat) :
    Option (Nat → Nat) :=
  (find_and_print_path E memcmp m target_dir_name fuel dir_cluster_number
    { buffer := clear_buffer buffer 255, dir_idx := 0, level := 0, found := false }).map
    (fun st => st.buffer)

/-! ## The page-frame allocator of `paging.c`

`header/memory/paging.h` is not among the sources: `PAGE_FRAME_MAX_COUNT` is an
argument of the functions, and `free_page_frame_count` is a `uint32_t`, as the
variable `physical_addr` that receives it. -/

/-- Modelled from the spec: `struct PageDirectoryEntryFlag`, with the four bits
that `paging.c` names; its two initialisers leave every other bit zero. -/
structure PageDirectoryEntryFlag where
  present_bit : Nat
  write_bit : Nat
  user_bit : Nat
  use_pagesize_4_mb : Nat
deriving DecidableEq

/-- Modelled from the spec: `struct PageDirectoryEntry`, a flag and the 10-bit
frame number `lower_address`. -/
structure PageDirectoryEntry where
  flag : PageDirectoryEntryFlag
  lower_address : Nat
deriving DecidableEq

/-- The array `table` of a `struct PageDirectory`. -/
abbrev PageDirectory := Nat → PageDirectoryEntry

/-- Modelled from the spec: `struct PageManagerState`, the bitmap
`page_frame_map[PAGE_FRAME_MAX_COUNT]` and the free count.  Only the values of
`page_frame_map` at the indices below `PAGE_FRAME_MAX_COUNT` are entries of the
bitmap.  What lies behind the array is fixed by the layout in `paging.h`: a
store at an index from `PAGE_FRAME_MAX_COUNT` on is outside the array, and the
functions below give no page manager state after it. -/
structure PageManagerState where
  page_frame_map : Nat → Bool
  free_page_frame_count : Nat

/-- The initial value of the static `page_manager_state`. -/
def page_manager_state (PAGE_FRAME_MAX_COUNT : Nat) : PageManagerState :=
  { page_frame_map := fun i => decide (i = 0),
    free_page_frame_count := PAGE_FRAME_MAX_COUNT }

/-- The index `((uint32_t)virtual_addr >> 22) & 0x3FF`. -/
def page_index (virtual_addr : Nat) : Nat :=
  (virtual_addr >>> 22) &&& 0x3FF

/-- The function `update_page_directory_entry(page_dir, physical_addr,
virtual_addr, flag)`; the TLB is not part of the model. -/
def update_page_directory_entry (page_dir : PageDirectory) (physical_addr virtual_addr : Nat)
    (flag : PageDirectoryEntryFlag) : PageDirectory :=
  upd page_dir (page_index virtual_addr)
    { flag := flag, lower_address := (physical_addr >>> 22) &&& 0x3FF }

/-- The function `paging_allocate_check(amount)`. -/
def paging_allocate_check (s : PageManagerState) (amount : Nat) : Bool :=
  decide (amount ≤ s.free_page_frame_count)

/-- The function `paging_allocate_user_page_frame(page_dir, virtual_addr)`: the
return value, the page manager state and the page directory afterwards.  The
page manager state is `none` when the index
`PAGE_FRAME_MAX_COUNT - free_page_frame_count` of the store to `page_frame_map`
is outside the array; the page directory has been updated before that store. -/
def paging_allocate_user_page_frame (PAGE_FRAME_MAX_COUNT : Nat) (s : PageManagerState)
    (page_dir : PageDirectory) (virtual_addr : Nat) :
    Bool × Option PageManagerState × PageDirectory :=
  let physical_addr := s.free_page_frame_count
  if !paging_allocate_check s physical_addr then (false, some s, page_dir)
  else
    let userFlag : PageDirectoryEntryFlag :=
      { present_bit := 1, write_bit := 1, user_bit := 1, use_pagesize_4_mb := 1 }
    let page_dir1 := update_page_directory_entry page_dir physical_addr virtual_addr userFlag
    let index := (PAGE_FRAME_MAX_COUNT + 2 ^ 32 - s.free_page_frame_count) % 2 ^ 32
    if index < PAGE_FRAME_MAX_COUNT then
      (true,
        some { page_frame_map := upd s.page_frame_map index true,
               free_page_frame_count := (s.free_page_frame_count + 2 ^ 32 - 1) % 2 ^ 32 },
        page_dir1)
    else (true, none, page_dir1)

/-- The function `paging_free_user_page_frame(page_dir, virtual_addr)`: the
return value, the page manager state and the page directory afterwards.  The
page manager state is `none` when `last_pageframe_used` is outside the array
`page_frame_map`; the page directory has been updated before that store. -/
def paging_free_user_page_frame (PAGE_FRAME_MAX_COUNT : Nat) (s : PageManagerState)
    (page_dir : PageDirectory) (virtual_addr : Nat) :
    Bool × Option PageManagerState × PageDirectory :=
  let emptyFlag : PageDirectoryEntryFlag :=
    { present_bit := 0, write_bit := 0, user_bit := 0, use_pagesize_4_mb := 0 }
  let page_dir1 := upd page_dir (page_index virtual_addr)
    { flag := emptyFlag, lower_address := 0 }
  let last_pageframe_used :=
    (PAGE_FRAME_MAX_COUNT + 2 ^ 32 - s.free_page_frame_count) % 2 ^ 32
  if last_pageframe_used < PAGE_FRAME_MAX_COUNT then
    (true,
      some { page_frame_map := upd s.page_frame_map last_pageframe_used false,
             free_page_frame_count := (s.free_page_frame_count + 1) % 2 ^ 32 },
      page_dir1)
  else (true, none, page_dir1)

/-! ## Processes and the scheduler (`process.c`, `scheduler.c`)

`header/process/process.h` and `header/scheduler/scheduler.h` are not among the
sources: their constants are the fields of `ProcessConfig`, and the structures
are declared with the fields that `process.c`, `scheduler.c` and `paging.c`
read or write.  A pointer to a page directory is `some i` for the address of
`page_directory_list[i]` and `none` for `NULL`. -/

/-- The constants of `process.h`, `paging.h` and `cpu/interrupt.h` that
`process.c` and `paging.c` use. -/
structure ProcessConfig where
  PROCESS_COUNT_MAX : Nat
  PROCESS_PAGE_FRAME_COUNT_MAX : Nat
  PAGING_DIRECTORY_TABLE_MAX_COUNT : Nat
  PAGE_ENTRY_COUNT : Nat
  PAGE_FRAME_SIZE : Nat
  KERNEL_VIRTUAL_ADDRESS_BASE : Nat
  CPU_EFLAGS_BASE_FLAG : Nat
  CPU_EFLAGS_FLAG_INTERRUPT_ENABLE : Nat
  PROCESS_CREATE_SUCCESS : Int
  PROCESS_CREATE_FAIL_MAX_PROCESS_EXCEEDED : Int
  PROCESS_CREATE_FAIL_INVALID_ENTRYPOINT : Int
  PROCESS_CREATE_FAIL_NOT_ENOUGH_MEMORY : Int
  PROCESS_CREATE_FAIL_FS_READ_FAILURE : Int
  PROCESS_STATE_READY : Nat
  PROCESS_STATE_TERMINATED : Nat

/-- Modelled from the spec: `struct Context`, the saved registers, `eip`,
`eflags`, `ss`, `cs` and the pointer to the page directory. -/
structure Context where
  edi : Nat
  esi : Nat
  ebp : Nat
  esp : Nat
  ebx : Nat
  edx : Nat
  ecx : Nat
  eax : Nat
  gs : Nat
  fs : Nat
  es : Nat
  ds : Nat
  eip : Nat
  eflags : Nat
  ss : Nat
  cs : Nat
  page_directory_virtual_addr : Option Nat
deriving DecidableEq

/-- Modelled from the spec: `struct ProcessControlBlock`; `pid`, `state` and
`name` are the fields of `metadata`, `virtual_addr_used` and
`page_frame_used_count` the fields of `memory`. -/
structure ProcessControlBlock where
  pid : Nat
  state : Nat
  name : List Nat
  context : Context
  virtual_addr_used : Nat → Nat
  page_frame_used_count : Nat

/-- The static objects of `process.c`, `paging.c` and `scheduler.c`, the
register `cr3` as the page directory that `paging_use_page_directory` loaded
last, and the state of the file system driver. -/
structure KernelState where
  _process_list : Nat → ProcessControlBlock
  active_process_count : Nat
  pid_counter : Nat
  _paging_kernel_page_directory : PageDirectory
  page_directory_list : Nat → PageDirectory
  page_directory_used : Nat → Bool
  page_manager_state : PageManagerState
  current_running_process_index : Int
  cr3 : Option Nat
  filesystem : Machine

/-- A zero-initialised `struct PageDirectoryEntry`. -/
def zero_page_directory_entry : PageDirectoryEntry :=
  { flag := { present_bit := 0, write_bit := 0, user_bit := 0, use_pagesize_4_mb := 0 },
    lower_address := 0 }

/-- The initial value of `_paging_kernel_page_directory`. -/
def _paging_kernel_page_directory : PageDirectory :=
  fun i =>
    if i = 0 ∨ i = 0x300 then
      { flag := { present_bit := 1, write_bit := 1, user_bit := 0, use_pagesize_4_mb := 1 },
        lower_address := 0 }
    else zero_page_directory_entry

/-- A zero-initialised `struct Context`. -/
def zero_context : Context :=
  { edi := 0, esi := 0, ebp := 0, esp := 0, ebx := 0, edx := 0, ecx := 0, eax := 0,
    gs := 0, fs := 0, es := 0, ds := 0, eip := 0, eflags := 0, ss := 0, cs := 0,
    page_directory_virtual_addr := none }

/-- A zero-initialised `struct ProcessControlBlock`, with a name of 32 bytes. -/
def zero_pcb : ProcessControlBlock :=
  { pid := 0, state := 0, name := List.replicate 32 0, context := zero_context,
    virtual_addr_used := fun _ => 0, page_frame_used_count := 0 }

/-- The initial values of the static objects, for the given number of page
frames and state of the file system driver. -/
def initial_kernel_state (PAGE_FRAME_MAX_COUNT : Nat) (filesystem : Machine) : KernelState :=
  { _process_list := fun _ => zero_pcb,
    active_process_count := 0,
    pid_counter := 1,
    _paging_kernel_page_directory := _paging_kernel_page_directory,
    page_directory_list := fun _ _ => zero_page_directory_entry,
    page_directory_used := fun _ => false,
    page_manager_state := page_manager_state PAGE_FRAME_MAX_COUNT,
    current_running_process_index := -1,
    cr3 := none,
    filesystem := filesystem }

/-- The function `paging_create_new_page_directory()`: the pointer it returns
and the state afterwards. -/
def paging_create_new_page_directory (P : ProcessConfig) (s : KernelState) :
    Option Nat × KernelState :=
  match (List.range P.PAGING_DIRECTORY_TABLE_MAX_COUNT).find?
      (fun i => !s.page_directory_used i) with
  | some i =>
    (some i,
      { s with
        page_directory_used := upd s.page_directory_used i true
        page_directory_list := upd s.page_directory_list i
          (upd (upd (s.page_directory_list i) 0 (s._paging_kernel_page_directory 0)) 0x300
            (s._paging_kernel_page_directory 0x300)) })
  | none => (none, s)

/-- The function `paging_free_page_directory(page_dir)`. -/
def paging_free_page_directory (P : ProcessConfig) (s : KernelState) (page_dir : Option Nat) :
    Bool × KernelState :=
  match page_dir with
  | some i =>
    if i < P.PAGING_DIRECTORY_TABLE_MAX_COUNT then
      (true,
        { s with
          page_directory_used := upd s.page_directory_used i false
          page_directory_list := upd s.page_directory_list i
            (fun j => if j < P.PAGE_ENTRY_COUNT then zero_page_directory_entry
              else s.page_directory_list i j) })
    else (false, s)
  | none => (false, s)

/-- The function `process_get_current_running_pcb_pointer()`: the index of the
PCB it points to. -/
def process_get_current_running_pcb_pointer (s : KernelState) : Option Nat :=
  if s.active_process_count > 0 then some (s.active_process_count - 1) else none

/-- The function `process_list_get_inactive_index()`. -/
def process_list_get_inactive_index (P : ProcessConfig) (s : KernelState) : Int :=
  match (List.range P.PROCESS_COUNT_MAX).find? (fun i => (s._process_list i).pid == 0) with
  | some i => (i : Int)
  | none => -1

/-- The function `process_list_get_pcb_by_pid(pid)`: the index of the PCB it
points to. -/
def process_list_get_pcb_by_pid (P : ProcessConfig) (s : KernelState) (pid : Nat) :
    Option Nat :=
  (List.range P.PROCESS_COUNT_MAX).find? (fun i => (s._process_list i).pid == pid)

/-- The loop `for (int i = 0; i < page_frame_count_needed; i++)` of
`process_create_user_process`: the page directory and the array
`virtual_addr_used` afterwards. -/
def process_map_frames (P : ProcessConfig) (page_directory : PageDirectory)
    (virtual_addr_used : Nat → Nat) (page_frame_count_needed : Nat) :
    PageDirectory × (Nat → Nat) :=
  (List.range page_frame_count_needed).foldl
    (fun r i =>
      let virtual_addr := (P.KERNEL_VIRTUAL_ADDRESS_BASE + i * P.PAGE_FRAME_SIZE) % 2 ^ 32
      let physical_addr := (i * P.PAGE_FRAME_SIZE) % 2 ^ 32
      (update_page_directory_entry r.1 physical_addr virtual_addr
        { present_bit := 1, write_bit := 1, user_bit := 1, use_pagesize_4_mb := 1 },
        upd r.2 i virtual_addr))
    (page_directory, virtual_addr_used)

/-- The value of `page_frame_count_needed` in `process_create_user_process`. -/
def process_page_frame_count_needed (P : ProcessConfig) (request : FAT32DriverRequest) : Nat :=
  to_uint32 (ceil_div (to_int32 (request.buffer_size + P.PAGE_FRAME_SIZE))
    (to_int32 P.PAGE_FRAME_SIZE))

/-- The function `process_create_user_process(request)`, for a request whose
pointer `buf` has the value `buf_addr`: the return code, the state and the
memory behind `request.buf` afterwards.  The result is `none` when `read` does
not end within `fuel` rounds, and when `process_list_get_inactive_index` has
returned -1 and the code goes on to store through `&_process_list[-1]`.  The
name is copied up to the first NUL byte of the 8 bytes of `request.name`. -/
def process_create_user_process (E : Platform) (P : ProcessConfig) (fuel : Nat)
    (s : KernelState) (request : FAT32DriverRequest) (buf_addr : Nat) :
    Option (Int × KernelState × (Nat → Nat)) :=
  if s.active_process_count ≥ P.PROCESS_COUNT_MAX then
    some (P.PROCESS_CREATE_FAIL_MAX_PROCESS_EXCEEDED, s, request.buf)
  else if buf_addr % 2 ^ 32 ≥ P.KERNEL_VIRTUAL_ADDRESS_BASE then
    some (P.PROCESS_CREATE_FAIL_INVALID_ENTRYPOINT, s, request.buf)
  else
    let page_frame_count_needed := process_page_frame_count_needed P request
    if (!paging_allocate_check s.page_manager_state page_frame_count_needed) = true
        ∨ page_frame_count_needed > P.PROCESS_PAGE_FRAME_COUNT_MAX then
      some (P.PROCESS_CREATE_FAIL_NOT_ENOUGH_MEMORY, s, request.buf)
    else
      let p_index := process_list_get_inactive_index P s
      match paging_create_new_page_directory P s with
      | (none, s1) => some (P.PROCESS_CREATE_FAIL_NOT_ENOUGH_MEMORY, s1, request.buf)
      | (some page_directory, s1) =>
        match read E fuel s1.filesystem request with
        | none => none
        | some (ret, filesystem1, mem) =>
          let s2 := { s1 with filesystem := filesystem1 }
          if ret ≠ 0 then some (P.PROCESS_CREATE_FAIL_FS_READ_FAILURE, s2, mem)
          else if p_index < 0 then none
          else
            let new_pcb := s2._process_list p_index.toNat
            let r := process_map_frames P (s2.page_directory_list page_directory)
              new_pcb.virtual_addr_used page_frame_count_needed
            let initial_context : Context :=
              { zero_context with
                esp := 0x400000 - 4
                eflags := P.CPU_EFLAGS_BASE_FLAG ||| P.CPU_EFLAGS_FLAG_INTERRUPT_ENABLE
                ss := 0x23
                cs := 0x1b
                page_directory_virtual_addr := some page_directory }
            let new_pcb1 : ProcessControlBlock :=
              { pid := s2.pid_counter % 2 ^ 32,
                state := P.PROCESS_STATE_READY,
                name := cstr request.name ++ new_pcb.name.drop (strlen request.name),
                context := initial_context,
                virtual_addr_used := r.2,
                page_frame_used_count := page_frame_count_needed }
            some (P.PROCESS_CREATE_SUCCESS,
              { s2 with
                _process_list := upd s2._process_list p_index.toNat new_pcb1
                page_directory_list := upd s2.page_directory_list page_directory r.1
                pid_counter := (s2.pid_counter + 1) % 2 ^ 32
                active_process_count := (s2.active_process_count + 1) % 2 ^ 32 },
              mem)

/-- The function `process_destroy(pid)`. -/
def process_destroy (P : ProcessConfig) (s : KernelState) (pid : Nat) : Bool × KernelState :=
  match process_list_get_pcb_by_pid P s pid with
  | none => (false, s)
  | some i =>
    let s1 := (paging_free_page_directory P s
      (s._process_list i).context.page_directory_virtual_addr).2
    (true,
      { s1 with
        _process_list := upd s1._process_list i
          { (s1._process_list i) with
            pid := 0
            name := (s1._process_list i).name.set 0 0
            state := P.PROCESS_STATE_TERMINATED } })

/-- The function `get_next_process_index()`, with `active_process_count` a
`uint32_t`; `none` for the division by zero. -/
def get_next_process_index (s : KernelState) : Option Int :=
  if s.active_process_count = 0 then none
  else some (to_int32 (to_uint32 (s.current_running_process_index + 1) % s.active_process_count))

/-- The function `scheduler_init()`; the programming of the timer is not part
of the model. -/
def scheduler_init (s : KernelState) : KernelState :=
  { s with active_process_count := 1 }

/-- The function `scheduler_save_context_to_current_running_pcb(ctx)`. -/
def scheduler_save_context_to_current_running_pcb (s : KernelState) (ctx : Context) :
    KernelState :=
  match process_get_current_running_pcb_pointer s with
  | some i =>
    { s with _process_list := upd s._process_list i { (s._process_list i) with context := ctx } }
  | none => s

/-- The function `scheduler_switch_to_next_process()` up to the jump of
`process_context_switch` into the selected process: the selected index is
stored in `current_running_process_index` and the page directory of the
selected PCB is loaded. -/
def scheduler_switch_to_next_process (s : KernelState) : Option KernelState :=
  (get_next_process_index s).map (fun next_running_process_index =>
    { s with
      current_running_process_index := next_running_process_index
      cr3 := (s._process_list
        next_running_process_index.toNat).context.page_directory_virtual_addr })

/-! ## Notions used in the statements and proofs -/

/-- The pattern `p` occurs in the text `t` at offset `s`. -/
def OccAt (p t : List Nat) (s : Nat) : Prop :=
  s + p.length ≤ t.length ∧ ∀ x, x < p.length → charAt p x = charAt t (s + x)

/-- The first `j` characters of `P` are the last `j` of the first `i` of `S`. -/
def SufAt (P S : Nat → Nat) (i j : Nat) : Prop :=
  j ≤ i ∧ ∀ x, x < j → P x = S (i - j + x)

/-- The state `j` is the longest prefix of `P`, of length at most `m`, that ends
at position `i` of `S`. -/
def Longest (P S : Nat → Nat) (m i j : Nat) : Prop :=
  SufAt P S i j ∧ ∀ j', j' ≤ m → SufAt P S i j' → j' ≤ j

/-- The entries `pi[0..L-1]` hold the longest proper borders of the prefixes of
lengths `1..L`. -/
def PiOK (P : Nat → Nat) (pi : List Nat) (L : Nat) : Prop :=
  ∀ q, 1 ≤ q → q ≤ L →
    pi.getD (q - 1) 0 < q ∧ SufAt P P q (pi.getD (q - 1) 0) ∧
      ∀ k, k < q → SufAt P P q k → k ≤ pi.getD (q - 1) 0

/-- The requirements on the constants of `fat32.h` that the driver relies on. -/
structure Platform.Sane (E : Platform) : Prop where
  cluster_size_pos : 0 < E.CLUSTER_SIZE
  cluster_size_int : E.CLUSTER_SIZE < 2 ^ 31
  eof_not_index : E.CLUSTER_MAP_SIZE ≤ E.FAT32_FAT_END_OF_FILE
  eof_uint32 : E.FAT32_FAT_END_OF_FILE < 2 ^ 32
  attr_ne_zero : E.ATTR_SUBDIRECTORY ≠ 0
  uattr_ne_zero : E.UATTR_NOT_EMPTY ≠ 0
  empty_ne_eof : E.FAT32_FAT_EMPTY_ENTRY ≠ E.FAT32_FAT_END_OF_FILE

/-- The walk through `cluster_map` from cluster `c`: the clusters visited up to
the one whose entry is `FAT32_FAT_END_OF_FILE`; `none` when the walk leaves the
table or does not end within the given number of steps. -/
def fat_chain (E : Platform) (fat : FAT32FileAllocationTable) : Nat → Nat → Option (List Nat)
  | 0, _ => none
  | fuel + 1, c =>
    if E.CLUSTER_MAP_SIZE ≤ c then none
    else if fat c = E.FAT32_FAT_END_OF_FILE then some [c]
    else (fat_chain E fat fuel (fat c)).map (fun l => c :: l)

/-- The directory entry that a call of `write` has put into
`driver_state.dir_table_buf`, the copy of the parent's table that it stores back
into the parent cluster: the element at `new_entry_idx`. -/
def written_entry (E : Platform) (m : Machine) (request : FAT32DriverRequest) :
    FAT32DirectoryEntry :=
  (write E m request).2.driver_state.dir_table_buf
    (write_new_entry_idx E (E.as_dir (m.storage request.parent_cluster_number)))

/-- The side conditions on the constants of `process.h` under which the
theorems on `process_create_user_process` are stated: the code for success
differs from the four codes for failure, and the kernel base address selects
entry `0x300` of a page directory. -/
structure ProcessConfig.Sane (P : ProcessConfig) : Prop where
  success_ne_max : P.PROCESS_CREATE_SUCCESS ≠ P.PROCESS_CREATE_FAIL_MAX_PROCESS_EXCEEDED
  success_ne_entrypoint : P.PROCESS_CREATE_SUCCESS ≠ P.PROCESS_CREATE_FAIL_INVALID_ENTRYPOINT
  success_ne_memory : P.PROCESS_CREATE_SUCCESS ≠ P.PROCESS_CREATE_FAIL_NOT_ENOUGH_MEMORY
  success_ne_read : P.PROCESS_CREATE_SUCCESS ≠ P.PROCESS_CREATE_FAIL_FS_READ_FAILURE
  kernel_base_index : page_index (P.KERNEL_VIRTUAL_ADDRESS_BASE % 2 ^ 32) = 0x300

/-! ## A concrete platform and sample inputs -/

/-- Modelled from the spec: 512-byte blocks, one block per cluster, a FAT of
one cluster with 4-byte entries, `ATTR_SUBDIRECTORY = 0x10`; the reserved FAT
values and `UATTR_NOT_EMPTY` are the usual ones of the FAT32 format.  An
all-zero cluster reads as all-zero in every type and "root" is followed by NUL
bytes; no example reads a non-zero cluster through a type other than the one it
was written with. -/
def specPlatform : Platform :=
  { BLOCK_SIZE := 512, CLUSTER_SIZE := 512, CLUSTER_MAP_SIZE := 128,
    CLUSTER_0_VALUE := 0x0FFFFFF0, CLUSTER_1_VALUE := 0x0FFFFFFF,
    FAT32_FAT_END_OF_FILE := 0x0FFFFFFF, FAT32_FAT_EMPTY_ENTRY := 0,
    ATTR_SUBDIRECTORY := 0x10, UATTR_NOT_EMPTY := 0xAA,
    dir_of_bytes := fun _ => zero_table, dir_of_fat := fun _ => zero_table,
    bytes_of_dir := fun _ _ => 0, bytes_of_fat := fun _ _ => 0,
    fat_of_bytes := fun _ _ => 0, fat_of_dir := fun _ _ => 0,
    root_literal_tail := [0, 0, 0] }

/-- The zero-initialised `driver_state` and a disk filled with zero bytes. -/
def blank_machine : Machine :=
  { driver_state := { fat_table := fun _ => 0, dir_table_buf := zero_table },
    storage := fun _ => .bytes (fun _ => 0) }

/-- The freshly formatted disk: `create_fat32()` on the blank machine. -/
def fresh_machine : Machine :=
  create_fat32 specPlatform blank_machine

/-- A request with a one-letter name, padded with NUL bytes; the memory behind
`buf` holds the non-zero bytes `k % 251 + 1`. -/
def sample_request (letter : Nat) (ext : List Nat) (parent size : Nat) : FAT32DriverRequest :=
  { buf := fun k => k % 251 + 1, name := [letter, 0, 0, 0, 0, 0, 0, 0], ext := ext,
    parent_cluster_number := parent, buffer_size := size }

/-- The extension "txt". -/
def ext_txt : List Nat := [116, 120, 116]

/-- The extension "dir". -/
def ext_dir : List Nat := [100, 105, 114]

/-- The freshly formatted disk after `write` has stored the 1500-byte file
"a.txt" in the root directory. -/
def machine_with_file : Machine :=
  (write specPlatform fresh_machine (sample_request 97 ext_txt ROOT_CLUSTER_NUMBER 1500)).2

/-- The request that names the root directory's own entry 0: name "root",
empty extension, parent cluster `ROOT_CLUSTER_NUMBER`. -/
def root_self_request : FAT32DriverRequest :=
  { buf := fun _ => 0, name := [114, 111, 111, 116, 0, 0, 0, 0], ext := [0, 0, 0],
    parent_cluster_number := ROOT_CLUSTER_NUMBER, buffer_size := 0 }

/-- The freshly formatted disk after `delete(root_self_request)`. -/
def machine_root_freed : Machine :=
  ((delete specPlatform 128 fresh_machine root_self_request).map Prod.snd).getD fresh_machine

/-- The state after a call of `delete` that ends within `fuel` rounds (the
state before the call otherwise). -/
def after_delete (E : Platform) (fuel : Nat) (m : Machine) (request : FAT32DriverRequest) :
    Machine :=
  ((delete E fuel m request).map Prod.snd).getD m

/-- The request whose name and extension are all NUL bytes, for the root
directory. -/
def zero_name_request : FAT32DriverRequest :=
  { buf := fun _ => 0, name := List.replicate 8 0, ext := List.replicate 3 0,
    parent_cluster_number := ROOT_CLUSTER_NUMBER, buffer_size := 0 }

/-- Step 1 of a trace from the freshly formatted disk: `write` of the folder "d"
into the root directory (slot 1 of the root, cluster 3). -/
def trace_step1 : Machine :=
  (write specPlatform fresh_machine (sample_request 100 ext_dir ROOT_CLUSTER_NUMBER 0)).2

/-- Step 2: `write` of the 10-byte file "g.txt" into the root directory (slot 2
of the root, cluster 4). -/
def trace_step2 : Machine :=
  (write specPlatform trace_step1 (sample_request 103 ext_txt ROOT_CLUSTER_NUMBER 10)).2

/-- Step 3: `delete` of "g.txt"; slot 2 of the root keeps its start cluster 4
and has name and extension zeroed. -/
def trace_step3 : Machine :=
  after_delete specPlatform 128 trace_step2 (sample_request 103 ext_txt ROOT_CLUSTER_NUMBER 0)

/-- Step 4: `write` of the 10-byte file "h.txt" into the folder "d" (parent
cluster 3); it receives cluster 4. -/
def trace_step4 : Machine :=
  (write specPlatform trace_step3 (sample_request 104 ext_txt 3 10)).2

/-- Step 5: `delete` with the all-NUL name in the root directory. -/
def trace_step5 : Machine :=
  after_delete specPlatform 128 trace_step4 zero_name_request

/-- The string "hello". -/
def str_hello : List Nat := [104, 101, 108, 108, 111]

/-- The string "hello world". -/
def str_hello_world : List Nat := [104, 101, 108, 108, 111, 32, 119, 111, 114, 108, 100]

/-- The string "help". -/
def str_help : List Nat := [104, 101, 108, 112]

/-- The request to read the file with the given one-letter name and the
extension "txt" from the root directory into a zeroed buffer. -/
def read_request (letter size : Nat) : FAT32DriverRequest :=
  { buf := fun _ => 0, name := [letter, 0, 0, 0, 0, 0, 0, 0], ext := ext_txt,
    parent_cluster_number := ROOT_CLUSTER_NUMBER, buffer_size := size }

/-- The freshly formatted disk with entry 0 of the cached FAT set to
`FAT32_FAT_EMPTY_ENTRY`: a state in which a reserved entry is not reserved. -/
def machine_fat0_empty : Machine :=
  { fresh_machine with
    driver_state :=
      { fresh_machine.driver_state with
        fat_table := upd fresh_machine.driver_state.fat_table 0
          specPlatform.FAT32_FAT_EMPTY_ENTRY } }

/-- A second trace, from step 3 above: `write` of the folder "x" into the
folder "d" (parent cluster 3); it receives cluster 4, which slot 2 of the root
still names. -/
def backptr_step4 : Machine :=
  (write specPlatform trace_step3 (sample_request 120 ext_dir 3 0)).2

/-- The `delete` with the all-NUL name in the root directory after that. -/
def backptr_step5 : Machine :=
  after_delete specPlatform 128 backptr_step4 zero_name_request

/-- The `write` of the folder "y" into the root directory after that. -/
def backptr_step6 : Machine :=
  (write specPlatform backptr_step5 (sample_request 121 ext_dir ROOT_CLUSTER_NUMBER 0)).2

/-- The request of `move_to_parent_directory` for the directory at the given
cluster. -/
def parent_request (cluster : Nat) : FAT32DriverRequest :=
  { buf := fun _ => 0, name := List.replicate 8 0, ext := List.replicate 3 0,
    parent_cluster_number := cluster, buffer_size := 0 }

/-- A `memcmp` that returns -1, 0 or 1 by the first pair of bytes that
differ. -/
def memcmp_sign (a b : List Nat) (n : Nat) : Int :=
  match (List.range n).find? (fun i => a.getD i 0 != b.getD i 0) with
  | none => 0
  | some i => if a.getD i 0 < b.getD i 0 then -1 else 1

/-- A `memcmp` that returns the difference of the first pair of bytes that
differ. -/
def memcmp_diff (a b : List Nat) (n : Nat) : Int :=
  match (List.range n).find? (fun i => a.getD i 0 != b.getD i 0) with
  | none => 0
  | some i => (a.getD i 0 : Int) - (b.getD i 0 : Int)

/-- A request with the given 8-byte name. -/
def named_request (name ext : List Nat) (parent size : Nat) : FAT32DriverRequest :=
  { buf := fun k => k % 251 + 1, name := name, ext := ext,
    parent_cluster_number := parent, buffer_size := size }

/-- The name "docs", padded with NUL bytes. -/
def name_docs : List Nat := [100, 111, 99, 115, 0, 0, 0, 0]

/-- The name "kaguya", padded with NUL bytes. -/
def name_kaguya : List Nat := [107, 97, 103, 117, 121, 97, 0, 0]

/-- The 8-byte name "kaguyaaa". -/
def name_kaguyaaa : List Nat := [107, 97, 103, 117, 121, 97, 97, 97]

/-- The freshly formatted disk with the folder "docs" in the root directory
(cluster 3). -/
def machine_docs : Machine :=
  (write specPlatform fresh_machine (named_request name_docs ext_dir ROOT_CLUSTER_NUMBER 0)).2

/-- The disk with the 10-byte file "kaguya.txt" in the folder "docs". -/
def machine_kaguya : Machine :=
  (write specPlatform machine_docs (named_request name_kaguya ext_txt 3 10)).2

/-- The disk with the 10-byte file "kaguyaaa.txt" in the folder "docs". -/
def machine_kaguyaaa : Machine :=
  (write specPlatform machine_docs (named_request name_kaguyaaa ext_txt 3 10)).2

/-- The first bytes of the memory behind a buffer. -/
def buffer_prefix (r : Option (Nat → Nat)) (n : Nat) : Option (List Nat) :=
  r.map (fun b => (List.range n).map b)

/-- The number of `false` entries of `page_frame_map[PAGE_FRAME_MAX_COUNT]`. -/
def false_entries (PAGE_FRAME_MAX_COUNT : Nat) (s : PageManagerState) : Nat :=
  ((List.range PAGE_FRAME_MAX_COUNT).filter (fun i => !s.page_frame_map i)).length

/-- A page manager state without a free frame: every entry of the bitmap is
true and the free count is 0. -/
def exhausted_state : PageManagerState :=
  { page_frame_map := fun _ => true, free_page_frame_count := 0 }

/-- A page directory without a present entry. -/
def empty_page_directory : PageDirectory :=
  fun _ => { flag := { present_bit := 0, write_bit := 0, user_bit := 0,
                       use_pagesize_4_mb := 0 },
             lower_address := 0 }

/-- The page manager state after a call of `paging_allocate_user_page_frame` or
`paging_free_user_page_frame` whose store to the bitmap is inside the array
(the state before the call otherwise). -/
def after_paging_call (s : PageManagerState)
    (r : Bool × Option PageManagerState × PageDirectory) : PageManagerState :=
  r.2.1.getD s

/-- The page manager state after one call of `paging_allocate_user_page_frame`
from the initial state, with 32 page frames. -/
def state_alloc : PageManagerState :=
  after_paging_call (page_manager_state 32)
    (paging_allocate_user_page_frame 32 (page_manager_state 32) empty_page_directory
      0x400000)

/-- The page manager state after a second call of
`paging_allocate_user_page_frame`. -/
def state_alloc_alloc : PageManagerState :=
  after_paging_call state_alloc
    (paging_allocate_user_page_frame 32 state_alloc empty_page_directory 0x800000)

/-- The page manager state after two calls of `paging_allocate_user_page_frame`
and one call of `paging_free_user_page_frame` from the initial state, with 32
page frames. -/
def state_alloc_alloc_free : PageManagerState :=
  after_paging_call state_alloc_alloc
    (paging_free_user_page_frame 32 state_alloc_alloc empty_page_directory 0x800000)

/-- The freshly formatted disk with all 63 child slots of the root directory
occupied: slot `i` holds an entry named by the byte `i` with the extension
"txt". -/
def machine_root_full : Machine :=
  { fresh_machine with
    storage := upd fresh_machine.storage ROOT_CLUSTER_NUMBER
      (.dir (fun i =>
        if i = 0 then specPlatform.as_dir (fresh_machine.storage ROOT_CLUSTER_NUMBER) 0
        else { zero_entry with
               name := [i, 0, 0, 0, 0, 0, 0, 0], ext := ext_txt,
               user_attribute := specPlatform.UATTR_NOT_EMPTY })) }

/-- The freshly formatted disk with a cached FAT that has no `EMPTY` entry:
every entry from 1 on is `FAT32_FAT_END_OF_FILE`. -/
def machine_fat_full : Machine :=
  { fresh_machine with
    driver_state :=
      { fresh_machine.driver_state with
        fat_table := fun i =>
          if i = 0 then specPlatform.CLUSTER_0_VALUE
          else specPlatform.FAT32_FAT_END_OF_FILE } }

/-- The request that names entry 0 of the root directory as `create_fat32`
stores it: the 8 bytes copied from the literal "root", an all-NUL extension,
parent cluster `ROOT_CLUSTER_NUMBER`. -/
def root_entry_request (E : Platform) : FAT32DriverRequest :=
  { buf := fun _ => 0, name := [114, 111, 111, 116, 0] ++ E.root_literal_tail,
    ext := List.replicate 3 0, parent_cluster_number := ROOT_CLUSTER_NUMBER,
    buffer_size := 0 }

/-- The freshly formatted disk with the folder "kaguyaaa", whose name has 8
bytes, in the root directory (cluster 3). -/
def machine_folder_kaguyaaa : Machine :=
  (write specPlatform fresh_machine
    (named_request name_kaguyaaa ext_dir ROOT_CLUSTER_NUMBER 0)).2

/-- The 7-byte name "kaguyaa", padded with a NUL byte. -/
def name_kaguyaa : List Nat := [107, 97, 103, 117, 121, 97, 97, 0]

/-- Modelled from the spec: 16 process slots, 4 MiB page frames, the kernel at
`0xC0000000`, page directories of 1024 entries; at most 8 page frames per
process, a pool of 32 page directories, the return codes 0 to 4 and the
process states `NEW`, `READY`, `RUNNING`, `WAITING`, `TERMINATED` numbered from
0 are the usual values. -/
def specConfig : ProcessConfig :=
  { PROCESS_COUNT_MAX := 16, PROCESS_PAGE_FRAME_COUNT_MAX := 8,
    PAGING_DIRECTORY_TABLE_MAX_COUNT := 32, PAGE_ENTRY_COUNT := 1024,
    PAGE_FRAME_SIZE := 0x400000, KERNEL_VIRTUAL_ADDRESS_BASE := 0xC0000000,
    CPU_EFLAGS_BASE_FLAG := 0x2, CPU_EFLAGS_FLAG_INTERRUPT_ENABLE := 0x200,
    PROCESS_CREATE_SUCCESS := 0, PROCESS_CREATE_FAIL_MAX_PROCESS_EXCEEDED := 1,
    PROCESS_CREATE_FAIL_INVALID_ENTRYPOINT := 2,
    PROCESS_CREATE_FAIL_NOT_ENOUGH_MEMORY := 3,
    PROCESS_CREATE_FAIL_FS_READ_FAILURE := 4,
    PROCESS_STATE_READY := 1, PROCESS_STATE_TERMINATED := 4 }

/-- The state after a call of `process_create_user_process` that returns (the
state before the call otherwise). -/
def after_create (s : KernelState) (r : Option (Int × KernelState × (Nat → Nat))) :
    KernelState :=
  (r.map (fun x => x.2.1)).getD s

/-- The kernel state at boot, with 32 page frames and the disk that holds the
1500-byte file "a.txt" in the root directory. -/
def kernel_boot : KernelState :=
  initial_kernel_state 32 machine_with_file

/-- The kernel state after `process_create_user_process` for "a.txt" with a
2048-byte buffer at address 0. -/
def kernel_one_process : KernelState :=
  after_create kernel_boot
    (process_create_user_process specPlatform specConfig 128 kernel_boot
      (read_request 97 2048) 0)

/-- The kernel state after a second `process_create_user_process` for "a.txt". -/
def kernel_two_processes : KernelState :=
  after_create kernel_one_process
    (process_create_user_process specPlatform specConfig 128 kernel_one_process
      (read_request 97 2048) 0)

/-- The kernel state after `process_destroy(1)` in the state with two
processes. -/
def kernel_first_destroyed : KernelState :=
  (process_destroy specConfig kernel_two_processes 1).2

/-- The return code of a call of `process_create_user_process`. -/
def create_code (r : Option (Int × KernelState × (Nat → Nat))) : Option Int :=
  r.map (fun x => x.1)

/-- The number of PCB slots whose `pid` is not 0. -/
def occupied_slots (P : ProcessConfig) (s : KernelState) : Nat :=
  ((List.range P.PROCESS_COUNT_MAX).filter (fun i => (s._process_list i).pid != 0)).length

/-- The kernel state after `n` calls of `process_create_user_process` for
"a.txt" from the state at boot. -/
def kernel_after_creates : Nat → KernelState
  | 0 => kernel_boot
  | n + 1 =>
    after_create (kernel_after_creates n)
      (process_create_user_process specPlatform specConfig 128 (kernel_after_creates n)
        (read_request 97 2048) 0)

/-- The kernel state after 16 calls of `process_create_user_process` and then
`process_destroy` for the pids 1 to `n`. -/
def kernel_after_destroys : Nat → KernelState
  | 0 => kernel_after_creates 16
  | n + 1 => (process_destroy specConfig (kernel_after_destroys n) (n + 1)).2

/-- The state with two processes after one call of
`scheduler_switch_to_next_process`. -/
def kernel_switched : KernelState :=
  (scheduler_switch_to_next_process kernel_two_processes).getD kernel_two_processes

/-- A context to save: all registers 7, no page directory. -/
def sample_context : Context :=
  { edi := 7, esi := 7, ebp := 7, esp := 7, ebx := 7, edx := 7, ecx := 7, eax := 7,
    gs := 7, fs := 7, es := 7, ds := 7, eip := 7, eflags := 7, ss := 7, cs := 7,
    page_directory_virtual_addr := none }

/-- The disk of step 1 (the folder "d" in the root directory, cluster 3) after
`write` of the 10-byte file "h.txt" into "d" (cluster 4), with the child slots
2 to 63 of the root directory occupied as well: slot `i` holds an entry named
by the byte `i` with the extension "txt". -/
def machine_folder_root_full : Machine :=
  let m := (write specPlatform trace_step1 (sample_request 104 ext_txt 3 10)).2
  { m with
    storage := upd m.storage ROOT_CLUSTER_NUMBER
      (.dir (fun i =>
        if i ≤ 1 then specPlatform.as_dir (m.storage ROOT_CLUSTER_NUMBER) i
        else { zero_entry with
               name := [i, 0, 0, 0, 0, 0, 0, 0], ext := ext_txt,
               user_attribute := specPlatform.UATTR_NOT_EMPTY })) }

/-- That disk after `write` of the 10-byte file "a.txt" into the root
directory: the root table has no free child slot, so the new entry is stored in
entry 0 of the table (start cluster 5). -/
def machine_root_overwritten : Machine :=
  (write specPlatform machine_folder_root_full
    (sample_request 97 ext_txt ROOT_CLUSTER_NUMBER 10)).2

/-! ## Correctness of the two searches -/

theorem sufAt_refl (P : Nat → Nat) (j : Nat) : SufAt P P j j :=
  ⟨le_refl _, fun x _ => by simp⟩

theorem sufAt_trans {P S : Nat → Nat} {i j k : Nat}
    (h1 : SufAt P P j k) (h2 : SufAt P S i j) : SufAt P S i k := by
  refine ⟨le_trans h1.1 h2.1, fun x hx => ?_⟩
  have a := h1.2 x hx
  have b := h2.2 (j - k + x) (by have := h1.1; omega)
  rw [a, b]
  congr 1
  have := h1.1
  have := h2.1
  omega

theorem sufAt_border {P S : Nat → Nat} {i a b : Nat}
    (ha : SufAt P S i a) (hb : SufAt P S i b) (hab : a ≤ b) : SufAt P P b a := by
  refine ⟨hab, fun x hx => ?_⟩
  have h1 := ha.2 x hx
  have h2 := hb.2 (b - a + x) (by omega)
  rw [h1, h2]
  congr 1
  have := hb.1
  omega

theorem sufAt_pred {P S : Nat → Nat} {i j : Nat} (h : SufAt P S (i + 1) (j + 1)) :
    SufAt P S i j ∧ P j = S i := by
  refine ⟨⟨by have := h.1; omega, fun x hx => ?_⟩, ?_⟩
  · have := h.2 x (by omega)
    rw [this]
    congr 1
    have := h.1
    omega
  · have := h.2 j (by omega)
    rw [this]
    congr 1
    have := h.1
    omega

theorem sufAt_succ {P S : Nat → Nat} {i j : Nat} (h : SufAt P S i j) (hc : P j = S i) :
    SufAt P S (i + 1) (j + 1) := by
  refine ⟨by have := h.1; omega, fun x hx => ?_⟩
  by_cases hxj : x < j
  · have := h.2 x hxj
    rw [this]
    congr 1
    have := h.1
    omega
  · have hx' : x = j := by omega
    subst hx'
    rw [hc]
    congr 1
    have := h.1
    omega

/-- The `while` loop of `knuth_morris_pratt` walks down the borders of `j` and
stops at the longest one that can be extended by `c`. -/
theorem kmp_fallback_spec (p pi : List Nat) (c j : Nat) (hpi : PiOK (charAt p) pi j) :
    ∀ fuel k, k ≤ fuel → k ≤ j → SufAt (charAt p) (charAt p) j k →
      (∀ k', k < k' → k' ≤ j → SufAt (charAt p) (charAt p) j k' → charAt p k' ≠ c) →
      kmp_fallback p pi c fuel k ≤ k ∧
      SufAt (charAt p) (charAt p) j (kmp_fallback p pi c fuel k) ∧
      (kmp_fallback p pi c fuel k = 0 ∨ charAt p (kmp_fallback p pi c fuel k) = c) ∧
      (∀ k', kmp_fallback p pi c fuel k < k' → k' ≤ j →
        SufAt (charAt p) (charAt p) j k' → charAt p k' ≠ c) := by
  intro fuel
  induction fuel with
  | zero =>
    intro k hk _ hs hbig
    have hk0 : k = 0 := by omega
    subst hk0
    exact ⟨le_refl _, hs, Or.inl rfl, hbig⟩
  | succ fuel ih =>
    intro k hk hkj hs hbig
    by_cases hcond : 0 < k ∧ charAt p k ≠ c
    · have hstep : kmp_fallback p pi c (fuel + 1) k
          = kmp_fallback p pi c fuel (pi.getD (k - 1) 0) := by
        simp only [kmp_fallback, if_pos hcond]
      rw [hstep]
      obtain ⟨hlt, hbord, hmax⟩ := hpi k hcond.1 hkj
      have hrec := ih (pi.getD (k - 1) 0) (by omega) (by omega) (sufAt_trans hbord hs)
        (by
          intro k' hk' hk'j hs'
          by_cases h1 : k < k'
          · exact hbig k' h1 hk'j hs'
          · by_cases h2 : k' = k
            · subst h2
              exact hcond.2
            · exfalso
              have hb : SufAt (charAt p) (charAt p) k k' := sufAt_border hs' hs (by omega)
              have := hmax k' (by omega) hb
              omega)
      exact ⟨by omega, hrec.2.1, hrec.2.2.1, hrec.2.2.2⟩
    · have hstep : kmp_fallback p pi c (fuel + 1) k = k := by
        simp only [kmp_fallback, if_neg hcond]
      rw [hstep]
      refine ⟨le_refl _, hs, ?_, hbig⟩
      by_cases hk0 : k = 0
      · exact Or.inl hk0
      · right
        by_contra hne
        exact hcond ⟨by omega, hne⟩

/-- The `while` loop leaves by its own condition, never by the bound on the
number of rounds: more rounds give the same result. -/
theorem kmp_fallback_fuel (p pi : List Nat) (c j : Nat) (hpi : PiOK (charAt p) pi j) :
    ∀ fuel k, k ≤ fuel → k ≤ j →
      kmp_fallback p pi c fuel k = kmp_fallback p pi c k k := by
  intro fuel
  induction fuel using Nat.strong_induction_on with
  | _ fuel ih =>
    intro k hk hkj
    cases fuel with
    | zero =>
      have : k = 0 := by omega
      subst this
      rfl
    | succ fuel =>
      cases k with
      | zero => simp [kmp_fallback]
      | succ k =>
        by_cases hcond : 0 < k + 1 ∧ charAt p (k + 1) ≠ c
        · obtain ⟨hlt, -, -⟩ := hpi (k + 1) (by omega) hkj
          simp only [kmp_fallback, if_pos hcond]
          simp only [Nat.add_sub_cancel] at hlt ⊢
          rw [ih fuel (by omega) _ (by omega) (by omega),
            ih k (by omega) _ (by omega) (by omega)]
        · simp only [kmp_fallback, if_neg hcond]

/-- One round of a `for` loop of `knuth_morris_pratt` turns the longest match
at position `i` into the longest match at position `i + 1`. -/
theorem kmp_step_longest (p pi : List Nat) (S : Nat → Nat) (m i j : Nat)
    (hpi : PiOK (charAt p) pi j) (hj : Longest (charAt p) S m i j) :
    Longest (charAt p) S m (i + 1) (kmp_step p pi (S i) j) ∧
      kmp_step p pi (S i) j ≤ j + 1 := by
  obtain ⟨hle, hbord, hstop, hbig⟩ := kmp_fallback_spec p pi (S i) j hpi j j (le_refl _)
    (le_refl _) (sufAt_refl _ _) (by intro k' h1 h2; omega)
  have hsuf : SufAt (charAt p) S i (kmp_fallback p pi (S i) j j) := sufAt_trans hbord hj.1
  unfold kmp_step
  simp only
  by_cases hc : charAt p (kmp_fallback p pi (S i) j j) = S i
  · rw [if_pos hc]
    refine ⟨⟨sufAt_succ hsuf hc, fun j' hj'm hj' => ?_⟩, by omega⟩
    cases j' with
    | zero => omega
    | succ j' =>
      obtain ⟨hp, hpc⟩ := sufAt_pred hj'
      have h1 : j' ≤ j := hj.2 j' (by omega) hp
      have hb : SufAt (charAt p) (charAt p) j j' := sufAt_border hp hj.1 h1
      by_contra hcon
      exact hbig j' (by omega) h1 hb hpc
  · rw [if_neg hc]
    have h0 : kmp_fallback p pi (S i) j j = 0 := by
      rcases hstop with h0 | h0
      · exact h0
      · exact absurd h0 hc
    rw [h0] at hbig ⊢
    refine ⟨⟨⟨Nat.zero_le _, fun x hx => by omega⟩, fun j' hj'm hj' => ?_⟩, by omega⟩
    cases j' with
    | zero => omega
    | succ j' =>
      obtain ⟨hp, hpc⟩ := sufAt_pred hj'
      have h1 : j' ≤ j := hj.2 j' (by omega) hp
      have hb : SufAt (charAt p) (charAt p) j j' := sufAt_border hp hj.1 h1
      exfalso
      by_cases h2 : 0 < j'
      · exact hbig j' h2 h1 hb hpc
      · have h3 : j' = 0 := by omega
        subst h3
        rw [h0] at hc
        exact hc hpc

theorem piOK_mono {P : Nat → Nat} {pi : List Nat} {L L' : Nat} (h : PiOK P pi L)
    (hL : L' ≤ L) : PiOK P pi L' :=
  fun q h1 h2 => h q h1 (le_trans h2 hL)

theorem sufAt_shift (P : Nat → Nat) (i k : Nat) :
    SufAt P (fun x => P (x + 1)) i k ↔ k < i + 1 ∧ SufAt P P (i + 1) k := by
  constructor
  · rintro ⟨h1, h2⟩
    refine ⟨by omega, by omega, fun x hx => ?_⟩
    have h3 : P x = P (i - k + x + 1) := h2 x hx
    rw [h3]
    congr 1
    omega
  · rintro ⟨h1, -, h2⟩
    refine ⟨by omega, fun x hx => ?_⟩
    show P x = P (i - k + x + 1)
    rw [h2 x hx]
    congr 1
    omega

/-- The first `for` loop of `knuth_morris_pratt` computes the border table. -/
theorem kmp_table_loop_ok (p : List Nat) (m : Nat) :
    ∀ rounds i k pi, 1 ≤ i → i + rounds = m → pi.length = i → PiOK (charAt p) pi i →
      k = pi.getD (i - 1) 0 → PiOK (charAt p) (kmp_table_loop p rounds i k pi) m := by
  intro rounds
  induction rounds with
  | zero =>
    intro i k pi _ him _ hpi _
    have : i = m := by omega
    subst this
    exact hpi
  | succ rounds ih =>
    intro i k pi hi him hlen hpi hk
    obtain ⟨hlt, hbord, hmax⟩ := hpi i hi (le_refl _)
    rw [← hk] at hlt hbord hmax
    have hlong : Longest (charAt p) (fun x => charAt p (x + 1)) m (i - 1) k := by
      refine ⟨(sufAt_shift _ _ _).2 ⟨by omega, ?_⟩, fun j' _ hj' => ?_⟩
      · rw [Nat.sub_add_cancel hi]
        exact hbord
      · have := (sufAt_shift _ _ _).1 hj'
        rw [Nat.sub_add_cancel hi] at this
        exact hmax j' this.1 this.2
    have hstep := kmp_step_longest p pi (fun x => charAt p (x + 1)) m (i - 1) k
      (piOK_mono hpi (by omega)) hlong
    simp only [Nat.sub_add_cancel hi] at hstep
    obtain ⟨⟨hs1, hs2⟩, hs3⟩ := hstep
    have hs1' := (sufAt_shift _ _ _).1 hs1
    simp only [kmp_table_loop]
    apply ih (i + 1) _ _ (by omega) (by omega) (by simp [hlen])
    · intro q hq1 hq2
      by_cases hq : q ≤ i
      · have := hpi q hq1 hq
        rw [List.getD_append _ _ _ _ (by omega)]
        exact this
      · have hq' : q = i + 1 := by omega
        subst hq'
        have hget : (pi ++ [kmp_step p pi (charAt p i) k]).getD (i + 1 - 1) 0
            = kmp_step p pi (charAt p i) k := by
          rw [List.getD_append_right _ _ _ _ (by simp [hlen])]
          simp [hlen]
        rw [hget]
        refine ⟨hs1'.1, hs1'.2, fun k' hk' hsk' => ?_⟩
        exact hs2 k' (by omega) ((sufAt_shift _ _ _).2 ⟨hk', hsk'⟩)
    · rw [List.getD_append_right _ _ _ _ (by simp [hlen])]
      simp [hlen]

theorem kmp_table_ok (p : List Nat) (m : Nat) (hm : 1 ≤ m) :
    PiOK (charAt p) (kmp_table p m) m := by
  unfold kmp_table
  apply kmp_table_loop_ok p m (m - 1) 1 0 [0] (le_refl _) (by omega) rfl
  · intro q h1 h2
    have : q = 1 := by omega
    subst this
    refine ⟨by simp, ⟨by simp, fun x hx => by simp at hx⟩, fun k hk _ => by simp; omega⟩
  · rfl

/-- The second `for` loop of `knuth_morris_pratt` reports exactly the matches
that end behind position `i`. -/
theorem kmp_search_spec (p pi t : List Nat) (m : Nat)
    (hpi : PiOK (charAt p) pi m) :
    ∀ text i j, t.drop i = text → Longest (charAt p) (charAt t) m i j → j < m →
      (kmp_search p pi m text j = true ↔
        ∃ i', i < i' ∧ i' ≤ t.length ∧ SufAt (charAt p) (charAt t) i' m) := by
  intro text
  induction text with
  | nil =>
    intro i j hdrop _ _
    have hlen : t.length ≤ i := by
      have := congrArg List.length hdrop
      simp at this
      omega
    simp only [kmp_search, Bool.false_eq_true, false_iff]
    rintro ⟨i', h1, h2, -⟩
    omega
  | cons c text ih =>
    intro i j hdrop hj hjm
    have hil : i < t.length := by
      have := congrArg List.length hdrop
      simp at this
      omega
    have hc : charAt t i = c := by
      have h1 : (t.drop i)[0]? = some c := by rw [hdrop]; simp
      rw [List.getElem?_drop] at h1
      simp only [charAt, List.getD_eq_getElem?_getD]
      simp at h1
      rw [h1]
      rfl
    have hdrop' : t.drop (i + 1) = text := by
      have : t.drop (i + 1) = (t.drop i).drop 1 := by
        rw [List.drop_drop, Nat.add_comm]
      rw [this, hdrop]
      rfl
    obtain ⟨hlong, hle⟩ := kmp_step_longest p pi (charAt t) m i j (piOK_mono hpi (by omega)) hj
    rw [hc] at hlong hle
    simp only [kmp_search]
    by_cases hfull : kmp_step p pi c j = m
    · rw [if_pos hfull]
      simp only [true_iff]
      exact ⟨i + 1, by omega, by omega, hfull ▸ hlong.1⟩
    · rw [if_neg hfull]
      rw [ih (i + 1) _ hdrop' hlong (by omega)]
      constructor
      · rintro ⟨i', h1, h2, h3⟩
        exact ⟨i', by omega, h2, h3⟩
      · rintro ⟨i', h1, h2, h3⟩
        refine ⟨i', ?_, h2, h3⟩
        by_contra hcon
        have : i' = i + 1 := by omega
        subst this
        have := hlong.2 m (le_refl _) h3
        omega

theorem occAt_iff_sufAt (p t : List Nat) (s : Nat) :
    OccAt p t s ↔ s + p.length ≤ t.length ∧
      SufAt (charAt p) (charAt t) (s + p.length) p.length := by
  unfold OccAt SufAt
  constructor
  · rintro ⟨h1, h2⟩
    refine ⟨h1, by omega, fun x hx => ?_⟩
    rw [h2 x hx]
    congr 1
    omega
  · rintro ⟨h1, -, h2⟩
    refine ⟨h1, fun x hx => ?_⟩
    rw [h2 x hx]
    congr 1
    omega

/-- Occurring at some offset is being a contiguous sublist. -/
theorem isInfix_iff_occAt (p t : List Nat) : p <:+: t ↔ ∃ s, OccAt p t s := by
  rw [List.isInfix_iff]
  constructor
  · rintro ⟨k, h1, h2⟩
    refine ⟨k, by omega, fun x hx => ?_⟩
    have := h2 x hx
    simp only [charAt, List.getD_eq_getElem?_getD]
    rw [Nat.add_comm k x, this]
    simp [List.getElem?_eq_getElem hx]
  · rintro ⟨s, h1, h2⟩
    refine ⟨s, by omega, fun x hx => ?_⟩
    have := h2 x hx
    simp only [charAt, List.getD_eq_getElem?_getD] at this
    have hx2 : s + x < t.length := by omega
    rw [List.getElem?_eq_getElem hx, List.getElem?_eq_getElem hx2] at this
    simp only [Option.getD_some] at this
    rw [Nat.add_comm x s, List.getElem?_eq_getElem hx2, this]

/-- Correctness of the search of `knuth_morris_pratt` for a non-empty pattern. -/
theorem kmp_correct (bp bt : List Nat) (hm : cstr bp ≠ []) :
    knuth_morris_pratt bp bt = true ↔ cstr bp <:+: cstr bt := by
  have hlen : 1 ≤ (cstr bp).length := by
    cases h : cstr bp with
    | nil => exact absurd h hm
    | cons a l => simp
  unfold knuth_morris_pratt strlen
  simp only
  rw [if_neg (by omega)]
  rw [kmp_search_spec (cstr bp) _ (cstr bt) _ (kmp_table_ok _ _ hlen) (cstr bt) 0 0 rfl
    ⟨⟨le_refl _, fun x hx => by omega⟩, fun j' _ hj' => hj'.1⟩ (by omega)]
  rw [isInfix_iff_occAt]
  constructor
  · rintro ⟨i', -, h2, h3⟩
    refine ⟨i' - (cstr bp).length, (occAt_iff_sufAt _ _ _).2 ?_⟩
    have := h3.1
    rw [Nat.sub_add_cancel this]
    exact ⟨h2, h3⟩
  · rintro ⟨s, hs⟩
    obtain ⟨h1, h2⟩ := (occAt_iff_sufAt _ _ _).1 hs
    exact ⟨s + (cstr bp).length, by omega, h1, h2⟩

theorem getD_set_int (bad : List Int) (a d : Nat) (v : Int) :
    (bad.set a v).getD d (-1) = if a = d ∧ a < bad.length then v else bad.getD d (-1) := by
  simp only [List.getD_eq_getElem?_getD, List.getElem?_set]
  by_cases h1 : a = d
  · subst h1
    by_cases h2 : a < bad.length
    · simp [h2]
    · simp only [h2, if_true, if_false, and_false]
      rw [List.getElem?_eq_none (by omega)]
  · simp [h1]

/-- Filling the table never lowers an entry below a value that is at most the
current index. -/
theorem bad_char_fill_ge : ∀ (rest : List Nat) (i : Nat) (bad : List Int) (d : Nat) (v : Int),
    v ≤ (i : Int) → v ≤ bad.getD d (-1) → v ≤ (bad_char_fill rest i bad).getD d (-1) := by
  intro rest
  induction rest with
  | nil => intro i bad d v _ h; exact h
  | cons c rest ih =>
    intro i bad d v hv h
    simp only [bad_char_fill]
    apply ih (i + 1) _ d v (by push_cast; omega)
    rw [getD_set_int]
    split
    · exact hv
    · exact h

/-- After the fill, the entry of every pattern character is at least the index
of that character. -/
theorem bad_char_fill_last : ∀ (rest : List Nat) (i : Nat) (bad : List Int),
    bad.length = 256 → ∀ x, x < rest.length →
      ((i + x : Nat) : Int) ≤ (bad_char_fill rest i bad).getD (charAt rest x % 256) (-1) := by
  intro rest
  induction rest with
  | nil => intro i bad _ x hx; simp at hx
  | cons c rest ih =>
    intro i bad hlen x hx
    simp only [bad_char_fill]
    cases x with
    | zero =>
      apply bad_char_fill_ge rest (i + 1) _ _ _ (by push_cast; omega)
      rw [getD_set_int]
      have h256 : c % 256 < 256 := Nat.mod_lt _ (by norm_num)
      simp [charAt, hlen, h256]
    | succ x =>
      have := ih (i + 1) (bad.set (c % 256) (i : Int)) (by simp [hlen]) x
        (by simp at hx; omega)
      have e : charAt (c :: rest) (x + 1) = charAt rest x := by simp [charAt]
      rw [e]
      have e2 : i + (x + 1) = i + 1 + x := by omega
      rw [e2]
      exact this

theorem bad_char_table_last (p : List Nat) (x : Nat) (hx : x < p.length) :
    (x : Int) ≤ (bad_char_table p).getD (charAt p x % 256) (-1) := by
  have := bad_char_fill_last p 0 (List.replicate 256 (-1)) (List.length_replicate _ _) x hx
  rw [Nat.zero_add] at this
  exact this

theorem bad_char_table_ge (p : List Nat) (d : Nat) :
    (-1 : Int) ≤ (bad_char_table p).getD d (-1) := by
  apply bad_char_fill_ge p 0 _ d (-1) (by norm_num)
  simp only [List.getD_eq_getElem?_getD]
  cases h : (List.replicate 256 (-1 : Int))[d]? with
  | none => simp
  | some v =>
    have := List.getElem?_replicate.symm.trans h
    split at this
    · simp at this
      simp [← this]
    · simp at this

/-- The comparison loop of `boyer_moore`: either all of the last `k` positions
match, or the result is the last mismatching position. -/
theorem bm_scan_spec (p t : List Nat) (s : Nat) : ∀ k,
    (bm_scan p t s k = -1 ∧ ∀ x, x < k → charAt p x = charAt t (s + x)) ∨
    (0 ≤ bm_scan p t s k ∧ bm_scan p t s k < k ∧
      charAt p (bm_scan p t s k).toNat ≠ charAt t (s + (bm_scan p t s k).toNat) ∧
      ∀ x : Nat, bm_scan p t s k < (x : Int) → x < k → charAt p x = charAt t (s + x)) := by
  intro k
  induction k with
  | zero => left; exact ⟨rfl, fun x hx => by omega⟩
  | succ k ih =>
    simp only [bm_scan]
    by_cases h : charAt p k = charAt t (s + k)
    · rw [if_pos h]
      rcases ih with ⟨h1, h2⟩ | ⟨h1, h2, h3, h4⟩
      · left
        refine ⟨h1, fun x hx => ?_⟩
        by_cases hxk : x < k
        · exact h2 x hxk
        · have : x = k := by omega
          subst this
          exact h
      · right
        refine ⟨h1, by push_cast; omega, h3, fun x hx1 hx2 => ?_⟩
        by_cases hxk : x < k
        · exact h4 x hx1 hxk
        · have : x = k := by omega
          subst this
          exact h
    · rw [if_neg h]
      right
      refine ⟨by omega, by push_cast; omega, by simpa using h, fun x hx1 hx2 => ?_⟩
      omega

theorem bm_shift_pos (bad : List Int) (c : Nat) (j : Int) : 1 ≤ bm_shift bad c j := by
  unfold bm_shift
  split <;> omega

/-- The main loop of `boyer_moore` finds an occurrence exactly when there is
one, provided none starts before `s`. -/
theorem bm_loop_spec (p t : List Nat) :
    ∀ fuel s, t.length < fuel + s → (∀ s', s' < s → ¬ OccAt p t s') →
      (bm_loop p t (bad_char_table p) p.length t.length fuel s = true ↔ ∃ s', OccAt p t s') := by
  intro fuel
  induction fuel with
  | zero =>
    intro s hs hno
    simp only [bm_loop, Bool.false_eq_true, false_iff]
    rintro ⟨s', h⟩
    by_cases h1 : s' < s
    · exact hno s' h1 h
    · have := h.1
      omega
  | succ fuel ih =>
    intro s hs hno
    simp only [bm_loop]
    by_cases hcond : (s : Int) ≤ (t.length : Int) - (p.length : Int)
    · rw [if_pos hcond]
      rcases bm_scan_spec p t s p.length with ⟨h1, h2⟩ | ⟨h1, h2, h3, h4⟩
      · rw [if_pos (by omega)]
        simp only [true_iff]
        exact ⟨s, by omega, h2⟩
      · rw [if_neg (by omega)]
        generalize hj : bm_scan p t s p.length = j at h1 h2 h3 h4
        obtain ⟨jn, rfl⟩ := Int.eq_ofNat_of_zero_le h1
        simp only [Int.toNat_ofNat] at h3 ⊢
        have hpos := bm_shift_pos (bad_char_table p) (charAt t (s + jn)) (jn : Int)
        apply ih _ (by omega)
        intro s' hs' hocc
        by_cases hlt : s' < s
        · exact hno s' hlt hocc
        · by_cases heq : s' = s
          · subst heq
            exact h3 (hocc.2 jn (by omega))
          · have hd : ((s' - s : Nat) : Int) < bm_shift (bad_char_table p) (charAt t (s + jn)) jn := by
              omega
            unfold bm_shift at hd
            split at hd
            · have hge := bad_char_table_ge p (charAt t (s + jn) % 256)
              have hx : jn - (s' - s) < p.length := by omega
              have hchar := hocc.2 (jn - (s' - s)) hx
              have e : s' + (jn - (s' - s)) = s + jn := by omega
              rw [e] at hchar
              have hl := bad_char_table_last p (jn - (s' - s)) hx
              rw [hchar] at hl
              omega
            · omega
    · rw [if_neg hcond]
      simp only [Bool.false_eq_true, false_iff]
      rintro ⟨s', h⟩
      by_cases h1 : s' < s
      · exact hno s' h1 h
      · have := h.1
        omega

/-- The bound on the rounds of the main loop of `boyer_moore` is never
reached: any two large enough bounds give the same result. -/
theorem bm_loop_fuel (p t : List Nat) (bad : List Int) (m n : Nat) :
    ∀ fuel1 fuel2 s, n < fuel1 + s → n < fuel2 + s →
      bm_loop p t bad m n fuel1 s = bm_loop p t bad m n fuel2 s := by
  intro fuel1
  induction fuel1 with
  | zero =>
    intro fuel2 s h1 _
    cases fuel2 with
    | zero => rfl
    | succ fuel2 =>
      simp only [bm_loop]
      rw [if_neg (by omega)]
  | succ fuel1 ih =>
    intro fuel2 s h1 h2
    cases fuel2 with
    | zero =>
      simp only [bm_loop]
      rw [if_neg (by omega)]
    | succ fuel2 =>
      simp only [bm_loop]
      split
      · split
        · rfl
        · have hpos := bm_shift_pos bad
            (charAt t (s + (bm_scan p t s m).toNat)) (bm_scan p t s m)
          apply ih <;> omega
      · rfl

/-- Correctness of `boyer_moore`. -/
theorem bm_correct (bp bt : List Nat) :
    boyer_moore bp bt = true ↔ cstr bp <:+: cstr bt := by
  unfold boyer_moore strlen
  simp only
  rw [bm_loop_spec (cstr bp) (cstr bt) _ 0 (by omega) (fun s' hs' => by omega)]
  exact (isInfix_iff_occAt _ _).symm

/-! ## Properties of the FAT32 driver -/

theorem upd_same {α : Type} (f : Nat → α) (i : Nat) (v : α) : upd f i v i = v := by
  simp [upd]

theorem upd_other {α : Type} (f : Nat → α) {i x : Nat} (v : α) (h : x ≠ i) :
    upd f i v x = f x := by
  simp [upd, h]

theorem find?_eq_head?_filter {α : Type} (p : α → Bool) (l : List α) :
    l.find? p = (l.filter p).head? := by
  induction l with
  | nil => rfl
  | cons a l ih =>
    by_cases h : p a = true
    · rw [List.find?_cons_of_pos _ h, List.filter_cons_of_pos h]
      rfl
    · rw [List.find?_cons_of_neg _ h, List.filter_cons_of_neg h]
      exact ih

theorem range_filter_skip2 (p : Nat → Bool) (n : Nat) (h0 : p 0 = false) (h1 : p 1 = false) :
    (List.range n).filter p = (List.range' 2 (n - 2)).filter p := by
  rcases n with _ | _ | n
  · rfl
  · simp [List.range_succ, h0]
  · rw [List.range_eq_range', List.range'_succ, List.range'_succ]
    simp [List.filter, h0, h1]

theorem to_int32_small (n : Nat) (hn : n < 2 ^ 31) : to_int32 n = (n : Int) := by
  unfold to_int32
  have h : n % 2 ^ 32 = n := Nat.mod_eq_of_lt (by omega)
  rw [h, if_pos hn]

theorem nat_ceil_div (n cs : Nat) (hcs : 0 < cs) :
    n / cs + (if n % cs ≠ 0 then 1 else 0) = (n + cs - 1) / cs := by
  have hdm := Nat.div_add_mod n cs
  have hlt := Nat.mod_lt n hcs
  by_cases h : n % cs = 0
  · simp only [h, ne_eq, not_true_eq_false, if_false, Nat.add_zero]
    symm
    apply Nat.div_eq_of_lt_le
    · rw [Nat.mul_comm]; omega
    · rw [Nat.mul_comm, Nat.mul_add]; omega
  · simp only [ne_eq, h, not_false_eq_true, if_true]
    symm
    apply Nat.div_eq_of_lt_le
    · rw [Nat.mul_comm, Nat.mul_add]; omega
    · rw [Nat.mul_comm, Nat.mul_add, Nat.mul_add]; omega

/-- For sizes below `2 ^ 31`, `cluster_count` is the rounded-up quotient. -/
theorem write_cluster_count_eq (E : Platform) (hE : E.Sane) (request : FAT32DriverRequest)
    (hn : request.buffer_size < 2 ^ 31) :
    write_cluster_count E request
      = (request.buffer_size + E.CLUSTER_SIZE - 1) / E.CLUSTER_SIZE := by
  unfold write_cluster_count ceil_div to_uint32
  rw [to_int32_small _ hn, ← Int.ofNat_tdiv, ← Int.ofNat_tmod,
    ← nat_ceil_div _ _ hE.cluster_size_pos]
  have hq : request.buffer_size / E.CLUSTER_SIZE ≤ request.buffer_size := Nat.div_le_self _ _
  have hcast : ((request.buffer_size / E.CLUSTER_SIZE : Nat) : Int)
      + (if ((request.buffer_size % E.CLUSTER_SIZE : Nat) : Int) ≠ 0 then 1 else 0)
      = ((request.buffer_size / E.CLUSTER_SIZE
          + (if request.buffer_size % E.CLUSTER_SIZE ≠ 0 then 1 else 0) : Nat) : Int) := by
    by_cases h : request.buffer_size % E.CLUSTER_SIZE = 0
    · have h' : ((request.buffer_size % E.CLUSTER_SIZE : Nat) : Int) = 0 := by
        exact_mod_cast h
      rw [if_neg (not_not.2 h'), if_neg (not_not.2 h)]
      rfl
    · have h' : ((request.buffer_size % E.CLUSTER_SIZE : Nat) : Int) ≠ 0 := by
        exact_mod_cast h
      rw [if_pos h', if_pos h]
      rfl
  rw [hcast]
  have hlt : request.buffer_size / E.CLUSTER_SIZE
      + (if request.buffer_size % E.CLUSTER_SIZE ≠ 0 then 1 else 0) < 2 ^ 32 := by
    split <;> omega
  have e : (((request.buffer_size / E.CLUSTER_SIZE
      + (if request.buffer_size % E.CLUSTER_SIZE ≠ 0 then 1 else 0) : Nat) : Int) % 2 ^ 32)
      = ((request.buffer_size / E.CLUSTER_SIZE
      + (if request.buffer_size % E.CLUSTER_SIZE ≠ 0 then 1 else 0) : Nat) : Int) := by
    apply Int.emod_eq_of_lt
    · exact Int.ofNat_nonneg _
    · exact_mod_cast hlt
  rw [e, Int.toNat_ofNat]

theorem entry_cluster_split (c : Nat) (h : c < 2 ^ 32) :
    (c &&& 0xFFFF) ||| (((c >>> 16) &&& 0xFFFF) <<< 16) = c := by
  have e1 : c &&& 0xFFFF = c % 2 ^ 16 := Nat.and_pow_two_sub_one_eq_mod c 16
  have e2 : (c >>> 16) &&& 0xFFFF = (c >>> 16) % 2 ^ 16 :=
    Nat.and_pow_two_sub_one_eq_mod _ 16
  rw [e1, e2, Nat.shiftRight_eq_div_pow, Nat.shiftLeft_eq, Nat.lor_comm, Nat.mul_comm,
    ← Nat.mul_add_lt_is_or (Nat.mod_lt _ (by norm_num))]
  have : c / 2 ^ 16 < 2 ^ 16 := by
    apply Nat.div_lt_of_lt_mul
    norm_num at h ⊢
    omega
  rw [Nat.mod_eq_of_lt this]
  exact Nat.div_add_mod c (2 ^ 16)


/-- A call of `write` that returns 0 has passed the three checks. -/
theorem write_ok_inv (E : Platform) (m : Machine) (request : FAT32DriverRequest)
    (h : (write E m request).1 = 0) :
    (E.as_dir (m.storage request.parent_cluster_number) 0).attr = E.ATTR_SUBDIRECTORY ∧
    (List.range directory_size).any
      (fun i => entry_matches (E.as_dir (m.storage request.parent_cluster_number) i) request)
      = false ∧
    write_cluster_count E request ≤ write_cluster_available E m.driver_state.fat_table := by
  unfold write at h
  simp only at h
  split_ifs at h with h1 h2 h3 h4
  · simp at h
  · simp at h
  · simp at h
  · exact ⟨not_not.1 h1, by simpa using h2, by omega⟩
  · exact ⟨not_not.1 h1, by simpa using h2, by omega⟩

/-- The result of `write` for a file once the three checks are passed. -/
theorem write_file_eq (E : Platform) (m : Machine) (request : FAT32DriverRequest)
    (hdir : (E.as_dir (m.storage request.parent_cluster_number) 0).attr = E.ATTR_SUBDIRECTORY)
    (hnm : (List.range directory_size).any
      (fun i => entry_matches (E.as_dir (m.storage request.parent_cluster_number) i) request)
      = false)
    (hav : write_cluster_count E request ≤ write_cluster_available E m.driver_state.fat_table)
    (hsz : request.buffer_size ≠ 0) :
    write E m request =
      (0, { driver_state :=
              { fat_table := (write_file_loop E request.buf
                  (write_empty_clusters E m.driver_state.fat_table)
                  (write_cluster_count E request) (write_cluster_count E request) 0
                  m.driver_state.fat_table m.storage).1,
                dir_table_buf := upd (E.as_dir (m.storage request.parent_cluster_number))
                  (write_new_entry_idx E (E.as_dir (m.storage request.parent_cluster_number)))
                  (write_new_entry E request (write_empty_cluster E m.driver_state.fat_table)) },
            storage := upd (upd (write_file_loop E request.buf
                  (write_empty_clusters E m.driver_state.fat_table)
                  (write_cluster_count E request) (write_cluster_count E request) 0
                  m.driver_state.fat_table m.storage).2 request.parent_cluster_number
                (.dir (upd (E.as_dir (m.storage request.parent_cluster_number))
                  (write_new_entry_idx E (E.as_dir (m.storage request.parent_cluster_number)))
                  (write_new_entry E request (write_empty_cluster E m.driver_state.fat_table)))))
              FAT_CLUSTER_NUMBER
              (.fat (write_file_loop E request.buf
                  (write_empty_clusters E m.driver_state.fat_table)
                  (write_cluster_count E request) (write_cluster_count E request) 0
                  m.driver_state.fat_table m.storage).1) }) := by
  unfold write
  simp only
  rw [if_neg (not_not.2 hdir), if_neg (by simp [hnm]), if_neg (by omega), if_neg hsz]

/-- The result of `write` for a folder once the checks are passed. -/
theorem write_folder_eq (E : Platform) (m : Machine) (request : FAT32DriverRequest)
    (hdir : (E.as_dir (m.storage request.parent_cluster_number) 0).attr = E.ATTR_SUBDIRECTORY)
    (hnm : (List.range directory_size).any
      (fun i => entry_matches (E.as_dir (m.storage request.parent_cluster_number) i) request)
      = false)
    (hav : write_cluster_count E request ≤ write_cluster_available E m.driver_state.fat_table)
    (hsz : request.buffer_size = 0) :
    write E m request =
      (0, { driver_state :=
              { fat_table := upd m.driver_state.fat_table
                  (write_empty_cluster E m.driver_state.fat_table) E.FAT32_FAT_END_OF_FILE,
                dir_table_buf := upd (E.as_dir (m.storage request.parent_cluster_number))
                  (write_new_entry_idx E (E.as_dir (m.storage request.parent_cluster_number)))
                  { write_new_entry E request (write_empty_cluster E m.driver_state.fat_table)
                    with attr := E.ATTR_SUBDIRECTORY } },
            storage := upd (upd (upd m.storage (write_empty_cluster E m.driver_state.fat_table)
                  (.dir (init_directory_table E zero_table request.name
                    request.parent_cluster_number)))
                request.parent_cluster_number
                (.dir (upd (E.as_dir (m.storage request.parent_cluster_number))
                  (write_new_entry_idx E (E.as_dir (m.storage request.parent_cluster_number)))
                  { write_new_entry E request (write_empty_cluster E m.driver_state.fat_table)
                    with attr := E.ATTR_SUBDIRECTORY })))
              FAT_CLUSTER_NUMBER
              (.fat (upd m.driver_state.fat_table
                  (write_empty_cluster E m.driver_state.fat_table)
                  E.FAT32_FAT_END_OF_FILE)) }) := by
  unfold write
  simp only
  rw [if_neg (not_not.2 hdir), if_neg (by simp [hnm]), if_neg (by omega), if_pos hsz]


theorem specPlatform_sane : specPlatform.Sane :=
  ⟨by decide, by decide, by decide, by decide, by decide, by decide, by decide⟩

theorem range'_two_sublist_range (n : Nat) : (List.range' 2 (n - 2)).Sublist (List.range n) := by
  rcases n with _ | _ | n
  · exact List.nil_sublist _
  · exact List.nil_sublist _
  · rw [List.range_eq_range', List.range'_succ, List.range'_succ]
    exact List.Sublist.cons _ (List.Sublist.cons _ (List.Sublist.refl _))

theorem write_cluster_available_le (E : Platform) (fat : FAT32FileAllocationTable) :
    write_cluster_available E fat ≤ (write_empty_clusters E fat).length :=
  ((range'_two_sublist_range _).filter _).length_le

/-- C6: for every request whose parent cluster does not hold a directory table
(entry 0 lacks `ATTR_SUBDIRECTORY`), `write` returns -1; the code 2 that the
documentation of `write` gives for an invalid parent cluster is never returned
on this path. -/
theorem write_bad_parent_returns_minus_one (E : Platform) (m : Machine)
    (request : FAT32DriverRequest)
    (h : (E.as_dir (m.storage request.parent_cluster_number) 0).attr ≠ E.ATTR_SUBDIRECTORY) :
    (write E m request).1 = -1 ∧ (write E m request).1 ≠ 2 := by
  unfold write
  simp only
  rw [if_pos h]
  exact ⟨rfl, show (-1 : Int) ≠ 2 by decide⟩

/-- Witness of C6: on the freshly formatted disk cluster 3 holds no directory
table, and a write of "a.txt" with parent cluster 3 returns -1. -/
theorem write_bad_parent_returns_minus_one_witness :
    (specPlatform.as_dir (fresh_machine.storage
        (sample_request 97 ext_txt 3 1).parent_cluster_number) 0).attr
      ≠ specPlatform.ATTR_SUBDIRECTORY ∧
    (write specPlatform fresh_machine (sample_request 97 ext_txt 3 1)).1 = -1 ∧
    (write specPlatform fresh_machine (sample_request 97 ext_txt 3 1)).1 ≠ 2 :=
  ⟨by decide,
    write_bad_parent_returns_minus_one specPlatform fresh_machine
      (sample_request 97 ext_txt 3 1) (by decide)⟩

/-- C7: for every request whose parent is a directory and whose name and
extension match an entry of the parent's directory table, `write` returns 1
and changes neither the cached FAT nor any cluster on disk. -/
theorem write_existing_name_returns_one (E : Platform) (m : Machine)
    (request : FAT32DriverRequest)
    (hdir : (E.as_dir (m.storage request.parent_cluster_number) 0).attr = E.ATTR_SUBDIRECTORY)
    (hmatch : ∃ i, i < directory_size ∧
      entry_matches (E.as_dir (m.storage request.parent_cluster_number) i) request = true) :
    (write E m request).1 = 1 ∧
    (write E m request).2.driver_state.fat_table = m.driver_state.fat_table ∧
    (write E m request).2.storage = m.storage := by
  obtain ⟨i, hi, hm⟩ := hmatch
  have hany : (List.range directory_size).any
      (fun i => entry_matches (E.as_dir (m.storage request.parent_cluster_number) i) request)
      = true := List.any_eq_true.2 ⟨i, List.mem_range.2 hi, hm⟩
  unfold write
  simp only
  rw [if_neg (not_not.2 hdir), if_pos hany]
  exact ⟨rfl, rfl, rfl⟩

/-- C8 (amended): for every request of fewer than `2 ^ 31` bytes whose name
and extension match no entry of the table in the parent cluster, if the FAT
holds fewer `EMPTY` entries than the rounded-up quotient of `buffer_size` by
`CLUSTER_SIZE`, `write` returns -1 and changes neither the cached FAT nor any
cluster on disk. -/
theorem write_no_space_returns_minus_one (E : Platform) (hE : E.Sane) (m : Machine)
    (request : FAT32DriverRequest) (hn : request.buffer_size < 2 ^ 31)
    (hnm : ∀ i, i < directory_size →
      entry_matches (E.as_dir (m.storage request.parent_cluster_number) i) request = false)
    (hfull : (write_empty_clusters E m.driver_state.fat_table).length
      < (request.buffer_size + E.CLUSTER_SIZE - 1) / E.CLUSTER_SIZE) :
    (write E m request).1 = -1 ∧
    (write E m request).2.driver_state.fat_table = m.driver_state.fat_table ∧
    (write E m request).2.storage = m.storage := by
  have hany : ¬ (List.range directory_size).any
      (fun i => entry_matches (E.as_dir (m.storage request.parent_cluster_number) i) request)
      = true := by
    rw [List.any_eq_true]
    rintro ⟨i, hi, hm⟩
    rw [hnm i (List.mem_range.1 hi)] at hm
    exact Bool.false_ne_true hm
  have hav : write_cluster_available E m.driver_state.fat_table
      < write_cluster_count E request := by
    rw [write_cluster_count_eq E hE request hn]
    exact lt_of_le_of_lt (write_cluster_available_le E _) hfull
  unfold write
  simp only
  by_cases hdir : (E.as_dir (m.storage request.parent_cluster_number) 0).attr
      ≠ E.ATTR_SUBDIRECTORY
  · rw [if_pos hdir]
    exact ⟨rfl, rfl, rfl⟩
  · rw [if_neg hdir, if_neg hany, if_pos hav]
    exact ⟨rfl, rfl, rfl⟩


/-- Witness of C7: a second write of "a.txt" into the root directory. -/
theorem write_existing_name_returns_one_witness :
    (specPlatform.as_dir (machine_with_file.storage
      (sample_request 97 ext_txt ROOT_CLUSTER_NUMBER 10).parent_cluster_number) 0).attr
      = specPlatform.ATTR_SUBDIRECTORY ∧
    (write specPlatform machine_with_file
      (sample_request 97 ext_txt ROOT_CLUSTER_NUMBER 10)).1 = 1 ∧
    (write specPlatform machine_with_file
      (sample_request 97 ext_txt ROOT_CLUSTER_NUMBER 10)).2.driver_state.fat_table
      = machine_with_file.driver_state.fat_table ∧
    (write specPlatform machine_with_file
      (sample_request 97 ext_txt ROOT_CLUSTER_NUMBER 10)).2.storage
      = machine_with_file.storage :=
  ⟨by decide!,
    write_existing_name_returns_one specPlatform machine_with_file
      (sample_request 97 ext_txt ROOT_CLUSTER_NUMBER 10) (by decide!) ⟨1, by decide, by decide!⟩⟩

/-- Counterexample to C8 as stated: "a.txt" exists in the root directory and a
request to write 102400 bytes under that name needs 200 clusters, more than
the FAT has `EMPTY` entries; `write` returns 1, not -1. -/
theorem write_no_space_counterexample :
    (write_empty_clusters specPlatform machine_with_file.driver_state.fat_table).length
      < ((sample_request 97 ext_txt ROOT_CLUSTER_NUMBER 102400).buffer_size
          + specPlatform.CLUSTER_SIZE - 1) / specPlatform.CLUSTER_SIZE ∧
    (write specPlatform machine_with_file
      (sample_request 97 ext_txt ROOT_CLUSTER_NUMBER 102400)).1 = 1 := by
  decide!

/-- Witness of C8 (amended): a request to write 102400 bytes as "b.txt". -/
theorem write_no_space_returns_minus_one_witness :
    (sample_request 98 ext_txt ROOT_CLUSTER_NUMBER 102400).buffer_size < 2 ^ 31 ∧
    (write_empty_clusters specPlatform machine_with_file.driver_state.fat_table).length
      < ((sample_request 98 ext_txt ROOT_CLUSTER_NUMBER 102400).buffer_size
          + specPlatform.CLUSTER_SIZE - 1) / specPlatform.CLUSTER_SIZE ∧
    (write specPlatform machine_with_file
      (sample_request 98 ext_txt ROOT_CLUSTER_NUMBER 102400)).1 = -1 ∧
    (write specPlatform machine_with_file
      (sample_request 98 ext_txt ROOT_CLUSTER_NUMBER 102400)).2.driver_state.fat_table
      = machine_with_file.driver_state.fat_table ∧
    (write specPlatform machine_with_file
      (sample_request 98 ext_txt ROOT_CLUSTER_NUMBER 102400)).2.storage
      = machine_with_file.storage :=
  ⟨by decide, by decide!,
    write_no_space_returns_minus_one specPlatform specPlatform_sane machine_with_file
      (sample_request 98 ext_txt ROOT_CLUSTER_NUMBER 102400) (by decide) (by decide!)
      (by decide!)⟩


theorem write_empty_cluster_cases (E : Platform) (fat : FAT32FileAllocationTable) :
    write_empty_cluster E fat = 0 ∨
    (2 ≤ write_empty_cluster E fat ∧ write_empty_cluster E fat < E.CLUSTER_MAP_SIZE ∧
      fat (write_empty_cluster E fat) = E.FAT32_FAT_EMPTY_ENTRY) := by
  unfold write_empty_cluster
  cases h : (List.range' 2 (E.CLUSTER_MAP_SIZE - 2)).find?
      (fun i => fat i == E.FAT32_FAT_EMPTY_ENTRY) with
  | none => left; rfl
  | some c =>
    right
    have hmem := List.mem_of_find?_eq_some h
    have hp := List.find?_some h
    rw [List.mem_range'] at hmem
    obtain ⟨i, hi, rfl⟩ := hmem
    simp only [Option.getD_some]
    refine ⟨by omega, by omega, ?_⟩
    simpa using hp

theorem write_empty_cluster_lt (E : Platform) (hE : E.Sane) (fat : FAT32FileAllocationTable) :
    write_empty_cluster E fat < 2 ^ 32 := by
  have h1 := hE.eof_not_index
  have h2 := hE.eof_uint32
  rcases write_empty_cluster_cases E fat with h | ⟨-, h, -⟩ <;> omega

theorem write_empty_cluster_ne_fat (E : Platform) (fat : FAT32FileAllocationTable) :
    write_empty_cluster E fat ≠ FAT_CLUSTER_NUMBER := by
  unfold FAT_CLUSTER_NUMBER
  rcases write_empty_cluster_cases E fat with h | ⟨h, -, -⟩ <;> omega

theorem entry_cluster_write_new_entry (E : Platform) (hE : E.Sane)
    (request : FAT32DriverRequest) (fat : FAT32FileAllocationTable) (a : Nat) :
    entry_cluster { write_new_entry E request (write_empty_cluster E fat) with attr := a }
      = write_empty_cluster E fat := by
  unfold entry_cluster write_new_entry
  exact entry_cluster_split _ (write_empty_cluster_lt E hE fat)

/-- C10 (amended): for every successful write with `buffer_size` 0 whose
allocated start cluster is not the parent directory's own cluster, the entry
added to the parent's table has the `ATTR_SUBDIRECTORY` attribute and file
size 0, its start cluster is marked `FAT32_FAT_END_OF_FILE` in the FAT, and
that cluster holds a directory table whose child slots 1..63 are unoccupied. -/
theorem write_folder_creates_empty_directory (E : Platform) (hE : E.Sane) (m : Machine)
    (request : FAT32DriverRequest) (hsz : request.buffer_size = 0)
    (hret : (write E m request).1 = 0)
    (hne : write_empty_cluster E m.driver_state.fat_table ≠ request.parent_cluster_number) :
    (written_entry E m request).attr = E.ATTR_SUBDIRECTORY ∧
    (written_entry E m request).filesize = 0 ∧
    (write E m request).2.driver_state.fat_table (entry_cluster (written_entry E m request))
      = E.FAT32_FAT_END_OF_FILE ∧
    ∀ k, 1 ≤ k → k < directory_size →
      (E.as_dir ((write E m request).2.storage (entry_cluster (written_entry E m request)))
        k).user_attribute ≠ E.UATTR_NOT_EMPTY := by
  obtain ⟨hdir, hnm, hav⟩ := write_ok_inv E m request hret
  unfold written_entry
  rw [write_folder_eq E m request hdir hnm hav hsz]
  simp only [upd_same]
  rw [entry_cluster_write_new_entry E hE]
  refine ⟨trivial, ?_, upd_same _ _ _, fun k hk1 _ => ?_⟩
  · simp [write_new_entry, hsz]
  · rw [upd_other _ _ (write_empty_cluster_ne_fat E _), upd_other _ _ hne, upd_same]
    have hk : k ≠ 0 := by omega
    simp only [Platform.as_dir, init_directory_table, upd_other _ _ hk, zero_table, zero_entry]
    exact fun h => hE.uattr_ne_zero h.symm


/-- Counterexample to C10 as stated: on the freshly formatted disk `delete`
accepts the request that names entry 0 of the root directory and marks cluster 2
`EMPTY`; the following `write` of the folder "a" into the root returns 0 and
allocates cluster 2 itself, which afterwards holds the root table with the
occupied slot 1, not an empty directory table. -/
theorem write_folder_counterexample :
    (delete specPlatform 128 fresh_machine root_self_request).map Prod.fst = some 0 ∧
    (sample_request 97 ext_dir ROOT_CLUSTER_NUMBER 0).buffer_size = 0 ∧
    (write specPlatform machine_root_freed
      (sample_request 97 ext_dir ROOT_CLUSTER_NUMBER 0)).1 = 0 ∧
    (specPlatform.as_dir
      ((write specPlatform machine_root_freed
        (sample_request 97 ext_dir ROOT_CLUSTER_NUMBER 0)).2.storage
        (entry_cluster (written_entry specPlatform machine_root_freed
          (sample_request 97 ext_dir ROOT_CLUSTER_NUMBER 0))))
      1).user_attribute = specPlatform.UATTR_NOT_EMPTY := by
  decide!

/-- Witness of C10 (amended): the folder "a" written into the root directory of
the freshly formatted disk. -/
theorem write_folder_creates_empty_directory_witness :
    (sample_request 97 ext_dir ROOT_CLUSTER_NUMBER 0).buffer_size = 0 ∧
    (write specPlatform fresh_machine (sample_request 97 ext_dir ROOT_CLUSTER_NUMBER 0)).1 = 0 ∧
    write_empty_cluster specPlatform fresh_machine.driver_state.fat_table
      ≠ (sample_request 97 ext_dir ROOT_CLUSTER_NUMBER 0).parent_cluster_number ∧
    (written_entry specPlatform fresh_machine
      (sample_request 97 ext_dir ROOT_CLUSTER_NUMBER 0)).attr = specPlatform.ATTR_SUBDIRECTORY :=
  ⟨rfl, by decide!, by decide!,
    (write_folder_creates_empty_directory specPlatform specPlatform_sane fresh_machine
      (sample_request 97 ext_dir ROOT_CLUSTER_NUMBER 0) rfl (by decide!) (by decide!)).1⟩


/-- The loop of `write` that stores a file: the first `cluster_count` collected
clusters are linked in order, the last one is marked `FAT32_FAT_END_OF_FILE`,
each receives its piece of the buffer, and nothing else changes. -/
theorem write_file_loop_spec (E : Platform) (buf : Nat → Nat) (es : List Nat) (k : Nat)
    (hnd : es.Nodup) (hk : k ≤ es.length) :
    ∀ rounds i fat st, i + rounds = k →
      (∀ j, i ≤ j → j < k →
        (write_file_loop E buf es k rounds i fat st).1 (es.getD j 0)
          = (if j = k - 1 then E.FAT32_FAT_END_OF_FILE else es.getD (j + 1) 0) ∧
        (write_file_loop E buf es k rounds i fat st).2 (es.getD j 0)
          = .bytes (buf_cluster E buf j)) ∧
      (∀ c, (∀ j, i ≤ j → j < k → es.getD j 0 ≠ c) →
        (write_file_loop E buf es k rounds i fat st).1 c = fat c ∧
        (write_file_loop E buf es k rounds i fat st).2 c = st c) := by
  have hinj : ∀ a b, a < k → b < k → es.getD a 0 = es.getD b 0 → a = b := by
    intro a b ha hb h
    rw [List.getD_eq_getElem es 0 (show a < es.length by omega),
      List.getD_eq_getElem es 0 (show b < es.length by omega)] at h
    exact (hnd.getElem_inj_iff).1 h
  intro rounds
  induction rounds with
  | zero =>
    intro i fat st hi
    refine ⟨fun j h1 h2 => by omega, fun c _ => ⟨rfl, rfl⟩⟩
  | succ rounds ih =>
    intro i fat st hi
    simp only [write_file_loop]
    obtain ⟨ih1, ih2⟩ := ih (i + 1)
      (if i = k - 1 then upd fat (es.getD i 0) E.FAT32_FAT_END_OF_FILE
        else upd fat (es.getD i 0) (es.getD (i + 1) 0))
      (upd st (es.getD i 0) (.bytes (buf_cluster E buf i))) (by omega)
    refine ⟨fun j h1 h2 => ?_, fun c hc => ?_⟩
    · by_cases hji : j = i
      · subst hji
        obtain ⟨e1, e2⟩ := ih2 (es.getD j 0) (fun j' h1' h2' h => by
          have := hinj j' j h2' h2 h
          omega)
        rw [e1, e2]
        refine ⟨?_, upd_same _ _ _⟩
        split <;> exact upd_same _ _ _
      · exact ih1 j (by omega) h2
    · obtain ⟨e1, e2⟩ := ih2 c (fun j h1 h2 => hc j (by omega) h2)
      have hne : c ≠ es.getD i 0 := fun h => hc i (le_refl _) (by omega) h.symm
      rw [e1, e2]
      refine ⟨?_, upd_other _ _ hne⟩
      split <;> exact upd_other _ _ hne

theorem write_empty_clusters_nodup (E : Platform) (fat : FAT32FileAllocationTable) :
    (write_empty_clusters E fat).Nodup :=
  (List.nodup_range _).filter _

theorem mem_write_empty_clusters (E : Platform) (fat : FAT32FileAllocationTable) (c : Nat) :
    c ∈ write_empty_clusters E fat ↔
      c < E.CLUSTER_MAP_SIZE ∧ fat c = E.FAT32_FAT_EMPTY_ENTRY := by
  simp [write_empty_clusters, List.mem_filter]

theorem getD_mem_of_lt (l : List Nat) (j : Nat) (h : j < l.length) : l.getD j 0 ∈ l := by
  rw [List.getD_eq_getElem _ _ h]
  exact List.getElem_mem h

/-- When entries 0 and 1 of the FAT are reserved, the three scans of `write`
see the same empty clusters. -/
theorem write_scans_agree (E : Platform) (fat : FAT32FileAllocationTable)
    (h0 : fat 0 ≠ E.FAT32_FAT_EMPTY_ENTRY) (h1 : fat 1 ≠ E.FAT32_FAT_EMPTY_ENTRY) :
    write_cluster_available E fat = (write_empty_clusters E fat).length ∧
    write_empty_cluster E fat = (write_empty_clusters E fat).getD 0 0 := by
  have e : write_empty_clusters E fat
      = (List.range' 2 (E.CLUSTER_MAP_SIZE - 2)).filter
          (fun i => fat i == E.FAT32_FAT_EMPTY_ENTRY) :=
    range_filter_skip2 _ _ (by simpa using h0) (by simpa using h1)
  refine ⟨by rw [e]; rfl, ?_⟩
  rw [e]
  unfold write_empty_cluster
  rw [find?_eq_head?_filter]
  cases (List.range' 2 (E.CLUSTER_MAP_SIZE - 2)).filter
      (fun i => fat i == E.FAT32_FAT_EMPTY_ENTRY) with
  | nil => rfl
  | cons a l => rfl

/-- The walk through the FAT along a linked list of clusters. -/
theorem fat_chain_of_links (E : Platform) (fat : FAT32FileAllocationTable) (es : List Nat)
    (k : Nat) (hk : k ≤ es.length)
    (hlt : ∀ j, j < k → es.getD j 0 < E.CLUSTER_MAP_SIZE)
    (hne : ∀ j, j < k → es.getD j 0 ≠ E.FAT32_FAT_END_OF_FILE)
    (hlink : ∀ j, j < k →
      fat (es.getD j 0) = (if j = k - 1 then E.FAT32_FAT_END_OF_FILE else es.getD (j + 1) 0)) :
    ∀ rounds i, i + rounds = k → 1 ≤ rounds → ∀ fuel, rounds ≤ fuel →
      fat_chain E fat fuel (es.getD i 0) = some ((es.drop i).take rounds) := by
  intro rounds
  induction rounds with
  | zero => intro i _ h; omega
  | succ rounds ih =>
    intro i hi _ fuel hfuel
    obtain ⟨fuel, rfl⟩ : ∃ f, fuel = f + 1 := ⟨fuel - 1, by omega⟩
    have hil : i < es.length := by omega
    have hdrop : es.drop i = es.getD i 0 :: es.drop (i + 1) := by
      rw [List.getD_eq_getElem _ _ hil]
      exact List.drop_eq_getElem_cons hil
    simp only [fat_chain]
    rw [if_neg (by have := hlt i (by omega); omega), hlink i (by omega), hdrop]
    by_cases hlast : i = k - 1
    · have hr : rounds = 0 := by omega
      subst hr
      rw [if_pos hlast, if_pos rfl]
      rfl
    · rw [if_neg hlast, if_neg (hne (i + 1) (by omega)),
        ih (i + 1) (by omega) (by omega) fuel (by omega)]
      rfl

theorem fat_chain_last (E : Platform) (fat : FAT32FileAllocationTable) :
    ∀ fuel c l, fat_chain E fat fuel c = some l →
      ∃ last, l.getLast? = some last ∧ fat last = E.FAT32_FAT_END_OF_FILE := by
  intro fuel
  induction fuel with
  | zero => intro c l h; simp [fat_chain] at h
  | succ fuel ih =>
    intro c l h
    simp only [fat_chain] at h
    split_ifs at h with h1 h2
    · simp only [Option.some.injEq] at h
      subst h
      exact ⟨c, rfl, h2⟩
    · cases hrec : fat_chain E fat fuel (fat c) with
      | none => rw [hrec] at h; simp at h
      | some l' =>
        rw [hrec] at h
        simp only [Option.map_some', Option.some.injEq] at h
        subst h
        obtain ⟨last, hl, hf⟩ := ih _ _ hrec
        refine ⟨last, ?_, hf⟩
        cases l' with
        | nil => simp at hl
        | cons a l'' => simpa [List.getLast?_cons_cons] using hl


theorem ceil_pos (n cs : Nat) (hn : 0 < n) (hcs : 0 < cs) : 1 ≤ (n + cs - 1) / cs := by
  rw [Nat.le_div_iff_mul_le hcs]
  omega

theorem le_ceil_mul (n cs : Nat) (hcs : 0 < cs) : n ≤ (n + cs - 1) / cs * cs := by
  have h1 := Nat.div_add_mod (n + cs - 1) cs
  have h2 := Nat.mod_lt (n + cs - 1) hcs
  rw [Nat.mul_comm]
  omega

/-- C9 (amended): for every successful write of `n` bytes with `0 < n < 2 ^ 31`
in a state whose FAT entries 0 and 1 are not `EMPTY`, the new directory entry
records file size `n`, and the walk through the FAT from the entry's start
cluster visits exactly the rounded-up quotient of `n` by `CLUSTER_SIZE` many
clusters, all different, every one of which was `EMPTY` before the call, and
the last one is marked `FAT32_FAT_END_OF_FILE`. -/
theorem write_file_allocates_chain (E : Platform) (hE : E.Sane) (m : Machine)
    (request : FAT32DriverRequest) (hpos : 0 < request.buffer_size)
    (hn : request.buffer_size < 2 ^ 31)
    (h0 : m.driver_state.fat_table 0 ≠ E.FAT32_FAT_EMPTY_ENTRY)
    (h1 : m.driver_state.fat_table 1 ≠ E.FAT32_FAT_EMPTY_ENTRY)
    (hret : (write E m request).1 = 0) :
    (written_entry E m request).filesize = request.buffer_size ∧
    ∃ chain, fat_chain E (write E m request).2.driver_state.fat_table E.CLUSTER_MAP_SIZE
        (entry_cluster (written_entry E m request)) = some chain ∧
      chain.length = (request.buffer_size + E.CLUSTER_SIZE - 1) / E.CLUSTER_SIZE ∧
      chain.Nodup ∧
      (∀ c, c ∈ chain → m.driver_state.fat_table c = E.FAT32_FAT_EMPTY_ENTRY) ∧
      ∃ last, chain.getLast? = some last ∧
        (write E m request).2.driver_state.fat_table last = E.FAT32_FAT_END_OF_FILE := by
  obtain ⟨hdir, hnm, hav⟩ := write_ok_inv E m request hret
  obtain ⟨hcnt, hfirst⟩ := write_scans_agree E m.driver_state.fat_table h0 h1
  have hk := write_cluster_count_eq E hE request hn
  have hk1 : 1 ≤ write_cluster_count E request := by
    rw [hk]
    exact ceil_pos _ _ hpos hE.cluster_size_pos
  have hkl : write_cluster_count E request
      ≤ (write_empty_clusters E m.driver_state.fat_table).length := by omega
  have hmemj : ∀ j, j < write_cluster_count E request →
      (write_empty_clusters E m.driver_state.fat_table).getD j 0
        ∈ write_empty_clusters E m.driver_state.fat_table :=
    fun j hj => getD_mem_of_lt _ _ (by omega)
  obtain ⟨hloop, -⟩ := write_file_loop_spec E request.buf
    (write_empty_clusters E m.driver_state.fat_table) (write_cluster_count E request)
    (write_empty_clusters_nodup E _) hkl (write_cluster_count E request) 0
    m.driver_state.fat_table m.storage (by omega)
  unfold written_entry
  rw [write_file_eq E m request hdir hnm hav (by omega)]
  simp only [upd_same]
  refine ⟨by simp [write_new_entry], ?_⟩
  have hec : entry_cluster (write_new_entry E request
      (write_empty_cluster E m.driver_state.fat_table))
      = write_empty_cluster E m.driver_state.fat_table :=
    entry_cluster_write_new_entry E hE request m.driver_state.fat_table
      (write_new_entry E request (write_empty_cluster E m.driver_state.fat_table)).attr
  rw [hec, hfirst]
  have hchain := fat_chain_of_links E
    (write_file_loop E request.buf (write_empty_clusters E m.driver_state.fat_table)
      (write_cluster_count E request) (write_cluster_count E request) 0
      m.driver_state.fat_table m.storage).1
    (write_empty_clusters E m.driver_state.fat_table) (write_cluster_count E request) hkl
    (fun j hj => ((mem_write_empty_clusters E _ _).1 (hmemj j hj)).1)
    (fun j hj => by
      have := ((mem_write_empty_clusters E _ _).1 (hmemj j hj)).1
      have := hE.eof_not_index
      omega)
    (fun j hj => (hloop j (Nat.zero_le _) hj).1)
    (write_cluster_count E request) 0 (by omega) hk1 E.CLUSTER_MAP_SIZE
    (by
      have : (write_empty_clusters E m.driver_state.fat_table).length
          ≤ (List.range E.CLUSTER_MAP_SIZE).length := List.length_filter_le _ _
      rw [List.length_range] at this
      omega)
  rw [List.drop_zero] at hchain
  refine ⟨_, hchain, ?_, ?_, ?_, fat_chain_last E _ _ _ _ hchain⟩
  · rw [List.length_take, ← hk]
    omega
  · exact (write_empty_clusters_nodup E _).sublist (List.take_sublist _ _)
  · intro c hc
    exact ((mem_write_empty_clusters E _ _).1 (List.mem_of_mem_take hc)).2


/-- Witness of C9 (amended): 1500 bytes written as "a.txt" into the root
directory of the freshly formatted disk, with 512-byte clusters. -/
theorem write_file_allocates_chain_witness :
    0 < (sample_request 97 ext_txt ROOT_CLUSTER_NUMBER 1500).buffer_size ∧
    (write specPlatform fresh_machine
      (sample_request 97 ext_txt ROOT_CLUSTER_NUMBER 1500)).1 = 0 ∧
    (written_entry specPlatform fresh_machine
      (sample_request 97 ext_txt ROOT_CLUSTER_NUMBER 1500)).filesize = 1500 ∧
    ∃ chain, fat_chain specPlatform
        (write specPlatform fresh_machine
          (sample_request 97 ext_txt ROOT_CLUSTER_NUMBER 1500)).2.driver_state.fat_table
        specPlatform.CLUSTER_MAP_SIZE
        (entry_cluster (written_entry specPlatform fresh_machine
          (sample_request 97 ext_txt ROOT_CLUSTER_NUMBER 1500))) = some chain ∧
      chain.length = 3 ∧
      chain.Nodup ∧
      (∀ c, c ∈ chain →
        fresh_machine.driver_state.fat_table c = specPlatform.FAT32_FAT_EMPTY_ENTRY) ∧
      ∃ last, chain.getLast? = some last ∧
        (write specPlatform fresh_machine
          (sample_request 97 ext_txt ROOT_CLUSTER_NUMBER 1500)).2.driver_state.fat_table last
          = specPlatform.FAT32_FAT_END_OF_FILE :=
  ⟨by decide, by decide!,
    write_file_allocates_chain specPlatform specPlatform_sane fresh_machine
      (sample_request 97 ext_txt ROOT_CLUSTER_NUMBER 1500) (by decide) (by decide)
      (by decide!) (by decide!) (by decide!)⟩

/-- Counterexample to C9 as stated, in two parts.  First, a request of
`2 ^ 32 - 1` bytes on the freshly formatted disk: `ceil_div` receives the size
as the `int32_t` -1 and returns 1, so `write` returns 0 with a chain of the
single cluster 3, while the rounded-up quotient of the size by the cluster size
is 8388608.  Second, a request of 1000 bytes in the state whose FAT entry 0 is
`EMPTY`: the clusters are collected from index 0 (clusters 0 and 3), the start
cluster is searched from index 2 (cluster 3), and the chain from the start
cluster has one cluster instead of two. -/
theorem write_file_chain_counterexample :
    (0 < (sample_request 97 ext_txt ROOT_CLUSTER_NUMBER 4294967295).buffer_size ∧
    (write specPlatform fresh_machine
      (sample_request 97 ext_txt ROOT_CLUSTER_NUMBER 4294967295)).1 = 0 ∧
    fat_chain specPlatform
        (write specPlatform fresh_machine
          (sample_request 97 ext_txt ROOT_CLUSTER_NUMBER 4294967295)).2.driver_state.fat_table
        specPlatform.CLUSTER_MAP_SIZE
        (entry_cluster (written_entry specPlatform fresh_machine
          (sample_request 97 ext_txt ROOT_CLUSTER_NUMBER 4294967295))) = some [3] ∧
    ((sample_request 97 ext_txt ROOT_CLUSTER_NUMBER 4294967295).buffer_size
      + specPlatform.CLUSTER_SIZE - 1) / specPlatform.CLUSTER_SIZE = 8388608) ∧
    ((write specPlatform machine_fat0_empty
      (sample_request 97 ext_txt ROOT_CLUSTER_NUMBER 1000)).1 = 0 ∧
    fat_chain specPlatform
        (write specPlatform machine_fat0_empty
          (sample_request 97 ext_txt ROOT_CLUSTER_NUMBER 1000)).2.driver_state.fat_table
        specPlatform.CLUSTER_MAP_SIZE
        (entry_cluster (written_entry specPlatform machine_fat0_empty
          (sample_request 97 ext_txt ROOT_CLUSTER_NUMBER 1000))) = some [3] ∧
    ((sample_request 97 ext_txt ROOT_CLUSTER_NUMBER 1000).buffer_size
      + specPlatform.CLUSTER_SIZE - 1) / specPlatform.CLUSTER_SIZE = 2) := by
  decide!

theorem entry_matches_congr (e : FAT32DirectoryEntry) (r r' : FAT32DriverRequest)
    (hname : r'.name = r.name) (hext : r'.ext = r.ext) :
    entry_matches e r' = entry_matches e r := by
  unfold entry_matches
  rw [hname, hext]

theorem memcmp_eq_take (a : List Nat) (n : Nat) : memcmp_eq (a.take n) a n = true := by
  unfold memcmp_eq
  rw [List.take_take, Nat.min_self]
  exact beq_self_eq_true _

theorem write_new_entry_idx_spec (E : Platform) (dir : FAT32DirectoryTable)
    (h : ∃ i, 1 ≤ i ∧ i < directory_size ∧ (dir i).user_attribute ≠ E.UATTR_NOT_EMPTY) :
    1 ≤ write_new_entry_idx E dir ∧ write_new_entry_idx E dir < directory_size ∧
      (dir (write_new_entry_idx E dir)).user_attribute ≠ E.UATTR_NOT_EMPTY := by
  unfold write_new_entry_idx
  cases hf : (List.range' 1 (directory_size - 1)).find?
      (fun i => (dir i).user_attribute != E.UATTR_NOT_EMPTY) with
  | none =>
    exfalso
    obtain ⟨i, h1, h2, h3⟩ := h
    rw [List.find?_eq_none] at hf
    have := hf i (List.mem_range'.2 ⟨i - 1, by omega, by omega⟩)
    simp at this
    exact h3 this
  | some c =>
    have hmem := List.mem_of_find?_eq_some hf
    have hp := List.find?_some hf
    rw [List.mem_range'] at hmem
    obtain ⟨i, hi, rfl⟩ := hmem
    simp only [Option.getD_some]
    refine ⟨by omega, by omega, ?_⟩
    simpa using hp

/-- The loop of `read` along a linked list of clusters that hold the pieces of
`buf`: it ends by itself and copies the pieces to their offsets. -/
theorem read_loop_of_links (E : Platform) (fat : FAT32FileAllocationTable)
    (st : Nat → ClusterData) (buf : Nat → Nat) (es : List Nat) (k : Nat)
    (hne : ∀ j, j < k → es.getD j 0 ≠ E.FAT32_FAT_END_OF_FILE)
    (hlink : ∀ j, j < k →
      fat (es.getD j 0) = (if j = k - 1 then E.FAT32_FAT_END_OF_FILE else es.getD (j + 1) 0))
    (hst : ∀ j, j < k → st (es.getD j 0) = .bytes (buf_cluster E buf j)) :
    ∀ rounds i mem, i + rounds = k → 1 ≤ rounds → ∀ fuel, rounds ≤ fuel →
      read_loop E fat st fuel (es.getD i 0) i mem
        = some (fun x => if i * E.CLUSTER_SIZE ≤ x ∧ x < k * E.CLUSTER_SIZE
            then buf x else mem x) := by
  intro rounds
  induction rounds with
  | zero => intro i _ _ h; omega
  | succ rounds ih =>
    intro i mem hi _ fuel hfuel
    obtain ⟨fuel, rfl⟩ : ∃ f, fuel = f + 1 := ⟨fuel - 1, by omega⟩
    simp only [read_loop]
    rw [hlink i (by omega), hst i (by omega)]
    have hstep : ∀ x, store_cluster E mem i (E.as_bytes (.bytes (buf_cluster E buf i))) x
        = if i * E.CLUSTER_SIZE ≤ x ∧ x < (i + 1) * E.CLUSTER_SIZE then buf x else mem x := by
      intro x
      simp only [store_cluster, Platform.as_bytes, buf_cluster]
      by_cases hx : i * E.CLUSTER_SIZE ≤ x ∧ x < (i + 1) * E.CLUSTER_SIZE
      · rw [if_pos hx, if_pos hx]
        rw [Nat.add_mul, Nat.one_mul] at hx
        rw [if_pos (by omega)]
        congr 1
        omega
      · rw [if_neg hx, if_neg hx]
    by_cases hlast : i = k - 1
    · have hk : k = i + 1 := by omega
      rw [if_pos hlast, if_neg (by simp)]
      congr 1
      funext x
      rw [hstep, hk]
    · rw [if_neg hlast, if_pos (hne (i + 1) (by omega)),
        ih (i + 1) _ (by omega) (by omega) fuel (by omega)]
      congr 1
      funext x
      rw [hstep]
      have hmono : (i + 1) * E.CLUSTER_SIZE ≤ k * E.CLUSTER_SIZE :=
        Nat.mul_le_mul_right _ (by omega)
      have hi1 : (i + 1) * E.CLUSTER_SIZE = i * E.CLUSTER_SIZE + E.CLUSTER_SIZE := by
        rw [Nat.add_mul, Nat.one_mul]
      by_cases h1 : (i + 1) * E.CLUSTER_SIZE ≤ x ∧ x < k * E.CLUSTER_SIZE
      · rw [if_pos h1, if_pos ⟨by omega, h1.2⟩]
      · rw [if_neg h1]
        by_cases h2 : i * E.CLUSTER_SIZE ≤ x ∧ x < (i + 1) * E.CLUSTER_SIZE
        · rw [if_pos h2, if_pos ⟨h2.1, by omega⟩]
        · rw [if_neg h2, if_neg (by omega)]


/-- C1 (amended): in a state whose FAT entries 0 and 1 are not `EMPTY`, whose
parent directory lies in a cluster other than the FAT cluster that is not
`EMPTY` in the FAT, and whose parent table has an unoccupied child slot, when
`write` of `n` bytes with `0 < n < 2 ^ 31` returns 0, a following `read` with
the same name, extension and parent cluster into a buffer of size at least `n`
ends, returns 0, and the first `n` bytes of the out-buffer are the `n` bytes
that were written. -/
theorem write_then_read (E : Platform) (hE : E.Sane) (m : Machine)
    (request request' : FAT32DriverRequest) (fuel : Nat)
    (hpos : 0 < request.buffer_size) (hn : request.buffer_size < 2 ^ 31)
    (h0 : m.driver_state.fat_table 0 ≠ E.FAT32_FAT_EMPTY_ENTRY)
    (h1 : m.driver_state.fat_table 1 ≠ E.FAT32_FAT_EMPTY_ENTRY)
    (hpf : request.parent_cluster_number ≠ FAT_CLUSTER_NUMBER)
    (hpe : m.driver_state.fat_table request.parent_cluster_number ≠ E.FAT32_FAT_EMPTY_ENTRY)
    (hslot : ∃ i, 1 ≤ i ∧ i < directory_size ∧
      (E.as_dir (m.storage request.parent_cluster_number) i).user_attribute
        ≠ E.UATTR_NOT_EMPTY)
    (hret : (write E m request).1 = 0)
    (hname : request'.name = request.name) (hext : request'.ext = request.ext)
    (hparent : request'.parent_cluster_number = request.parent_cluster_number)
    (hsize : request.buffer_size ≤ request'.buffer_size)
    (hfuel : E.CLUSTER_MAP_SIZE ≤ fuel) :
    ∃ m' mem, read E fuel (write E m request).2 request' = some (0, m', mem) ∧
      ∀ j, j < request.buffer_size → mem j = request.buf j := by
  obtain ⟨hdir, hnm, hav⟩ := write_ok_inv E m request hret
  obtain ⟨hcnt, hfirst⟩ := write_scans_agree E m.driver_state.fat_table h0 h1
  have hk := write_cluster_count_eq E hE request hn
  have hk1 : 1 ≤ write_cluster_count E request := by
    rw [hk]
    exact ceil_pos _ _ hpos hE.cluster_size_pos
  have hkl : write_cluster_count E request
      ≤ (write_empty_clusters E m.driver_state.fat_table).length := by omega
  have hmemj : ∀ j, j < write_cluster_count E request →
      (write_empty_clusters E m.driver_state.fat_table).getD j 0
        ∈ write_empty_clusters E m.driver_state.fat_table :=
    fun j hj => getD_mem_of_lt _ _ (by omega)
  have hlenle : (write_empty_clusters E m.driver_state.fat_table).length
      ≤ E.CLUSTER_MAP_SIZE := by
    have : (write_empty_clusters E m.driver_state.fat_table).length
        ≤ (List.range E.CLUSTER_MAP_SIZE).length := List.length_filter_le _ _
    rw [List.length_range] at this
    exact this
  obtain ⟨hloop, -⟩ := write_file_loop_spec E request.buf
    (write_empty_clusters E m.driver_state.fat_table) (write_cluster_count E request)
    (write_empty_clusters_nodup E _) hkl (write_cluster_count E request) 0
    m.driver_state.fat_table m.storage (by omega)
  obtain ⟨hidx1, hidx2, -⟩ := write_new_entry_idx_spec E _ hslot
  have hnomatch : ∀ i, i < directory_size →
      entry_matches (E.as_dir (m.storage request.parent_cluster_number) i) request = false := by
    intro i hi
    have := List.any_eq_false.1 hnm i (List.mem_range.2 hi)
    simpa using this
  rw [write_file_eq E m request hdir hnm hav (by omega)]
  generalize hidx : write_new_entry_idx E
    (E.as_dir (m.storage request.parent_cluster_number)) = idx at hidx1 hidx2
  generalize hloopres : write_file_loop E request.buf
    (write_empty_clusters E m.driver_state.fat_table) (write_cluster_count E request)
    (write_cluster_count E request) 0 m.driver_state.fat_table m.storage = res at hloop
  have hec : entry_cluster (write_new_entry E request
      (write_empty_cluster E m.driver_state.fat_table))
      = write_empty_cluster E m.driver_state.fat_table :=
    entry_cluster_write_new_entry E hE request m.driver_state.fat_table
      (write_new_entry E request (write_empty_cluster E m.driver_state.fat_table)).attr
  generalize hne : write_new_entry E request (write_empty_cluster E m.driver_state.fat_table)
    = new_entry at hec
  have hne_attr : new_entry.attr = 0 := by rw [← hne]; rfl
  have hne_size : new_entry.filesize = request.buffer_size := by rw [← hne]; rfl
  have hne_match : entry_matches new_entry request' = true := by
    rw [← hne, entry_matches_congr _ _ _ hname hext]
    unfold entry_matches
    simp only [write_new_entry]
    rw [memcmp_eq_take, memcmp_eq_take]
    rfl
  have hne_cluster : entry_cluster new_entry
      = (write_empty_clusters E m.driver_state.fat_table).getD 0 0 := by
    rw [← hfirst]
    exact hec
  unfold read
  simp only
  rw [hparent, upd_other _ _ hpf, upd_same]
  have hasdir : ∀ t, E.as_dir (.dir t) = t := fun _ => rfl
  simp only [hasdir]
  have hidx0 : (0 : Nat) ≠ idx := by omega
  rw [upd_other _ _ hidx0, if_neg (not_not.2 hdir)]
  have hfind : (List.range directory_size).find?
      (fun i => entry_matches
        (upd (E.as_dir (m.storage request.parent_cluster_number)) idx new_entry i) request')
      = some idx := by
    rw [List.find?_range_eq_some]
    refine ⟨by rw [upd_same]; exact hne_match, List.mem_range.2 hidx2, fun j hj => ?_⟩
    rw [upd_other _ _ (by omega), entry_matches_congr _ _ _ hname hext,
      hnomatch j (by omega)]
    rfl
  rw [hfind]
  simp only [upd_same]
  rw [if_neg (by rw [hne_attr]; exact fun h => hE.attr_ne_zero h.symm),
    if_neg (by rw [hne_size]; omega), hne_cluster]
  have hread := read_loop_of_links E res.1
    (upd (upd res.2 request.parent_cluster_number
      (.dir (upd (E.as_dir (m.storage request.parent_cluster_number)) idx new_entry)))
      FAT_CLUSTER_NUMBER (.fat res.1))
    request.buf (write_empty_clusters E m.driver_state.fat_table)
    (write_cluster_count E request)
    (fun j hj => by
      have := ((mem_write_empty_clusters E _ _).1 (hmemj j hj)).1
      have := hE.eof_not_index
      omega)
    (fun j hj => (hloop j (Nat.zero_le _) hj).1)
    (fun j hj => by
      have hmem := (mem_write_empty_clusters E _ _).1 (hmemj j hj)
      have hj1 : (write_empty_clusters E m.driver_state.fat_table).getD j 0
          ≠ FAT_CLUSTER_NUMBER := by
        intro h
        rw [h] at hmem
        exact h1 hmem.2
      have hj2 : (write_empty_clusters E m.driver_state.fat_table).getD j 0
          ≠ request.parent_cluster_number := by
        intro h
        rw [h] at hmem
        exact hpe hmem.2
      rw [upd_other _ _ hj1, upd_other _ _ hj2]
      exact (hloop j (Nat.zero_le _) hj).2)
    (write_cluster_count E request) 0 request'.buf (by omega) hk1 fuel (by omega)
  rw [hread]
  refine ⟨_, _, rfl, fun j hj => ?_⟩
  have hle := le_ceil_mul request.buffer_size E.CLUSTER_SIZE hE.cluster_size_pos
  rw [← hk] at hle
  show (if 0 * E.CLUSTER_SIZE ≤ j ∧ j < write_cluster_count E request * E.CLUSTER_SIZE
    then request.buf j else request'.buf j) = request.buf j
  rw [if_pos ⟨by omega, by omega⟩]


/-- Witness of C1 (amended): 1500 bytes written as "a.txt" into the root
directory of the freshly formatted disk and read back into a 2048-byte
buffer. -/
theorem write_then_read_witness :
    0 < (sample_request 97 ext_txt ROOT_CLUSTER_NUMBER 1500).buffer_size ∧
    (write specPlatform fresh_machine
      (sample_request 97 ext_txt ROOT_CLUSTER_NUMBER 1500)).1 = 0 ∧
    ∃ m' mem, read specPlatform 128
        (write specPlatform fresh_machine
          (sample_request 97 ext_txt ROOT_CLUSTER_NUMBER 1500)).2
        (read_request 97 2048) = some (0, m', mem) ∧
      ∀ j, j < (sample_request 97 ext_txt ROOT_CLUSTER_NUMBER 1500).buffer_size →
        mem j = (sample_request 97 ext_txt ROOT_CLUSTER_NUMBER 1500).buf j :=
  ⟨by decide, by decide!,
    write_then_read specPlatform specPlatform_sane fresh_machine
      (sample_request 97 ext_txt ROOT_CLUSTER_NUMBER 1500) (read_request 97 2048) 128
      (by decide) (by decide) (by decide!) (by decide!) (by decide) (by decide!)
      ⟨1, by decide, by decide, by decide!⟩ (by decide!) rfl rfl rfl (by decide) (by decide)⟩

/-- Counterexample to C1 as stated, in two parts.  First, on the freshly
formatted disk a request to write `2 ^ 32 - 1` bytes as "b.txt" returns 0
(`ceil_div` receives the size as the `int32_t` -1 and asks for one cluster); the
following `read` into a zeroed buffer of the same size returns 0, and byte 512
of the out-buffer is still 0 while byte 512 of the written buffer is 11.
Second, in the state whose FAT entry 0 is `EMPTY` a request to write 1000 bytes
returns 0 and stores the two pieces in clusters 0 and 3, but the entry starts
at cluster 3: the following `read` returns 0 and byte 0 of the out-buffer is
11, the byte 512 of the written buffer, not its byte 0, which is 1. -/
theorem write_then_read_counterexample :
    (0 < (sample_request 98 ext_txt ROOT_CLUSTER_NUMBER 4294967295).buffer_size ∧
    (write specPlatform fresh_machine
      (sample_request 98 ext_txt ROOT_CLUSTER_NUMBER 4294967295)).1 = 0 ∧
    (sample_request 98 ext_txt ROOT_CLUSTER_NUMBER 4294967295).buffer_size
      ≤ (read_request 98 4294967295).buffer_size ∧
    (read specPlatform 128
        (write specPlatform fresh_machine
          (sample_request 98 ext_txt ROOT_CLUSTER_NUMBER 4294967295)).2
        (read_request 98 4294967295)).map (fun r => (r.1, r.2.2 512)) = some (0, 0) ∧
    512 < (sample_request 98 ext_txt ROOT_CLUSTER_NUMBER 4294967295).buffer_size ∧
    (sample_request 98 ext_txt ROOT_CLUSTER_NUMBER 4294967295).buf 512 = 11) ∧
    ((write specPlatform machine_fat0_empty
      (sample_request 98 ext_txt ROOT_CLUSTER_NUMBER 1000)).1 = 0 ∧
    (read specPlatform 128
        (write specPlatform machine_fat0_empty
          (sample_request 98 ext_txt ROOT_CLUSTER_NUMBER 1000)).2
        (read_request 98 1000)).map (fun r => (r.1, r.2.2 0)) = some (0, 11) ∧
    (sample_request 98 ext_txt ROOT_CLUSTER_NUMBER 1000).buf 0 = 1) := by
  decide!

/-- C2 at a failing input: from the freshly formatted disk, `write` of the
folder "d", `write` of "g.txt", `delete` of "g.txt", `write` of "h.txt" into "d"
and `delete` with the all-NUL name all return 0.  The last call matches the
unoccupied slot 2 of the root, which still names cluster 4, and marks that
cluster `EMPTY`, although it now belongs to "h.txt": afterwards slot 1 of the
folder "d" is occupied, its start cluster 4 is `EMPTY` in the FAT, and the walk
from it does not reach `FAT32_FAT_END_OF_FILE`. -/
theorem delete_of_free_entry_breaks_chain :
    (write specPlatform fresh_machine (sample_request 100 ext_dir ROOT_CLUSTER_NUMBER 0)).1 = 0 ∧
    (write specPlatform trace_step1 (sample_request 103 ext_txt ROOT_CLUSTER_NUMBER 10)).1 = 0 ∧
    (delete specPlatform 128 trace_step2
      (sample_request 103 ext_txt ROOT_CLUSTER_NUMBER 0)).map Prod.fst = some 0 ∧
    (write specPlatform trace_step3 (sample_request 104 ext_txt 3 10)).1 = 0 ∧
    (delete specPlatform 128 trace_step4 zero_name_request).map Prod.fst = some 0 ∧
    (specPlatform.as_dir (trace_step5.storage 3) 1).user_attribute
      = specPlatform.UATTR_NOT_EMPTY ∧
    entry_cluster (specPlatform.as_dir (trace_step5.storage 3) 1) = 4 ∧
    trace_step5.driver_state.fat_table 4 = specPlatform.FAT32_FAT_EMPTY_ENTRY ∧
    fat_chain specPlatform trace_step5.driver_state.fat_table specPlatform.CLUSTER_MAP_SIZE
      (entry_cluster (specPlatform.as_dir (trace_step5.storage 3) 1)) = none := by
  decide!

/-- C3: for every non-empty pattern and every text, `knuth_morris_pratt`
returns true exactly when the pattern occurs as a contiguous substring of the
text. -/
theorem knuth_morris_pratt_iff_substring (buffer_pattern buffer_text : List Nat)
    (h : cstr buffer_pattern ≠ []) :
    knuth_morris_pratt buffer_pattern buffer_text = true
      ↔ cstr buffer_pattern <:+: cstr buffer_text :=
  kmp_correct buffer_pattern buffer_text h

/-- Witness of C3: the pattern "hello" and the text "hello world"; the search
returns true there and false on the text "help". -/
theorem knuth_morris_pratt_iff_substring_witness :
    cstr str_hello ≠ [] ∧
    (knuth_morris_pratt str_hello str_hello_world = true
      ↔ cstr str_hello <:+: cstr str_hello_world) ∧
    knuth_morris_pratt str_hello str_hello_world = true ∧
    knuth_morris_pratt str_hello str_help = false :=
  ⟨by decide, knuth_morris_pratt_iff_substring str_hello str_hello_world (by decide),
    by decide, by decide⟩

/-- C4: for every pattern and every text, `boyer_moore` returns true exactly
when the pattern occurs as a contiguous substring of the text. -/
theorem boyer_moore_iff_substring (buffer_pattern buffer_text : List Nat) :
    boyer_moore buffer_pattern buffer_text = true
      ↔ cstr buffer_pattern <:+: cstr buffer_text :=
  bm_correct buffer_pattern buffer_text

/-- Counterexample to C5 as stated: for the empty pattern `knuth_morris_pratt`
returns false and `boyer_moore` returns true. -/
theorem kmp_bm_differ_on_empty_pattern :
    knuth_morris_pratt [] str_hello = false ∧ boyer_moore [] str_hello = true := by
  decide

/-- C5 (amended): for every non-empty pattern and every text,
`knuth_morris_pratt` and `boyer_moore` return the same boolean; for the empty
pattern and every text, `knuth_morris_pratt` returns false and `boyer_moore`
returns true. -/
theorem kmp_eq_bm_unless_empty_pattern (buffer_pattern buffer_text : List Nat) :
    (cstr buffer_pattern ≠ [] →
      knuth_morris_pratt buffer_pattern buffer_text
        = boyer_moore buffer_pattern buffer_text) ∧
    (cstr buffer_pattern = [] →
      knuth_morris_pratt buffer_pattern buffer_text = false ∧
      boyer_moore buffer_pattern buffer_text = true) := by
  refine ⟨fun h => ?_, fun h => ⟨?_, ?_⟩⟩
  · rw [Bool.eq_iff_iff, kmp_correct buffer_pattern buffer_text h,
      bm_correct buffer_pattern buffer_text]
  · unfold knuth_morris_pratt strlen
    simp only
    rw [h]
    rfl
  · rw [bm_correct, h]
    exact List.nil_infix

/-- Witness of C5 (amended): the pattern "hello" on the texts "hello world"
and "help", and the empty pattern on the text "help". -/
theorem kmp_eq_bm_unless_empty_pattern_witness :
    cstr str_hello ≠ [] ∧
    knuth_morris_pratt str_hello str_hello_world = boyer_moore str_hello str_hello_world ∧
    knuth_morris_pratt str_hello str_help = boyer_moore str_hello str_help ∧
    cstr [] = ([] : List Nat) ∧
    knuth_morris_pratt [] str_help = false ∧ boyer_moore [] str_help = true :=
  ⟨by decide, (kmp_eq_bm_unless_empty_pattern str_hello str_hello_world).1 (by decide),
    (kmp_eq_bm_unless_empty_pattern str_hello str_help).1 (by decide),
    rfl, (kmp_eq_bm_unless_empty_pattern [] str_help).2 rfl⟩


theorem find?_range_first (p : Nat → Bool) (n i : Nat) (hi : i < n) (hp : p i = true)
    (hfirst : ∀ j, j < i → p j = false) : (List.range n).find? p = some i := by
  rw [List.find?_range_eq_some]
  refine ⟨hp, List.mem_range.2 hi, fun j hj => ?_⟩
  rw [hfirst j hj]
  rfl

/-- C11 (amended): for every request whose parent cluster holds a directory
table (entry 0 of the table has the attribute `ATTR_SUBDIRECTORY`) and whose
first entry in index order that matches name and extension is a file with a
file size greater than `request.buffer_size`, `read` returns 2 and leaves the
memory behind `request.buf`, the cached FAT and the disk as they were. -/
theorem read_small_buffer_returns_two (E : Platform) (m : Machine)
    (request : FAT32DriverRequest) (fuel i : Nat)
    (hdir : (E.as_dir (m.storage request.parent_cluster_number) 0).attr = E.ATTR_SUBDIRECTORY)
    (hi : i < directory_size)
    (hmatch : entry_matches (E.as_dir (m.storage request.parent_cluster_number) i) request
      = true)
    (hfirst : ∀ j, j < i →
      entry_matches (E.as_dir (m.storage request.parent_cluster_number) j) request = false)
    (hfile : (E.as_dir (m.storage request.parent_cluster_number) i).attr
      ≠ E.ATTR_SUBDIRECTORY)
    (hsize : request.buffer_size
      < (E.as_dir (m.storage request.parent_cluster_number) i).filesize) :
    ∃ m', read E fuel m request = some (2, m', request.buf) ∧
      m'.driver_state.fat_table = m.driver_state.fat_table ∧ m'.storage = m.storage := by
  have hfind := find?_range_first
    (fun i => entry_matches (E.as_dir (m.storage request.parent_cluster_number) i) request)
    directory_size i hi hmatch hfirst
  unfold read
  simp only
  rw [if_neg (not_not.2 hdir), hfind]
  simp only
  rw [if_neg hfile, if_pos (by omega)]
  exact ⟨_, rfl, rfl, rfl⟩

/-- C12 on the code: for every request whose parent cluster holds a directory
table and whose first matching entry is a subdirectory, `read_directory`
returns 0 and loads the table of the subdirectory's cluster into
`driver_state.dir_table_buf`, but the memory behind `request.buf` is left as it
was: the caller's out-table is not written. -/
theorem read_directory_leaves_buf (E : Platform) (m : Machine)
    (request : FAT32DriverRequest) (i : Nat)
    (hdir : (E.as_dir (m.storage request.parent_cluster_number) 0).attr = E.ATTR_SUBDIRECTORY)
    (hi : i < directory_size)
    (hmatch : entry_matches (E.as_dir (m.storage request.parent_cluster_number) i) request
      = true)
    (hfirst : ∀ j, j < i →
      entry_matches (E.as_dir (m.storage request.parent_cluster_number) j) request = false)
    (hsub : (E.as_dir (m.storage request.parent_cluster_number) i).attr
      = E.ATTR_SUBDIRECTORY) :
    (read_directory E m request).1 = 0 ∧
    (read_directory E m request).2.1.driver_state.dir_table_buf
      = E.as_dir (m.storage
          (entry_cluster (E.as_dir (m.storage request.parent_cluster_number) i))) ∧
    (read_directory E m request).2.2 = request.buf := by
  have hfind := find?_range_first
    (fun i => entry_matches (E.as_dir (m.storage request.parent_cluster_number) i) request)
    directory_size i hi hmatch hfirst
  unfold read_directory
  simp only
  rw [if_neg (not_not.2 hdir), hfind]
  simp only
  rw [if_neg (not_not.2 hsub)]
  exact ⟨rfl, rfl, rfl⟩

/-- C13 (amended): for every request whose parent cluster holds a directory
table (entry 0 of the table has the attribute `ATTR_SUBDIRECTORY`) and whose
first entry in index order that matches name and extension is a subdirectory
whose own table has an occupied child slot, `delete` returns 2 and changes
neither the cached FAT nor any cluster on disk. -/
theorem delete_nonempty_folder_returns_two (E : Platform) (m : Machine)
    (request : FAT32DriverRequest) (fuel i k : Nat)
    (hdir : (E.as_dir (m.storage request.parent_cluster_number) 0).attr = E.ATTR_SUBDIRECTORY)
    (hi : i < directory_size)
    (hmatch : entry_matches (E.as_dir (m.storage request.parent_cluster_number) i) request
      = true)
    (hfirst : ∀ j, j < i →
      entry_matches (E.as_dir (m.storage request.parent_cluster_number) j) request = false)
    (hsub : (E.as_dir (m.storage request.parent_cluster_number) i).attr
      = E.ATTR_SUBDIRECTORY)
    (hk1 : 1 ≤ k) (hk2 : k < directory_size)
    (hocc : (E.as_dir (m.storage
        (entry_cluster (E.as_dir (m.storage request.parent_cluster_number) i))) k).user_attribute
      = E.UATTR_NOT_EMPTY) :
    ∃ m', delete E fuel m request = some (2, m') ∧
      m'.driver_state.fat_table = m.driver_state.fat_table ∧ m'.storage = m.storage := by
  have hfind := find?_range_first
    (fun i => entry_matches (E.as_dir (m.storage request.parent_cluster_number) i) request)
    directory_size i hi hmatch hfirst
  have hany : (List.range' 1 (directory_size - 1)).any (fun k =>
      (E.as_dir (m.storage
        (entry_cluster (E.as_dir (m.storage request.parent_cluster_number) i))) k).user_attribute
        == E.UATTR_NOT_EMPTY) = true := by
    rw [List.any_eq_true]
    refine ⟨k, List.mem_range'.2 ⟨k - 1, by omega, by omega⟩, ?_⟩
    rw [hocc]
    exact beq_self_eq_true _
  unfold delete
  simp only
  rw [if_neg (not_not.2 hdir), hfind]
  simp only
  rw [if_pos ⟨hsub, hany⟩]
  exact ⟨_, rfl, rfl, rfl⟩


theorem fat_chain_mono (E : Platform) (fat : FAT32FileAllocationTable) :
    ∀ f c l, fat_chain E fat f c = some l → ∀ f', f ≤ f' → fat_chain E fat f' c = some l := by
  intro f
  induction f with
  | zero => intro c l h; simp [fat_chain] at h
  | succ f ih =>
    intro c l h f' hf'
    obtain ⟨f', rfl⟩ : ∃ g, f' = g + 1 := ⟨f' - 1, by omega⟩
    simp only [fat_chain] at h ⊢
    split_ifs at h ⊢ with h1 h2
    · exact h
    · cases hrec : fat_chain E fat f (fat c) with
      | none => rw [hrec] at h; simp at h
      | some l' =>
        rw [hrec] at h
        rw [ih _ _ hrec f' (by omega)]
        exact h

theorem fat_chain_length_le (E : Platform) (fat : FAT32FileAllocationTable) :
    ∀ f c l, fat_chain E fat f c = some l → l.length ≤ f := by
  intro f
  induction f with
  | zero => intro c l h; simp [fat_chain] at h
  | succ f ih =>
    intro c l h
    simp only [fat_chain] at h
    split_ifs at h with h1 h2
    · simp only [Option.some.injEq] at h
      subst h
      simp
    · cases hrec : fat_chain E fat f (fat c) with
      | none => rw [hrec] at h; simp at h
      | some l' =>
        rw [hrec] at h
        simp only [Option.map_some', Option.some.injEq] at h
        subst h
        have := ih _ _ hrec
        simp
        omega

/-- Every cluster on a chain starts a chain that is a final piece of it. -/
theorem fat_chain_suffix (E : Platform) (fat : FAT32FileAllocationTable) :
    ∀ f c l, fat_chain E fat f c = some l → ∀ x, x ∈ l →
      ∃ s, s.length ≤ l.length ∧ fat_chain E fat f x = some s := by
  intro f
  induction f with
  | zero => intro c l h; simp [fat_chain] at h
  | succ f ih =>
    intro c l h x hx
    have h' := h
    simp only [fat_chain] at h
    split_ifs at h with h1 h2
    · simp only [Option.some.injEq] at h
      subst h
      simp only [List.mem_singleton] at hx
      subst hx
      exact ⟨_, le_refl _, h'⟩
    · cases hrec : fat_chain E fat f (fat c) with
      | none => rw [hrec] at h; simp at h
      | some l' =>
        rw [hrec] at h
        simp only [Option.map_some', Option.some.injEq] at h
        subst h
        rcases List.mem_cons.1 hx with hxc | hxl
        · subst hxc
          exact ⟨_, le_refl _, h'⟩
        · obtain ⟨s, hs1, hs2⟩ := ih _ _ hrec x hxl
          exact ⟨s, by simp; omega, fat_chain_mono E fat _ _ _ hs2 _ (Nat.le_succ _)⟩

/-- A walk that reaches `FAT32_FAT_END_OF_FILE` visits no cluster twice. -/
theorem fat_chain_nodup (E : Platform) (fat : FAT32FileAllocationTable) :
    ∀ f c l, fat_chain E fat f c = some l → l.Nodup := by
  intro f
  induction f with
  | zero => intro c l h; simp [fat_chain] at h
  | succ f ih =>
    intro c l h
    have h' := h
    simp only [fat_chain] at h
    split_ifs at h with h1 h2
    · simp only [Option.some.injEq] at h
      subst h
      simp
    · cases hrec : fat_chain E fat f (fat c) with
      | none => rw [hrec] at h; simp at h
      | some l' =>
        rw [hrec] at h
        simp only [Option.map_some', Option.some.injEq] at h
        subst h
        rw [List.nodup_cons]
        refine ⟨fun hc => ?_, ih _ _ hrec⟩
        obtain ⟨s, hs1, hs2⟩ := fat_chain_suffix E fat _ _ _ hrec c hc
        have hs3 := fat_chain_mono E fat _ _ _ hs2 _ (Nat.le_succ f)
        rw [h'] at hs3
        simp only [Option.some.injEq] at hs3
        subst hs3
        simp at hs1

/-- The loop of `delete` along a chain that ends in `FAT32_FAT_END_OF_FILE`: it
ends by itself, marks the clusters of the chain `EMPTY` and changes no other
entry. -/
theorem delete_loop_of_chain (E : Platform) (fat0 : FAT32FileAllocationTable) :
    ∀ f c l, fat_chain E fat0 f c = some l →
      ∀ fuel, l.length ≤ fuel → ∀ fat, (∀ x, x ∈ l → fat x = fat0 x) →
        delete_loop E fuel c fat
          = some (fun x => if x ∈ l then E.FAT32_FAT_EMPTY_ENTRY else fat x) := by
  intro f
  induction f with
  | zero => intro c l h; simp [fat_chain] at h
  | succ f ih =>
    intro c l h fuel hfuel fat hfat
    have hnd := fat_chain_nodup E fat0 _ _ _ h
    simp only [fat_chain] at h
    split_ifs at h with h1 h2
    · simp only [Option.some.injEq] at h
      subst h
      obtain ⟨fuel, rfl⟩ : ∃ g, fuel = g + 1 := ⟨fuel - 1, by simp at hfuel; omega⟩
      simp only [delete_loop]
      rw [hfat c (by simp), if_neg (not_not.2 h2)]
      congr 1
      funext x
      simp only [upd, List.mem_singleton]
    · cases hrec : fat_chain E fat0 f (fat0 c) with
      | none => rw [hrec] at h; simp at h
      | some l' =>
        rw [hrec] at h
        simp only [Option.map_some', Option.some.injEq] at h
        subst h
        obtain ⟨fuel, rfl⟩ : ∃ g, fuel = g + 1 := ⟨fuel - 1, by simp at hfuel; omega⟩
        rw [List.nodup_cons] at hnd
        simp only [delete_loop]
        rw [hfat c (by simp), if_pos h2,
          ih _ _ hrec fuel (by simp at hfuel; omega) (upd fat c E.FAT32_FAT_EMPTY_ENTRY)
            (fun x hx => by
              have hxc : x ≠ c := fun e => hnd.1 (e ▸ hx)
              rw [upd_other _ _ hxc]
              exact hfat x (List.mem_cons_of_mem _ hx))]
        congr 1
        funext x
        by_cases hxc : x = c
        · subst hxc
          simp [hnd.1, upd]
        · simp [hxc, upd]


/-- C14 (amended): on a platform with sane constants, for every request whose
parent cluster holds a directory table (entry 0 of the table has the attribute
`ATTR_SUBDIRECTORY`), if the first entry in index order that matches name and
extension is a file whose cluster chain ends in `FAT32_FAT_END_OF_FILE`,
`delete` ends and returns 0, afterwards every cluster of the chain is `EMPTY`
in the FAT, every FAT entry off the chain is unchanged, and the matched entry
has name and extension zeroed and is not marked occupied (in
`driver_state.dir_table_buf`, which is stored back into the parent cluster);
if no entry matches, `delete` returns 1. -/
theorem delete_file_frees_chain (E : Platform) (hE : E.Sane) (m : Machine)
    (request : FAT32DriverRequest) (fuel : Nat)
    (hdir : (E.as_dir (m.storage request.parent_cluster_number) 0).attr
      = E.ATTR_SUBDIRECTORY) :
    (∀ i f chain, i < directory_size →
      entry_matches (E.as_dir (m.storage request.parent_cluster_number) i) request = true →
      (∀ j, j < i →
        entry_matches (E.as_dir (m.storage request.parent_cluster_number) j) request = false) →
      (E.as_dir (m.storage request.parent_cluster_number) i).attr ≠ E.ATTR_SUBDIRECTORY →
      fat_chain E m.driver_state.fat_table f
        (entry_cluster (E.as_dir (m.storage request.parent_cluster_number) i)) = some chain →
      chain.length ≤ fuel →
      ∃ m', delete E fuel m request = some (0, m') ∧
        (∀ c, c ∈ chain → m'.driver_state.fat_table c = E.FAT32_FAT_EMPTY_ENTRY) ∧
        (∀ c, c ∉ chain → m'.driver_state.fat_table c = m.driver_state.fat_table c) ∧
        (m'.driver_state.dir_table_buf i).name = List.replicate 8 0 ∧
        (m'.driver_state.dir_table_buf i).ext = List.replicate 3 0 ∧
        (m'.driver_state.dir_table_buf i).user_attribute ≠ E.UATTR_NOT_EMPTY ∧
        (request.parent_cluster_number ≠ FAT_CLUSTER_NUMBER →
          m'.storage request.parent_cluster_number = .dir m'.driver_state.dir_table_buf)) ∧
    ((∀ j, j < directory_size →
        entry_matches (E.as_dir (m.storage request.parent_cluster_number) j) request = false) →
      ∃ m', delete E fuel m request = some (1, m') ∧
        m'.driver_state.fat_table = m.driver_state.fat_table ∧ m'.storage = m.storage) := by
  constructor
  · intro i f chain hi hmatch hfirst hfile hchain hfuel
    have hfind := find?_range_first
      (fun i => entry_matches (E.as_dir (m.storage request.parent_cluster_number) i) request)
      directory_size i hi hmatch hfirst
    have hloop := delete_loop_of_chain E m.driver_state.fat_table f _ chain hchain fuel hfuel
      m.driver_state.fat_table (fun _ _ => rfl)
    unfold delete
    simp only
    rw [if_neg (not_not.2 hdir), hfind]
    simp only
    rw [if_neg (fun h => hfile h.1), hloop]
    refine ⟨_, rfl, fun c hc => ?_, fun c hc => ?_, ?_, ?_, ?_, fun hp => ?_⟩
    · simp [hc]
    · simp [hc]
    · simp [upd_same]
    · simp [upd_same]
    · simp only [upd_same]
      exact fun h => hE.uattr_ne_zero h.symm
    · simp only
      rw [upd_other _ _ hp, upd_same]
  · intro hnone
    have hfind : (List.range directory_size).find?
        (fun i => entry_matches (E.as_dir (m.storage request.parent_cluster_number) i) request)
        = none := by
      rw [List.find?_eq_none]
      intro x hx
      rw [hnone x (List.mem_range.1 hx)]
      exact Bool.false_ne_true
    unfold delete
    simp only
    rw [if_neg (not_not.2 hdir), hfind]
    exact ⟨_, rfl, rfl, rfl⟩


/-- Witness of C11 (amended): "a.txt" of 1500 bytes in the root directory, read into a
buffer of 100 bytes. -/
theorem read_small_buffer_returns_two_witness :
    (read_request 97 100).buffer_size
      < (specPlatform.as_dir (machine_with_file.storage
          (read_request 97 100).parent_cluster_number) 1).filesize ∧
    ∃ m', read specPlatform 128 machine_with_file (read_request 97 100)
        = some (2, m', (read_request 97 100).buf) ∧
      m'.driver_state.fat_table = machine_with_file.driver_state.fat_table ∧
      m'.storage = machine_with_file.storage := by
  have h : (specPlatform.as_dir (machine_with_file.storage
        (read_request 97 100).parent_cluster_number) 0).attr = specPlatform.ATTR_SUBDIRECTORY ∧
      entry_matches (specPlatform.as_dir (machine_with_file.storage
        (read_request 97 100).parent_cluster_number) 1) (read_request 97 100) = true ∧
      (∀ j, j < 1 → entry_matches (specPlatform.as_dir (machine_with_file.storage
        (read_request 97 100).parent_cluster_number) j) (read_request 97 100) = false) ∧
      (specPlatform.as_dir (machine_with_file.storage
        (read_request 97 100).parent_cluster_number) 1).attr ≠ specPlatform.ATTR_SUBDIRECTORY ∧
      (read_request 97 100).buffer_size
        < (specPlatform.as_dir (machine_with_file.storage
            (read_request 97 100).parent_cluster_number) 1).filesize := by
    decide!
  exact ⟨h.2.2.2.2,
    read_small_buffer_returns_two specPlatform machine_with_file (read_request 97 100) 128 1
      h.1 (by decide) h.2.1 h.2.2.1 h.2.2.2.1 h.2.2.2.2⟩

/-- Witness of C12 on the code: the folder "d" in the root directory of
`trace_step1`, read with a request whose buffer holds the bytes `k % 251 + 1`;
the return code is 0 and the buffer is as before. -/
theorem read_directory_leaves_buf_witness :
    (specPlatform.as_dir (trace_step1.storage
      (sample_request 100 ext_dir ROOT_CLUSTER_NUMBER 512).parent_cluster_number) 1).attr
      = specPlatform.ATTR_SUBDIRECTORY ∧
    (read_directory specPlatform trace_step1
      (sample_request 100 ext_dir ROOT_CLUSTER_NUMBER 512)).1 = 0 ∧
    (read_directory specPlatform trace_step1
      (sample_request 100 ext_dir ROOT_CLUSTER_NUMBER 512)).2.1.driver_state.dir_table_buf
      = specPlatform.as_dir (trace_step1.storage
          (entry_cluster (specPlatform.as_dir (trace_step1.storage
            (sample_request 100 ext_dir ROOT_CLUSTER_NUMBER 512).parent_cluster_number) 1))) ∧
    (read_directory specPlatform trace_step1
      (sample_request 100 ext_dir ROOT_CLUSTER_NUMBER 512)).2.2
      = (sample_request 100 ext_dir ROOT_CLUSTER_NUMBER 512).buf := by
  have h : (specPlatform.as_dir (trace_step1.storage
        (sample_request 100 ext_dir ROOT_CLUSTER_NUMBER 512).parent_cluster_number) 0).attr
        = specPlatform.ATTR_SUBDIRECTORY ∧
      entry_matches (specPlatform.as_dir (trace_step1.storage
        (sample_request 100 ext_dir ROOT_CLUSTER_NUMBER 512).parent_cluster_number) 1)
        (sample_request 100 ext_dir ROOT_CLUSTER_NUMBER 512) = true ∧
      (∀ j, j < 1 → entry_matches (specPlatform.as_dir (trace_step1.storage
        (sample_request 100 ext_dir ROOT_CLUSTER_NUMBER 512).parent_cluster_number) j)
        (sample_request 100 ext_dir ROOT_CLUSTER_NUMBER 512) = false) ∧
      (specPlatform.as_dir (trace_step1.storage
        (sample_request 100 ext_dir ROOT_CLUSTER_NUMBER 512).parent_cluster_number) 1).attr
        = specPlatform.ATTR_SUBDIRECTORY := by
    decide!
  exact ⟨h.2.2.2,
    read_directory_leaves_buf specPlatform trace_step1
      (sample_request 100 ext_dir ROOT_CLUSTER_NUMBER 512) 1
      h.1 (by decide) h.2.1 h.2.2.1 h.2.2.2⟩

/-- Witness of C13 (amended): in `trace_step4` the folder "d" of the root directory holds
the file "h.txt" in its slot 1. -/
theorem delete_nonempty_folder_returns_two_witness :
    (specPlatform.as_dir (trace_step4.storage
      (entry_cluster (specPlatform.as_dir (trace_step4.storage
        (sample_request 100 ext_dir ROOT_CLUSTER_NUMBER 0).parent_cluster_number) 1)))
      1).user_attribute = specPlatform.UATTR_NOT_EMPTY ∧
    ∃ m', delete specPlatform 128 trace_step4
        (sample_request 100 ext_dir ROOT_CLUSTER_NUMBER 0) = some (2, m') ∧
      m'.driver_state.fat_table = trace_step4.driver_state.fat_table ∧
      m'.storage = trace_step4.storage := by
  have h : (specPlatform.as_dir (trace_step4.storage
        (sample_request 100 ext_dir ROOT_CLUSTER_NUMBER 0).parent_cluster_number) 0).attr
        = specPlatform.ATTR_SUBDIRECTORY ∧
      entry_matches (specPlatform.as_dir (trace_step4.storage
        (sample_request 100 ext_dir ROOT_CLUSTER_NUMBER 0).parent_cluster_number) 1)
        (sample_request 100 ext_dir ROOT_CLUSTER_NUMBER 0) = true ∧
      (∀ j, j < 1 → entry_matches (specPlatform.as_dir (trace_step4.storage
        (sample_request 100 ext_dir ROOT_CLUSTER_NUMBER 0).parent_cluster_number) j)
        (sample_request 100 ext_dir ROOT_CLUSTER_NUMBER 0) = false) ∧
      (specPlatform.as_dir (trace_step4.storage
        (sample_request 100 ext_dir ROOT_CLUSTER_NUMBER 0).parent_cluster_number) 1).attr
        = specPlatform.ATTR_SUBDIRECTORY ∧
      (specPlatform.as_dir (trace_step4.storage
        (entry_cluster (specPlatform.as_dir (trace_step4.storage
          (sample_request 100 ext_dir ROOT_CLUSTER_NUMBER 0).parent_cluster_number) 1)))
        1).user_attribute = specPlatform.UATTR_NOT_EMPTY := by
    decide!
  exact ⟨h.2.2.2.2,
    delete_nonempty_folder_returns_two specPlatform trace_step4
      (sample_request 100 ext_dir ROOT_CLUSTER_NUMBER 0) 128 1 1
      h.1 (by decide) h.2.1 h.2.2.1 h.2.2.2.1 (by decide) (by decide) h.2.2.2.2⟩

/-- Witness of C14 (amended): `delete` of "a.txt" (1500 bytes, clusters 3, 4 and 5) from
the root directory, and `delete` of the absent "z.txt". -/
theorem delete_file_frees_chain_witness :
    (specPlatform.as_dir (machine_with_file.storage
      (sample_request 97 ext_txt ROOT_CLUSTER_NUMBER 0).parent_cluster_number) 0).attr
      = specPlatform.ATTR_SUBDIRECTORY ∧
    (∃ m', delete specPlatform 128 machine_with_file
        (sample_request 97 ext_txt ROOT_CLUSTER_NUMBER 0) = some (0, m') ∧
      (∀ c, c ∈ [3, 4, 5] →
        m'.driver_state.fat_table c = specPlatform.FAT32_FAT_EMPTY_ENTRY) ∧
      (∀ c, c ∉ [3, 4, 5] →
        m'.driver_state.fat_table c = machine_with_file.driver_state.fat_table c) ∧
      (m'.driver_state.dir_table_buf 1).name = List.replicate 8 0 ∧
      (m'.driver_state.dir_table_buf 1).ext = List.replicate 3 0 ∧
      (m'.driver_state.dir_table_buf 1).user_attribute ≠ specPlatform.UATTR_NOT_EMPTY ∧
      ((sample_request 97 ext_txt ROOT_CLUSTER_NUMBER 0).parent_cluster_number
          ≠ FAT_CLUSTER_NUMBER →
        m'.storage (sample_request 97 ext_txt ROOT_CLUSTER_NUMBER 0).parent_cluster_number
          = .dir m'.driver_state.dir_table_buf)) ∧
    (∃ m', delete specPlatform 128 machine_with_file
        (sample_request 122 ext_txt ROOT_CLUSTER_NUMBER 0) = some (1, m') ∧
      m'.driver_state.fat_table = machine_with_file.driver_state.fat_table ∧
      m'.storage = machine_with_file.storage) := by
  have h : (specPlatform.as_dir (machine_with_file.storage
        (sample_request 97 ext_txt ROOT_CLUSTER_NUMBER 0).parent_cluster_number) 0).attr
        = specPlatform.ATTR_SUBDIRECTORY ∧
      entry_matches (specPlatform.as_dir (machine_with_file.storage
        (sample_request 97 ext_txt ROOT_CLUSTER_NUMBER 0).parent_cluster_number) 1)
        (sample_request 97 ext_txt ROOT_CLUSTER_NUMBER 0) = true ∧
      (∀ j, j < 1 → entry_matches (specPlatform.as_dir (machine_with_file.storage
        (sample_request 97 ext_txt ROOT_CLUSTER_NUMBER 0).parent_cluster_number) j)
        (sample_request 97 ext_txt ROOT_CLUSTER_NUMBER 0) = false) ∧
      (specPlatform.as_dir (machine_with_file.storage
        (sample_request 97 ext_txt ROOT_CLUSTER_NUMBER 0).parent_cluster_number) 1).attr
        ≠ specPlatform.ATTR_SUBDIRECTORY ∧
      fat_chain specPlatform machine_with_file.driver_state.fat_table 128
        (entry_cluster (specPlatform.as_dir (machine_with_file.storage
          (sample_request 97 ext_txt ROOT_CLUSTER_NUMBER 0).parent_cluster_number) 1))
        = some [3, 4, 5] ∧
      (specPlatform.as_dir (machine_with_file.storage
        (sample_request 122 ext_txt ROOT_CLUSTER_NUMBER 0).parent_cluster_number) 0).attr
        = specPlatform.ATTR_SUBDIRECTORY ∧
      (∀ j, j < directory_size → entry_matches (specPlatform.as_dir (machine_with_file.storage
        (sample_request 122 ext_txt ROOT_CLUSTER_NUMBER 0).parent_cluster_number) j)
        (sample_request 122 ext_txt ROOT_CLUSTER_NUMBER 0) = false) := by
    decide!
  exact ⟨h.1,
    (delete_file_frees_chain specPlatform specPlatform_sane machine_with_file
      (sample_request 97 ext_txt ROOT_CLUSTER_NUMBER 0) 128 h.1).1 1 128 [3, 4, 5]
      (by decide) h.2.1 h.2.2.1 h.2.2.2.1 h.2.2.2.2.1 (by simp),
    (delete_file_frees_chain specPlatform specPlatform_sane machine_with_file
      (sample_request 122 ext_txt ROOT_CLUSTER_NUMBER 0) 128 h.2.2.2.2.2.1).2 h.2.2.2.2.2.2⟩

/-- A call of `write` that passes the three checks returns 0. -/
theorem write_returns_zero (E : Platform) (m : Machine) (request : FAT32DriverRequest)
    (hdir : (E.as_dir (m.storage request.parent_cluster_number) 0).attr = E.ATTR_SUBDIRECTORY)
    (hnm : (List.range directory_size).any
      (fun i => entry_matches (E.as_dir (m.storage request.parent_cluster_number) i) request)
      = false)
    (hav : write_cluster_count E request ≤ write_cluster_available E m.driver_state.fat_table) :
    (write E m request).1 = 0 := by
  by_cases hsz : request.buffer_size = 0
  · rw [write_folder_eq E m request hdir hnm hav hsz]
  · rw [write_file_eq E m request hdir hnm hav hsz]

/-- The result of `delete` once the entry is found, is not a non-empty folder,
and the cluster walk has ended. -/
theorem delete_ok_eq (E : Platform) (m : Machine) (request : FAT32DriverRequest)
    (fuel i : Nat) (fat' : FAT32FileAllocationTable)
    (hdir : (E.as_dir (m.storage request.parent_cluster_number) 0).attr = E.ATTR_SUBDIRECTORY)
    (hi : i < directory_size)
    (hmatch : entry_matches (E.as_dir (m.storage request.parent_cluster_number) i) request
      = true)
    (hfirst : ∀ j, j < i →
      entry_matches (E.as_dir (m.storage request.parent_cluster_number) j) request = false)
    (hempty : ¬ ((E.as_dir (m.storage request.parent_cluster_number) i).attr
        = E.ATTR_SUBDIRECTORY ∧
      (List.range' 1 (directory_size - 1)).any (fun k =>
        (E.as_dir (m.storage (entry_cluster
          (E.as_dir (m.storage request.parent_cluster_number) i))) k).user_attribute
          == E.UATTR_NOT_EMPTY) = true))
    (hloop : delete_loop E fuel
      (entry_cluster (E.as_dir (m.storage request.parent_cluster_number) i))
      m.driver_state.fat_table = some fat') :
    delete E fuel m request =
      some (0, { driver_state :=
                  { fat_table := fat',
                    dir_table_buf := upd (E.as_dir (m.storage request.parent_cluster_number)) i
                      { (E.as_dir (m.storage request.parent_cluster_number) i) with
                        user_attribute := 0, name := List.replicate 8 0,
                        ext := List.replicate 3 0 } },
                 storage := upd (upd m.storage request.parent_cluster_number
                    (.dir (upd (E.as_dir (m.storage request.parent_cluster_number)) i
                      { (E.as_dir (m.storage request.parent_cluster_number) i) with
                        user_attribute := 0, name := List.replicate 8 0,
                        ext := List.replicate 3 0 })))
                  FAT_CLUSTER_NUMBER (.fat fat') }) := by
  have hfind := find?_range_first
    (fun i => entry_matches (E.as_dir (m.storage request.parent_cluster_number) i) request)
    directory_size i hi hmatch hfirst
  unfold delete
  simp only
  rw [if_neg (not_not.2 hdir), hfind]
  simp only
  rw [if_neg hempty, hloop]
  rfl

theorem write_cluster_count_zero (E : Platform) (request : FAT32DriverRequest)
    (hsz : request.buffer_size = 0) : write_cluster_count E request = 0 := by
  unfold write_cluster_count ceil_div to_uint32 to_int32
  rw [hsz]
  simp

theorem write_cluster_available_congr (E : Platform) (fat fat' : FAT32FileAllocationTable)
    (h : ∀ x, fat' x = fat x) :
    write_cluster_available E fat' = write_cluster_available E fat := by
  have : fat' = fat := funext h
  rw [this]


theorem getD_mem_take (l : List Nat) (j k : Nat) (hj : j < k) (hk : k ≤ l.length) :
    l.getD j 0 ∈ l.take k := by
  have hjl : j < (l.take k).length := by
    rw [List.length_take]
    omega
  have : (l.take k)[j] = l.getD j 0 := by
    rw [List.getD_eq_getElem l 0 (show j < l.length by omega)]
    exact List.getElem_take _
  rw [← this]
  exact List.getElem_mem hjl

theorem entry_matches_zeroed (e : FAT32DirectoryEntry) (request : FAT32DriverRequest) :
    entry_matches { e with user_attribute := 0, name := List.replicate 8 0,
                           ext := List.replicate 3 0 } request
      = entry_matches zero_entry request := rfl

/-- After a successful `write`, a `delete` of the written name followed by a
second `write`: the parent table and the state of the FAT that the second
`write` sees. -/
theorem write_after_delete_ok (E : Platform) (m2 : Machine) (request : FAT32DriverRequest)
    (dir : FAT32DirectoryTable) (idx : Nat) (e1 : FAT32DirectoryEntry)
    (hst : m2.storage request.parent_cluster_number
      = .dir (upd (upd dir idx e1) idx
          { e1 with user_attribute := 0, name := List.replicate 8 0,
                    ext := List.replicate 3 0 }))
    (hidx : idx ≠ 0)
    (hdir : (dir 0).attr = E.ATTR_SUBDIRECTORY)
    (hnomatch : ∀ i, i < directory_size → entry_matches (dir i) request = false)
    (hnz : entry_matches zero_entry request = false)
    (hav : write_cluster_count E request ≤ write_cluster_available E m2.driver_state.fat_table) :
    (write E m2 request).1 = 0 := by
  have hasdir : E.as_dir (m2.storage request.parent_cluster_number)
      = upd (upd dir idx e1) idx
          { e1 with user_attribute := 0, name := List.replicate 8 0,
                    ext := List.replicate 3 0 } := by
    rw [hst]
    rfl
  apply write_returns_zero E m2 request
  · rw [hasdir, upd_other _ _ (Ne.symm hidx), upd_other _ _ (Ne.symm hidx)]
    exact hdir
  · rw [List.any_eq_false]
    intro i hi
    rw [hasdir]
    by_cases hii : i = idx
    · subst hii
      rw [upd_same, entry_matches_zeroed, hnz]
      exact Bool.false_ne_true
    · rw [upd_other _ _ hii, upd_other _ _ hii, hnomatch i (List.mem_range.1 hi)]
      exact Bool.false_ne_true
  · exact hav


/-- C15 (amended): on a platform with sane constants, for every state in which
entries 0 and 1 of the FAT are not `EMPTY` and every request whose name and
extension are not all NUL, whose parent directory lies in a cluster from 2 on
that is not `EMPTY` in the FAT, and whose parent table has an unoccupied child
slot, when `write` of fewer than `2 ^ 31` bytes returns 0, a following `delete`
with the same name, extension and parent cluster ends and returns 0, and a
second `write` of the same request then returns 0 again. -/
theorem write_delete_write (E : Platform) (hE : E.Sane) (m : Machine)
    (request request' : FAT32DriverRequest) (fuel : Nat)
    (hn : request.buffer_size < 2 ^ 31)
    (h0 : m.driver_state.fat_table 0 ≠ E.FAT32_FAT_EMPTY_ENTRY)
    (h1 : m.driver_state.fat_table 1 ≠ E.FAT32_FAT_EMPTY_ENTRY)
    (hp2 : 2 ≤ request.parent_cluster_number)
    (hpe : m.driver_state.fat_table request.parent_cluster_number ≠ E.FAT32_FAT_EMPTY_ENTRY)
    (hslot : ∃ i, 1 ≤ i ∧ i < directory_size ∧
      (E.as_dir (m.storage request.parent_cluster_number) i).user_attribute
        ≠ E.UATTR_NOT_EMPTY)
    (hnz : entry_matches zero_entry request = false)
    (hret : (write E m request).1 = 0)
    (hname : request'.name = request.name) (hext : request'.ext = request.ext)
    (hparent : request'.parent_cluster_number = request.parent_cluster_number)
    (hfuel : E.CLUSTER_MAP_SIZE ≤ fuel) (hfuel1 : 0 < fuel) :
    ∃ m2, delete E fuel (write E m request).2 request' = some (0, m2) ∧
      (write E m2 request).1 = 0 := by
  obtain ⟨hdir, hnm, hav⟩ := write_ok_inv E m request hret
  obtain ⟨hidx1, hidx2, -⟩ := write_new_entry_idx_spec E _ hslot
  have hnomatch : ∀ i, i < directory_size →
      entry_matches (E.as_dir (m.storage request.parent_cluster_number) i) request = false := by
    intro i hi
    have := List.any_eq_false.1 hnm i (List.mem_range.2 hi)
    simpa using this
  have hpf : request.parent_cluster_number ≠ FAT_CLUSTER_NUMBER := by
    unfold FAT_CLUSTER_NUMBER
    omega
  have hasdir : ∀ t, E.as_dir (.dir t) = t := fun _ => rfl
  have hmatch_new : ∀ a, entry_matches
      { write_new_entry E request (write_empty_cluster E m.driver_state.fat_table)
        with attr := a } request' = true := by
    intro a
    rw [entry_matches_congr _ _ _ hname hext]
    unfold entry_matches
    simp only [write_new_entry]
    rw [memcmp_eq_take, memcmp_eq_take]
    rfl
  by_cases hsz : request.buffer_size = 0
  · -- a folder
    have hw := write_folder_eq E m request hdir hnm hav hsz
    have hec := entry_cluster_write_new_entry E hE request m.driver_state.fat_table
      E.ATTR_SUBDIRECTORY
    have hecf := write_empty_cluster_ne_fat E m.driver_state.fat_table
    have hecp : write_empty_cluster E m.driver_state.fat_table
        ≠ request.parent_cluster_number := by
      rcases write_empty_cluster_cases E m.driver_state.fat_table with h | ⟨-, -, h⟩
      · omega
      · intro e
        rw [e] at h
        exact hpe h
    have hm := hmatch_new E.ATTR_SUBDIRECTORY
    generalize hidx : write_new_entry_idx E
      (E.as_dir (m.storage request.parent_cluster_number)) = idx at hidx1 hidx2 hw
    generalize hne : ({ write_new_entry E request
      (write_empty_cluster E m.driver_state.fat_table) with attr := E.ATTR_SUBDIRECTORY }
        : FAT32DirectoryEntry) = e1 at hec hw hm
    generalize write_empty_cluster E m.driver_state.fat_table = ec at hec hecf hecp hw
    generalize hm1 : (write E m request).2 = m1
    have hm1s : m1.storage = upd (upd (upd m.storage ec
        (.dir (init_directory_table E zero_table request.name request.parent_cluster_number)))
        request.parent_cluster_number
        (.dir (upd (E.as_dir (m.storage request.parent_cluster_number)) idx e1)))
        FAT_CLUSTER_NUMBER (.fat (upd m.driver_state.fat_table ec E.FAT32_FAT_END_OF_FILE)) := by
      rw [← hm1, hw]
    have hm1f : m1.driver_state.fat_table
        = upd m.driver_state.fat_table ec E.FAT32_FAT_END_OF_FILE := by
      rw [← hm1, hw]
    have hpar : E.as_dir (m1.storage request.parent_cluster_number)
        = upd (E.as_dir (m.storage request.parent_cluster_number)) idx e1 := by
      rw [hm1s, upd_other _ _ hpf, upd_same]
      rfl
    have htarget : E.as_dir (m1.storage ec)
        = init_directory_table E zero_table request.name request.parent_cluster_number := by
      rw [hm1s, upd_other _ _ hecf, upd_other _ _ hecp, upd_same]
      rfl
    obtain ⟨m2, hm2, hm2s⟩ : ∃ m2, delete E fuel m1 request' = some (0, m2) ∧
        m2.storage request.parent_cluster_number
          = .dir (upd (upd (E.as_dir (m.storage request.parent_cluster_number)) idx e1) idx
              { e1 with user_attribute := 0, name := List.replicate 8 0,
                        ext := List.replicate 3 0 }) := by
      refine ⟨_, delete_ok_eq E m1 request' fuel idx
        (upd (upd m.driver_state.fat_table ec E.FAT32_FAT_END_OF_FILE) ec
          E.FAT32_FAT_EMPTY_ENTRY) ?_ hidx2 ?_ ?_ ?_ ?_, ?_⟩
      · rw [hparent, hpar, upd_other _ _ (show (0 : Nat) ≠ idx by omega)]
        exact hdir
      · rw [hparent, hpar, upd_same]
        exact hm
      · intro j hj
        rw [hparent, hpar, upd_other _ _ (show j ≠ idx by omega),
          entry_matches_congr _ _ _ hname hext]
        exact hnomatch j (by omega)
      · rw [hparent, hpar, upd_same, hec, htarget]
        rintro ⟨-, hany⟩
        rw [List.any_eq_true] at hany
        obtain ⟨k, hk, hu⟩ := hany
        rw [List.mem_range'] at hk
        obtain ⟨i, -, rfl⟩ := hk
        have hz : init_directory_table E zero_table request.name
            request.parent_cluster_number (1 + 1 * i) = zero_entry :=
          upd_other _ _ (show 1 + 1 * i ≠ 0 by omega)
        rw [hz] at hu
        have : (0 : Nat) = E.UATTR_NOT_EMPTY := by simpa [zero_entry] using hu
        exact hE.uattr_ne_zero this.symm
      · rw [hparent, hpar, upd_same, hec, hm1f]
        obtain ⟨g, rfl⟩ : ∃ g, fuel = g + 1 := ⟨fuel - 1, by omega⟩
        simp only [delete_loop]
        rw [upd_same, if_neg (not_not.2 rfl)]
      · simp only
        rw [upd_other _ _ hpf, hparent, upd_same, hpar, upd_same]
    refine ⟨m2, hm2, write_after_delete_ok E m2 request _ idx e1 hm2s (by omega) hdir
      hnomatch hnz ?_⟩
    rw [write_cluster_count_zero E request hsz]
    exact Nat.zero_le _
  · -- a file
    obtain ⟨hcnt, hfirst⟩ := write_scans_agree E m.driver_state.fat_table h0 h1
    have hk := write_cluster_count_eq E hE request hn
    have hk1 : 1 ≤ write_cluster_count E request := by
      rw [hk]
      exact ceil_pos _ _ (by omega) hE.cluster_size_pos
    have hkl : write_cluster_count E request
        ≤ (write_empty_clusters E m.driver_state.fat_table).length := by omega
    have hmemj : ∀ j, j < write_cluster_count E request →
        (write_empty_clusters E m.driver_state.fat_table).getD j 0
          ∈ write_empty_clusters E m.driver_state.fat_table :=
      fun j hj => getD_mem_of_lt _ _ (by omega)
    have hlenle : (write_empty_clusters E m.driver_state.fat_table).length
        ≤ E.CLUSTER_MAP_SIZE := by
      have : (write_empty_clusters E m.driver_state.fat_table).length
          ≤ (List.range E.CLUSTER_MAP_SIZE).length := List.length_filter_le _ _
      rw [List.length_range] at this
      exact this
    obtain ⟨hloop, hloop2⟩ := write_file_loop_spec E request.buf
      (write_empty_clusters E m.driver_state.fat_table) (write_cluster_count E request)
      (write_empty_clusters_nodup E _) hkl (write_cluster_count E request) 0
      m.driver_state.fat_table m.storage (by omega)
    have hw := write_file_eq E m request hdir hnm hav hsz
    have hec : entry_cluster (write_new_entry E request
        (write_empty_cluster E m.driver_state.fat_table))
        = write_empty_cluster E m.driver_state.fat_table :=
      entry_cluster_write_new_entry E hE request m.driver_state.fat_table
        (write_new_entry E request (write_empty_cluster E m.driver_state.fat_table)).attr
    have hm : entry_matches (write_new_entry E request
        (write_empty_cluster E m.driver_state.fat_table)) request' = true :=
      hmatch_new (write_new_entry E request
        (write_empty_cluster E m.driver_state.fat_table)).attr
    have hattr : (write_new_entry E request
        (write_empty_cluster E m.driver_state.fat_table)).attr = 0 := rfl
    replace hec := hec.trans hfirst
    generalize hidx : write_new_entry_idx E
      (E.as_dir (m.storage request.parent_cluster_number)) = idx at hidx1 hidx2 hw
    generalize hloopres : write_file_loop E request.buf
      (write_empty_clusters E m.driver_state.fat_table) (write_cluster_count E request)
      (write_cluster_count E request) 0 m.driver_state.fat_table m.storage = res
      at hloop hloop2 hw
    generalize hne : write_new_entry E request (write_empty_cluster E m.driver_state.fat_table)
      = e1 at hec hw hm hattr
    generalize hm1 : (write E m request).2 = m1
    have hm1s : m1.storage = upd (upd res.2 request.parent_cluster_number
        (.dir (upd (E.as_dir (m.storage request.parent_cluster_number)) idx e1)))
        FAT_CLUSTER_NUMBER (.fat res.1) := by
      rw [← hm1, hw]
    have hm1f : m1.driver_state.fat_table = res.1 := by
      rw [← hm1, hw]
    have hpar : E.as_dir (m1.storage request.parent_cluster_number)
        = upd (E.as_dir (m.storage request.parent_cluster_number)) idx e1 := by
      rw [hm1s, upd_other _ _ hpf, upd_same]
      rfl
    have hchain := fat_chain_of_links E res.1
      (write_empty_clusters E m.driver_state.fat_table) (write_cluster_count E request) hkl
      (fun j hj => ((mem_write_empty_clusters E _ _).1 (hmemj j hj)).1)
      (fun j hj => by
        have := ((mem_write_empty_clusters E _ _).1 (hmemj j hj)).1
        have := hE.eof_not_index
        omega)
      (fun j hj => (hloop j (Nat.zero_le _) hj).1)
      (write_cluster_count E request) 0 (by omega) hk1 E.CLUSTER_MAP_SIZE (by omega)
    rw [List.drop_zero] at hchain
    have hdl := delete_loop_of_chain E res.1 _ _ _ hchain fuel
      (by rw [List.length_take]; omega) res.1 (fun _ _ => rfl)
    have hfat : (fun x => if x ∈ (write_empty_clusters E m.driver_state.fat_table).take
          (write_cluster_count E request)
        then E.FAT32_FAT_EMPTY_ENTRY else res.1 x) = m.driver_state.fat_table := by
      funext x
      split_ifs with hx
      · exact (((mem_write_empty_clusters E _ _).1 (List.mem_of_mem_take hx)).2).symm
      · exact (hloop2 x (fun j _ hj e => hx (e ▸ getD_mem_take _ j _ hj hkl))).1
    rw [hfat] at hdl
    obtain ⟨m2, hm2, hm2s, hm2f⟩ : ∃ m2, delete E fuel m1 request' = some (0, m2) ∧
        m2.storage request.parent_cluster_number
          = .dir (upd (upd (E.as_dir (m.storage request.parent_cluster_number)) idx e1) idx
              { e1 with user_attribute := 0, name := List.replicate 8 0,
                        ext := List.replicate 3 0 }) ∧
        m2.driver_state.fat_table = m.driver_state.fat_table := by
      refine ⟨_, delete_ok_eq E m1 request' fuel idx m.driver_state.fat_table
        ?_ hidx2 ?_ ?_ ?_ ?_, ?_, rfl⟩
      · rw [hparent, hpar, upd_other _ _ (show (0 : Nat) ≠ idx by omega)]
        exact hdir
      · rw [hparent, hpar, upd_same]
        exact hm
      · intro j hj
        rw [hparent, hpar, upd_other _ _ (show j ≠ idx by omega),
          entry_matches_congr _ _ _ hname hext]
        exact hnomatch j (by omega)
      · rw [hparent, hpar, upd_same, hattr]
        rintro ⟨h, -⟩
        exact hE.attr_ne_zero h.symm
      · rw [hparent, hpar, upd_same, hec, hm1f]
        exact hdl
      · simp only
        rw [upd_other _ _ hpf, hparent, upd_same, hpar, upd_same]
    refine ⟨m2, hm2, write_after_delete_ok E m2 request _ idx e1 hm2s (by omega) hdir
      hnomatch hnz ?_⟩
    rw [hm2f]
    exact hav


/-- Witness of C15 (amended): the 1500-byte file "a.txt" written into the root
directory of the freshly formatted disk, deleted, and written again. -/
theorem write_delete_write_witness :
    (write specPlatform fresh_machine
      (sample_request 97 ext_txt ROOT_CLUSTER_NUMBER 1500)).1 = 0 ∧
    ∃ m2, delete specPlatform 128
        (write specPlatform fresh_machine
          (sample_request 97 ext_txt ROOT_CLUSTER_NUMBER 1500)).2
        (sample_request 97 ext_txt ROOT_CLUSTER_NUMBER 0) = some (0, m2) ∧
      (write specPlatform m2 (sample_request 97 ext_txt ROOT_CLUSTER_NUMBER 1500)).1 = 0 := by
  have h : fresh_machine.driver_state.fat_table 0 ≠ specPlatform.FAT32_FAT_EMPTY_ENTRY ∧
      fresh_machine.driver_state.fat_table 1 ≠ specPlatform.FAT32_FAT_EMPTY_ENTRY ∧
      fresh_machine.driver_state.fat_table
        (sample_request 97 ext_txt ROOT_CLUSTER_NUMBER 1500).parent_cluster_number
        ≠ specPlatform.FAT32_FAT_EMPTY_ENTRY ∧
      (specPlatform.as_dir (fresh_machine.storage
        (sample_request 97 ext_txt ROOT_CLUSTER_NUMBER 1500).parent_cluster_number)
          1).user_attribute ≠ specPlatform.UATTR_NOT_EMPTY ∧
      entry_matches zero_entry (sample_request 97 ext_txt ROOT_CLUSTER_NUMBER 1500) = false ∧
      (write specPlatform fresh_machine
        (sample_request 97 ext_txt ROOT_CLUSTER_NUMBER 1500)).1 = 0 := by
    decide!
  exact ⟨h.2.2.2.2.2,
    write_delete_write specPlatform specPlatform_sane fresh_machine
      (sample_request 97 ext_txt ROOT_CLUSTER_NUMBER 1500)
      (sample_request 97 ext_txt ROOT_CLUSTER_NUMBER 0) 128
      (by decide) h.1 h.2.1 (by decide) h.2.2.1 ⟨1, by decide, by decide, h.2.2.2.1⟩
      h.2.2.2.2.1 h.2.2.2.2.2 rfl rfl rfl (by decide) (by decide)⟩

/-- Counterexample to C15 as stated: in the state reached from the freshly
formatted disk by `delete` of the root directory's own entry, the FAT entry of
cluster 2 is `EMPTY`.  A `write` of the folder "a" into the root directory
returns 0 and allocates cluster 2 itself, so the cluster of the new folder
holds the root table with slot 1 occupied: the following `delete` of "a"
returns 2, not 0. -/
theorem write_delete_write_counterexample :
    machine_root_freed.driver_state.fat_table ROOT_CLUSTER_NUMBER
      = specPlatform.FAT32_FAT_EMPTY_ENTRY ∧
    (write specPlatform machine_root_freed
      (sample_request 97 ext_dir ROOT_CLUSTER_NUMBER 0)).1 = 0 ∧
    (delete specPlatform 128
      (write specPlatform machine_root_freed
        (sample_request 97 ext_dir ROOT_CLUSTER_NUMBER 0)).2
      (sample_request 97 ext_dir ROOT_CLUSTER_NUMBER 0)).map Prod.fst = some 2 := by
  decide!


theorem foldl_upd {α : Type} (v : α) : ∀ (l : List Nat) (f : Nat → α) (x : Nat),
    (l.foldl (fun f i => upd f i v) f) x = if x ∈ l then v else f x := by
  intro l
  induction l with
  | nil => intro f x; simp
  | cons a l ih =>
    intro f x
    rw [List.foldl_cons, ih]
    by_cases hx : x ∈ l
    · simp [hx]
    · by_cases hxa : x = a
      · subst hxa
        simp [hx, upd]
      · simp [hx, hxa, upd]

/-- The 16-bit loop of `create_fat32` ends and is the pass over the entries
`i .. CLUSTER_MAP_SIZE - 1` when `CLUSTER_MAP_SIZE` is at most 65535. -/
theorem create_fat32_loop_eq (E : Platform) (hmap : E.CLUSTER_MAP_SIZE ≤ 65535) :
    ∀ n i fat fuel, n = E.CLUSTER_MAP_SIZE - i → n < fuel →
      create_fat32_loop E fuel i fat
        = some ((List.range' i n).foldl (fun f i => upd f i E.FAT32_FAT_EMPTY_ENTRY) fat) := by
  intro n
  induction n with
  | zero =>
    intro i fat fuel hn hfuel
    obtain ⟨g, rfl⟩ : ∃ g, fuel = g + 1 := ⟨fuel - 1, by omega⟩
    simp only [create_fat32_loop]
    rw [if_neg (by omega)]
    rfl
  | succ n ih =>
    intro i fat fuel hn hfuel
    obtain ⟨g, rfl⟩ : ∃ g, fuel = g + 1 := ⟨fuel - 1, by omega⟩
    simp only [create_fat32_loop]
    rw [if_pos (by omega), Nat.mod_eq_of_lt (by omega), ih (i + 1) _ g (by omega) (by omega)]
    rfl

/-- C16: on a platform with sane constants whose `CLUSTER_MAP_SIZE` fits the
16-bit loop counter, for every disk content `create_fat32` ends (its loop over
the FAT ends) and afterwards block 0 equals `fs_signature`, so
`is_empty_storage` returns false and `initialize_filesystem_fat32` leaves the
formatted state as it is; cluster 1 holds the cached FAT, whose entries 0 and 1
hold the two reserved constants, whose entry of `ROOT_CLUSTER_NUMBER` is
`FAT32_FAT_END_OF_FILE` and whose later entries are all `EMPTY`; the root
directory table has no occupied child slot, and the `cluster_low` and
`cluster_high` of its entry 0 encode `ROOT_CLUSTER_NUMBER`. -/
theorem create_fat32_formats (E : Platform) (hE : E.Sane)
    (hmap : E.CLUSTER_MAP_SIZE ≤ 65535) (m : Machine) :
    (∀ fuel, E.CLUSTER_MAP_SIZE ≤ fuel → 0 < fuel →
      create_fat32_loop E fuel 3
        (upd (upd (upd m.driver_state.fat_table 0 E.CLUSTER_0_VALUE) 1 E.CLUSTER_1_VALUE)
          ROOT_CLUSTER_NUMBER E.FAT32_FAT_END_OF_FILE)
        = some (create_fat32 E m).driver_state.fat_table) ∧
    (∀ k, k < E.BLOCK_SIZE →
      E.as_bytes ((create_fat32 E m).storage BOOT_SECTOR) k = fs_signature E k) ∧
    is_empty_storage E (create_fat32 E m) = false ∧
    initialize_filesystem_fat32 E (create_fat32 E m) = create_fat32 E m ∧
    E.as_fat ((create_fat32 E m).storage FAT_CLUSTER_NUMBER)
      = (create_fat32 E m).driver_state.fat_table ∧
    (create_fat32 E m).driver_state.fat_table 0 = E.CLUSTER_0_VALUE ∧
    (create_fat32 E m).driver_state.fat_table 1 = E.CLUSTER_1_VALUE ∧
    (create_fat32 E m).driver_state.fat_table ROOT_CLUSTER_NUMBER = E.FAT32_FAT_END_OF_FILE ∧
    (∀ i, ROOT_CLUSTER_NUMBER < i → i < E.CLUSTER_MAP_SIZE →
      (create_fat32 E m).driver_state.fat_table i = E.FAT32_FAT_EMPTY_ENTRY) ∧
    (∀ i, 1 ≤ i → i < directory_size →
      (E.as_dir ((create_fat32 E m).storage ROOT_CLUSTER_NUMBER) i).user_attribute
        ≠ E.UATTR_NOT_EMPTY) ∧
    entry_cluster (E.as_dir ((create_fat32 E m).storage ROOT_CLUSTER_NUMBER) 0)
      = ROOT_CLUSTER_NUMBER := by
  have hsig : ∀ k, k < E.BLOCK_SIZE →
      E.as_bytes ((create_fat32 E m).storage BOOT_SECTOR) k = fs_signature E k := by
    intro k hk
    show (if k < E.BLOCK_SIZE then fs_signature E k
      else E.as_bytes (m.storage BOOT_SECTOR) k) = fs_signature E k
    rw [if_pos hk]
  have hnot : is_empty_storage E (create_fat32 E m) = false := by
    unfold is_empty_storage
    rw [Bool.not_eq_false_eq_eq_true, List.all_eq_true]
    intro k hk
    rw [hsig k (List.mem_range.1 hk)]
    exact beq_self_eq_true _
  have hfat : ∀ x, (create_fat32 E m).driver_state.fat_table x
      = if x ∈ List.range' 3 (E.CLUSTER_MAP_SIZE - 3) then E.FAT32_FAT_EMPTY_ENTRY
        else (upd (upd (upd m.driver_state.fat_table 0 E.CLUSTER_0_VALUE) 1 E.CLUSTER_1_VALUE)
          ROOT_CLUSTER_NUMBER E.FAT32_FAT_END_OF_FILE) x :=
    fun x => foldl_upd _ _ _ x
  refine ⟨fun fuel h1 h2 => ?_, hsig, hnot, ?_, rfl, ?_, ?_, ?_, fun i h1 h2 => ?_,
    fun i h1 h2 => ?_, ?_⟩
  · exact create_fat32_loop_eq E hmap _ 3 _ fuel rfl (by omega)
  · unfold initialize_filesystem_fat32
    rw [hnot]
    rfl
  · rw [hfat, if_neg (by rw [List.mem_range']; rintro ⟨i, -, h⟩; omega)]
    rfl
  · rw [hfat, if_neg (by rw [List.mem_range']; rintro ⟨i, -, h⟩; omega)]
    rfl
  · rw [hfat, if_neg (by
      rw [List.mem_range']
      rintro ⟨i, -, h⟩
      unfold ROOT_CLUSTER_NUMBER at h
      omega)]
    rfl
  · rw [hfat, if_pos]
    rw [List.mem_range']
    unfold ROOT_CLUSTER_NUMBER at h1
    exact ⟨i - 3, by omega, by omega⟩
  · show (init_directory_table E zero_table _ ROOT_CLUSTER_NUMBER i).user_attribute
      ≠ E.UATTR_NOT_EMPTY
    have hz : init_directory_table E zero_table
        ([114, 111, 111, 116, 0] ++ E.root_literal_tail) ROOT_CLUSTER_NUMBER i = zero_entry :=
      upd_other _ _ (show i ≠ 0 by omega)
    rw [hz]
    exact fun h => hE.uattr_ne_zero h.symm
  · show entry_cluster (init_directory_table E zero_table _ ROOT_CLUSTER_NUMBER 0)
      = ROOT_CLUSTER_NUMBER
    unfold ROOT_CLUSTER_NUMBER
    simp only [entry_cluster, init_directory_table, upd, if_true]
    decide

/-- Witness of C16: `create_fat32` on the disk filled with zero bytes. -/
theorem create_fat32_formats_witness :
    specPlatform.CLUSTER_MAP_SIZE ≤ 65535 ∧
    is_empty_storage specPlatform blank_machine = true ∧
    is_empty_storage specPlatform (create_fat32 specPlatform blank_machine) = false ∧
    initialize_filesystem_fat32 specPlatform (create_fat32 specPlatform blank_machine)
      = create_fat32 specPlatform blank_machine :=
  ⟨by decide, by decide!,
    (create_fat32_formats specPlatform specPlatform_sane (by decide) blank_machine).2.2.1,
    (create_fat32_formats specPlatform specPlatform_sane (by decide) blank_machine).2.2.2.1⟩

/-- C17 at a failing input: from the freshly formatted disk, `write` of the
folder "d" into the root, `write` of "g.txt" into the root, `delete` of "g.txt",
`write` of the folder "x" into "d" (cluster 3), `delete` with the all-NUL name
in the root and `write` of the folder "y" into the root all return 0.  The
`delete` with the all-NUL name matches the unoccupied slot 2 of the root, which
still names cluster 4, and frees that cluster although it holds the table of
"x"; the folder "y" then receives cluster 4 and its table is initialised with
entry 0 encoding the root.  Afterwards slot 1 of "d" is an occupied
subdirectory entry named "x" with target cluster 4, entry 0 of cluster 4
encodes cluster 2 and not cluster 3, and `move_to_parent_directory` on the
cluster returned by `move_to_child_directory` for "x" in cluster 3 returns 2. -/
theorem back_pointer_broken_after_delete :
    (write specPlatform fresh_machine (sample_request 100 ext_dir ROOT_CLUSTER_NUMBER 0)).1 = 0 ∧
    (write specPlatform trace_step1 (sample_request 103 ext_txt ROOT_CLUSTER_NUMBER 10)).1 = 0 ∧
    (delete specPlatform 128 trace_step2
      (sample_request 103 ext_txt ROOT_CLUSTER_NUMBER 0)).map Prod.fst = some 0 ∧
    (write specPlatform trace_step3 (sample_request 120 ext_dir 3 0)).1 = 0 ∧
    (delete specPlatform 128 backptr_step4 zero_name_request).map Prod.fst = some 0 ∧
    (write specPlatform backptr_step5 (sample_request 121 ext_dir ROOT_CLUSTER_NUMBER 0)).1 = 0 ∧
    (specPlatform.as_dir (backptr_step6.storage 3) 1).user_attribute
      = specPlatform.UATTR_NOT_EMPTY ∧
    (specPlatform.as_dir (backptr_step6.storage 3) 1).attr = specPlatform.ATTR_SUBDIRECTORY ∧
    (specPlatform.as_dir (backptr_step6.storage 3) 1).name = [120, 0, 0, 0, 0, 0, 0, 0] ∧
    entry_cluster (specPlatform.as_dir (backptr_step6.storage 3) 1) = 4 ∧
    entry_cluster (specPlatform.as_dir (backptr_step6.storage 4) 0) = 2 ∧
    move_to_child_directory specPlatform backptr_step6 (sample_request 120 ext_dir 3 0) = 4 ∧
    move_to_parent_directory specPlatform backptr_step6 (parent_request 4) = 2 := by
  decide!


/-- C18 at a failing input: on the freshly formatted disk with the folder
"docs" in the root directory, the 10-byte file "kaguyaaa.txt", whose name has 8
bytes, is written into "docs" and is the only entry of that name.
`custom_strncpy(name, current_content.name, 8)` overwrites byte 7 of the copy
with NUL, so `find_and_print_path` compares "kaguyaa" with the target
"kaguyaaa", never finds the file and removes the line "docs/" again:
`print_path_to_dir` from the root leaves the 255 bytes of the buffer NUL, with
a `memcmp` that returns the sign and with one that returns the byte
difference.  For the 6-byte name "kaguya" and a `memcmp` that returns the sign
the buffer holds "docs/", a newline, three spaces, "kaguya.txt" and a newline;
with a `memcmp` that returns the byte difference the test
`memcmp(ext, "dir", 3) == 1` fails for "txt" and the buffer stays NUL as
well. -/
theorem print_path_misses_eight_byte_name :
    (write specPlatform fresh_machine
      (named_request name_docs ext_dir ROOT_CLUSTER_NUMBER 0)).1 = 0 ∧
    (write specPlatform machine_docs (named_request name_kaguyaaa ext_txt 3 10)).1 = 0 ∧
    buffer_prefix (print_path_to_dir specPlatform memcmp_sign machine_kaguyaaa 8 (fun _ => 7)
        ROOT_CLUSTER_NUMBER [107, 97, 103, 117, 121, 97, 97, 97]) 255
      = some (List.replicate 255 0) ∧
    buffer_prefix (print_path_to_dir specPlatform memcmp_diff machine_kaguyaaa 8 (fun _ => 7)
        ROOT_CLUSTER_NUMBER [107, 97, 103, 117, 121, 97, 97, 97]) 255
      = some (List.replicate 255 0) ∧
    (write specPlatform machine_docs (named_request name_kaguya ext_txt 3 10)).1 = 0 ∧
    buffer_prefix (print_path_to_dir specPlatform memcmp_sign machine_kaguya 8 (fun _ => 7)
        ROOT_CLUSTER_NUMBER [107, 97, 103, 117, 121, 97]) 21
      = some [100, 111, 99, 115, 47, 10, 32, 32, 32, 107, 97, 103, 117, 121, 97, 46, 116, 120,
          116, 10, 0] ∧
    buffer_prefix (print_path_to_dir specPlatform memcmp_diff machine_kaguya 8 (fun _ => 7)
        ROOT_CLUSTER_NUMBER [107, 97, 103, 117, 121, 97]) 255
      = some (List.replicate 255 0) := by
  decide!


theorem paging_allocate_check_self (s : PageManagerState) :
    paging_allocate_check s s.free_page_frame_count = true := by
  unfold paging_allocate_check
  exact decide_eq_true (le_refl _)

/-- C19 at the failing input: in every state whose free count is 0, as in the
state without a free page frame, and for every page directory and virtual
address, `paging_allocate_check` receives the free count itself and accepts it,
so `paging_allocate_user_page_frame` does not return false: it returns true
and stores a present, writable user entry for frame 0 in the page directory.
Its store to `page_frame_map` then has the index `PAGE_FRAME_MAX_COUNT`,
outside the array, so the model gives no page manager state afterwards. -/
theorem paging_allocate_succeeds_when_exhausted (PAGE_FRAME_MAX_COUNT : Nat)
    (s : PageManagerState) (page_dir : PageDirectory) (virtual_addr : Nat)
    (hmax : PAGE_FRAME_MAX_COUNT < 2 ^ 32)
    (hcount : s.free_page_frame_count = 0) :
    paging_allocate_check s s.free_page_frame_count = true ∧
    (paging_allocate_user_page_frame PAGE_FRAME_MAX_COUNT s page_dir virtual_addr).1
      = true ∧
    (paging_allocate_user_page_frame PAGE_FRAME_MAX_COUNT s page_dir virtual_addr).2.2
      = upd page_dir (page_index virtual_addr)
          { flag := { present_bit := 1, write_bit := 1, user_bit := 1,
                      use_pagesize_4_mb := 1 },
            lower_address := 0 } ∧
    (paging_allocate_user_page_frame PAGE_FRAME_MAX_COUNT s page_dir virtual_addr).2.1
      = none := by
  have e : paging_allocate_user_page_frame PAGE_FRAME_MAX_COUNT s page_dir virtual_addr
      = (true, none,
         upd page_dir (page_index virtual_addr)
           { flag := { present_bit := 1, write_bit := 1, user_bit := 1,
                       use_pagesize_4_mb := 1 },
             lower_address := 0 }) := by
    unfold paging_allocate_user_page_frame
    simp only [paging_allocate_check_self, Bool.not_true, Bool.false_eq_true, if_false]
    rw [hcount]
    have h1 : (PAGE_FRAME_MAX_COUNT + 2 ^ 32 - 0) % 2 ^ 32 = PAGE_FRAME_MAX_COUNT := by
      omega
    rw [h1, if_neg (Nat.lt_irrefl _)]
    rfl
  rw [e]
  exact ⟨paging_allocate_check_self s, rfl, rfl, rfl⟩

/-- Witness of C19: 32 page frames, none free (every entry of the bitmap true,
free count 0); the entry for the virtual address 4 MiB is absent before the
call and present afterwards, and the call returns true. -/
theorem paging_allocate_succeeds_when_exhausted_witness :
    (List.range 32).all exhausted_state.page_frame_map = true ∧
    exhausted_state.free_page_frame_count = 0 ∧
    (empty_page_directory (page_index 0x400000)).flag.present_bit = 0 ∧
    (paging_allocate_user_page_frame 32 exhausted_state empty_page_directory 0x400000).1
      = true ∧
    ((paging_allocate_user_page_frame 32 exhausted_state empty_page_directory
      0x400000).2.2 (page_index 0x400000)).flag.present_bit = 1 := by
  have h := paging_allocate_succeeds_when_exhausted 32 exhausted_state empty_page_directory
    0x400000 (by decide) rfl
  refine ⟨by decide, rfl, rfl, h.2.1, ?_⟩
  rw [h.2.2.1, upd_same]

theorem filter_range_succ_length (p : Nat → Bool) (n : Nat) (h0 : p 0 = false)
    (h : ∀ i, 1 ≤ i → i < n + 1 → p i = true) :
    ((List.range (n + 1)).filter p).length = n := by
  rw [List.range_succ_eq_map, List.filter_cons, h0]
  simp only [Bool.false_eq_true, if_false]
  rw [List.filter_eq_self.2, List.length_map, List.length_range]
  intro a ha
  rw [List.mem_map] at ha
  obtain ⟨i, hi, rfl⟩ := ha
  exact h _ (by omega) (by have := List.mem_range.1 hi; omega)

/-- C20 at failing inputs: for every `PAGE_FRAME_MAX_COUNT` of at least 1 the
initial `page_manager_state` has entry 0 of the bitmap set and the free count
`PAGE_FRAME_MAX_COUNT`, one more than its `PAGE_FRAME_MAX_COUNT - 1` false
entries.  With 32 page frames, after two calls of
`paging_allocate_user_page_frame` and one call of
`paging_free_user_page_frame`, which all return true, the free count is 31 and
the bitmap has 30 false entries: the call that frees clears entry 2, which was
not set, and leaves entry 1 set.  The three stores to the bitmap are inside the
array. -/
theorem free_count_is_not_false_entries (PAGE_FRAME_MAX_COUNT : Nat)
    (hmax : 0 < PAGE_FRAME_MAX_COUNT) :
    (page_manager_state PAGE_FRAME_MAX_COUNT).free_page_frame_count = PAGE_FRAME_MAX_COUNT ∧
    false_entries PAGE_FRAME_MAX_COUNT (page_manager_state PAGE_FRAME_MAX_COUNT)
      = PAGE_FRAME_MAX_COUNT - 1 ∧
    (page_manager_state PAGE_FRAME_MAX_COUNT).free_page_frame_count
      ≠ false_entries PAGE_FRAME_MAX_COUNT (page_manager_state PAGE_FRAME_MAX_COUNT) ∧
    state_alloc_alloc_free.free_page_frame_count = 31 ∧
    false_entries 32 state_alloc_alloc_free = 30 ∧
    state_alloc_alloc_free.page_frame_map 1 = true ∧
    state_alloc_alloc_free.page_frame_map 2 = false ∧
    ((paging_allocate_user_page_frame 32 (page_manager_state 32) empty_page_directory
        0x400000).1 = true ∧
      (paging_allocate_user_page_frame 32 (page_manager_state 32) empty_page_directory
        0x400000).2.1.isSome = true) ∧
    ((paging_allocate_user_page_frame 32 state_alloc empty_page_directory 0x800000).1 = true ∧
      (paging_allocate_user_page_frame 32 state_alloc empty_page_directory
        0x800000).2.1.isSome = true) ∧
    ((paging_free_user_page_frame 32 state_alloc_alloc empty_page_directory 0x800000).1
        = true ∧
      (paging_free_user_page_frame 32 state_alloc_alloc empty_page_directory
        0x800000).2.1.isSome = true) := by
  obtain ⟨n, rfl⟩ : ∃ n, PAGE_FRAME_MAX_COUNT = n + 1 := ⟨PAGE_FRAME_MAX_COUNT - 1, by omega⟩
  have h : false_entries (n + 1) (page_manager_state (n + 1)) = n := by
    unfold false_entries
    apply filter_range_succ_length
    · rfl
    · intro i hi _
      show (!decide (i = 0)) = true
      rw [decide_eq_false (by omega)]
      rfl
  refine ⟨rfl, h, ?_, by decide!⟩
  rw [h]
  show n + 1 ≠ n
  omega

/-- Witness of C20: 32 page frames. -/
theorem free_count_is_not_false_entries_witness :
    (page_manager_state 32).free_page_frame_count = 32 ∧
    false_entries 32 (page_manager_state 32) = 31 :=
  ⟨(free_count_is_not_false_entries 32 (by decide)).1,
    (free_count_is_not_false_entries 32 (by decide)).2.1⟩


theorem write_new_entry_idx_full (E : Platform) (dir : FAT32DirectoryTable)
    (hfull : ∀ i, 1 ≤ i → i < directory_size → (dir i).user_attribute = E.UATTR_NOT_EMPTY) :
    write_new_entry_idx E dir = 0 := by
  unfold write_new_entry_idx
  have : (List.range' 1 (directory_size - 1)).find?
      (fun i => (dir i).user_attribute != E.UATTR_NOT_EMPTY) = none := by
    rw [List.find?_eq_none]
    intro i hi
    rw [List.mem_range'] at hi
    obtain ⟨k, hk, rfl⟩ := hi
    have := hfull (1 + 1 * k) (by omega) (by unfold directory_size at hk ⊢; omega)
    rw [this]
    simp
  rw [this]
  rfl

/-- C25 at the failing inputs: for every state and request that pass the three
checks of `write` (the parent cluster holds a directory table, no entry has the
name and extension, enough clusters are free), when all 63 child slots of the
parent table are occupied, `new_entry_idx` keeps its initial value 0 and
`write` returns 0 with the new entry stored in entry 0 of the parent table, in
place of the self-entry; the child slots are left as they were and the table is
stored back into the parent cluster. -/
theorem write_full_directory_overwrites_entry_zero (E : Platform) (m : Machine)
    (request : FAT32DriverRequest)
    (hdir : (E.as_dir (m.storage request.parent_cluster_number) 0).attr = E.ATTR_SUBDIRECTORY)
    (hnm : (List.range directory_size).any
      (fun i => entry_matches (E.as_dir (m.storage request.parent_cluster_number) i) request)
      = false)
    (hav : write_cluster_count E request ≤ write_cluster_available E m.driver_state.fat_table)
    (hfull : ∀ i, 1 ≤ i → i < directory_size →
      (E.as_dir (m.storage request.parent_cluster_number) i).user_attribute
        = E.UATTR_NOT_EMPTY) :
    (write E m request).1 = 0 ∧
    write_new_entry_idx E (E.as_dir (m.storage request.parent_cluster_number)) = 0 ∧
    ((write E m request).2.driver_state.dir_table_buf 0).name = request.name.take 8 ∧
    ((write E m request).2.driver_state.dir_table_buf 0).ext = request.ext.take 3 ∧
    ((write E m request).2.driver_state.dir_table_buf 0).user_attribute
      = E.UATTR_NOT_EMPTY ∧
    ((write E m request).2.driver_state.dir_table_buf 0).filesize = request.buffer_size ∧
    (∀ i, 1 ≤ i → (write E m request).2.driver_state.dir_table_buf i
      = E.as_dir (m.storage request.parent_cluster_number) i) ∧
    (request.parent_cluster_number ≠ FAT_CLUSTER_NUMBER →
      (write E m request).2.storage request.parent_cluster_number
        = .dir (write E m request).2.driver_state.dir_table_buf) := by
  have hidx := write_new_entry_idx_full E _ hfull
  refine ⟨write_returns_zero E m request hdir hnm hav, hidx, ?_⟩
  by_cases hsz : request.buffer_size = 0
  · rw [write_folder_eq E m request hdir hnm hav hsz, hidx]
    refine ⟨rfl, rfl, rfl, rfl, fun i hi => upd_other _ _ (by omega), fun hp => ?_⟩
    show upd (upd _ request.parent_cluster_number _) FAT_CLUSTER_NUMBER _
      request.parent_cluster_number = _
    rw [upd_other _ _ hp, upd_same]
  · rw [write_file_eq E m request hdir hnm hav hsz, hidx]
    refine ⟨rfl, rfl, rfl, rfl, fun i hi => upd_other _ _ (by omega), fun hp => ?_⟩
    show upd (upd _ request.parent_cluster_number _) FAT_CLUSTER_NUMBER _
      request.parent_cluster_number = _
    rw [upd_other _ _ hp, upd_same]

/-- Witness of C25: the 10-byte file "a.txt" written into the root directory
whose 63 child slots are occupied; entry 0 of the root table held the name
"root" before the call. -/
theorem write_full_directory_overwrites_entry_zero_witness :
    (specPlatform.as_dir (machine_root_full.storage ROOT_CLUSTER_NUMBER) 0).name
      = [114, 111, 111, 116, 0, 0, 0, 0] ∧
    (write specPlatform machine_root_full
      (sample_request 97 ext_txt ROOT_CLUSTER_NUMBER 10)).1 = 0 ∧
    ((write specPlatform machine_root_full
      (sample_request 97 ext_txt ROOT_CLUSTER_NUMBER 10)).2.driver_state.dir_table_buf 0).name
      = [97, 0, 0, 0, 0, 0, 0, 0] := by
  have h : (specPlatform.as_dir (machine_root_full.storage ROOT_CLUSTER_NUMBER) 0).name
        = [114, 111, 111, 116, 0, 0, 0, 0] ∧
      (specPlatform.as_dir (machine_root_full.storage
        (sample_request 97 ext_txt ROOT_CLUSTER_NUMBER 10).parent_cluster_number) 0).attr
        = specPlatform.ATTR_SUBDIRECTORY ∧
      (List.range directory_size).any
        (fun i => entry_matches (specPlatform.as_dir (machine_root_full.storage
          (sample_request 97 ext_txt ROOT_CLUSTER_NUMBER 10).parent_cluster_number) i)
          (sample_request 97 ext_txt ROOT_CLUSTER_NUMBER 10)) = false ∧
      write_cluster_count specPlatform (sample_request 97 ext_txt ROOT_CLUSTER_NUMBER 10)
        ≤ write_cluster_available specPlatform machine_root_full.driver_state.fat_table ∧
      (List.range directory_size).all (fun i => i == 0 ||
        (specPlatform.as_dir (machine_root_full.storage
          (sample_request 97 ext_txt ROOT_CLUSTER_NUMBER 10).parent_cluster_number)
            i).user_attribute == specPlatform.UATTR_NOT_EMPTY) = true := by
    decide!
  have hw := write_full_directory_overwrites_entry_zero specPlatform machine_root_full
    (sample_request 97 ext_txt ROOT_CLUSTER_NUMBER 10) h.2.1 h.2.2.1 h.2.2.2.1
    (fun i h1 h2 => by
      have := List.all_eq_true.1 h.2.2.2.2 i (List.mem_range.2 h2)
      rw [Bool.or_eq_true, beq_iff_eq, beq_iff_eq] at this
      rcases this with h0 | h0
      · omega
      · exact h0)
  exact ⟨h.1, hw.1, hw.2.2.1⟩

/-- C26 at the failing inputs: for every state whose FAT has no `EMPTY` entry
from index 2 on and every request for a new folder (`buffer_size` 0) whose
parent cluster, from 2 on, holds a directory table without an entry of that
name, `write` needs no cluster and passes the capacity check, `empty_cluster`
keeps its initial value 0, and `write` returns 0: the new entry records start
cluster 0, entry 0 of the FAT is set to `FAT32_FAT_END_OF_FILE`, and the new
directory table is stored in cluster 0, over the boot sector. -/
theorem write_folder_in_full_fat_takes_cluster_zero (E : Platform) (m : Machine)
    (request : FAT32DriverRequest)
    (hdir : (E.as_dir (m.storage request.parent_cluster_number) 0).attr = E.ATTR_SUBDIRECTORY)
    (hnm : (List.range directory_size).any
      (fun i => entry_matches (E.as_dir (m.storage request.parent_cluster_number) i) request)
      = false)
    (hsz : request.buffer_size = 0)
    (hnone : ∀ i, 2 ≤ i → i < E.CLUSTER_MAP_SIZE →
      m.driver_state.fat_table i ≠ E.FAT32_FAT_EMPTY_ENTRY)
    (hp : 2 ≤ request.parent_cluster_number) :
    (write E m request).1 = 0 ∧
    write_empty_cluster E m.driver_state.fat_table = 0 ∧
    entry_cluster ((write E m request).2.driver_state.dir_table_buf
      (write_new_entry_idx E (E.as_dir (m.storage request.parent_cluster_number)))) = 0 ∧
    (write E m request).2.driver_state.fat_table 0 = E.FAT32_FAT_END_OF_FILE ∧
    (write E m request).2.storage BOOT_SECTOR
      = .dir (init_directory_table E zero_table request.name request.parent_cluster_number) := by
  have hav : write_cluster_count E request
      ≤ write_cluster_available E m.driver_state.fat_table := by
    rw [write_cluster_count_zero E request hsz]
    exact Nat.zero_le _
  have hec : write_empty_cluster E m.driver_state.fat_table = 0 := by
    rcases write_empty_cluster_cases E m.driver_state.fat_table with h | ⟨h1, h2, h3⟩
    · exact h
    · exact absurd h3 (hnone _ h1 h2)
  refine ⟨write_returns_zero E m request hdir hnm hav, hec, ?_⟩
  rw [write_folder_eq E m request hdir hnm hav hsz, hec]
  refine ⟨?_, ?_, ?_⟩
  · show entry_cluster (upd _ _ _ _) = 0
    rw [upd_same]
    simp only [entry_cluster, write_new_entry]
    decide
  · show upd m.driver_state.fat_table 0 E.FAT32_FAT_END_OF_FILE 0 = _
    exact upd_same _ _ _
  · have hb1 : BOOT_SECTOR ≠ FAT_CLUSTER_NUMBER := by decide
    have hb2 : BOOT_SECTOR ≠ request.parent_cluster_number := by
      unfold BOOT_SECTOR
      omega
    simp only
    rw [upd_other _ _ hb1, upd_other _ _ hb2]
    exact upd_same _ _ _

/-- Witness of C26: the folder "a" written into the root directory when the
cached FAT has no `EMPTY` entry; cluster 0 held the boot signature before the
call. -/
theorem write_folder_in_full_fat_takes_cluster_zero_witness :
    specPlatform.as_bytes (machine_fat_full.storage BOOT_SECTOR) 0 = 67 ∧
    (write specPlatform machine_fat_full
      (sample_request 97 ext_dir ROOT_CLUSTER_NUMBER 0)).1 = 0 ∧
    (write specPlatform machine_fat_full
      (sample_request 97 ext_dir ROOT_CLUSTER_NUMBER 0)).2.storage BOOT_SECTOR
      = .dir (init_directory_table specPlatform zero_table
          (sample_request 97 ext_dir ROOT_CLUSTER_NUMBER 0).name
          (sample_request 97 ext_dir ROOT_CLUSTER_NUMBER 0).parent_cluster_number) := by
  have h : specPlatform.as_bytes (machine_fat_full.storage BOOT_SECTOR) 0 = 67 ∧
      (specPlatform.as_dir (machine_fat_full.storage
        (sample_request 97 ext_dir ROOT_CLUSTER_NUMBER 0).parent_cluster_number) 0).attr
        = specPlatform.ATTR_SUBDIRECTORY ∧
      (List.range directory_size).any
        (fun i => entry_matches (specPlatform.as_dir (machine_fat_full.storage
          (sample_request 97 ext_dir ROOT_CLUSTER_NUMBER 0).parent_cluster_number) i)
          (sample_request 97 ext_dir ROOT_CLUSTER_NUMBER 0)) = false := by
    decide!
  have hw := write_folder_in_full_fat_takes_cluster_zero specPlatform machine_fat_full
    (sample_request 97 ext_dir ROOT_CLUSTER_NUMBER 0) h.2.1 h.2.2 rfl
    (fun i h1 _ => by
      show (if i = 0 then specPlatform.CLUSTER_0_VALUE
        else specPlatform.FAT32_FAT_END_OF_FILE) ≠ specPlatform.FAT32_FAT_EMPTY_ENTRY
      rw [if_neg (by omega)]
      decide)
    (by decide)
  exact ⟨h.1, hw.1, hw.2.2.2.2⟩


theorem create_fat32_fat_root (E : Platform) (m : Machine) :
    (create_fat32 E m).driver_state.fat_table ROOT_CLUSTER_NUMBER
      = E.FAT32_FAT_END_OF_FILE := by
  have h : (create_fat32 E m).driver_state.fat_table ROOT_CLUSTER_NUMBER
      = if ROOT_CLUSTER_NUMBER ∈ List.range' 3 (E.CLUSTER_MAP_SIZE - 3)
        then E.FAT32_FAT_EMPTY_ENTRY
        else (upd (upd (upd m.driver_state.fat_table 0 E.CLUSTER_0_VALUE) 1 E.CLUSTER_1_VALUE)
          ROOT_CLUSTER_NUMBER E.FAT32_FAT_END_OF_FILE) ROOT_CLUSTER_NUMBER :=
    foldl_upd _ _ _ _
  rw [h, if_neg (by
    rw [List.mem_range']
    rintro ⟨i, -, h⟩
    unfold ROOT_CLUSTER_NUMBER at h
    omega)]
  exact upd_same _ _ _

theorem create_fat32_root_table (E : Platform) (m : Machine) :
    E.as_dir ((create_fat32 E m).storage ROOT_CLUSTER_NUMBER)
      = init_directory_table E zero_table ([114, 111, 111, 116, 0] ++ E.root_literal_tail)
          ROOT_CLUSTER_NUMBER := rfl

/-- C27 at the failing input: on a platform with sane constants and for every
disk content, after `create_fat32` a `delete` for the parent cluster
`ROOT_CLUSTER_NUMBER` with the name of the root's own entry and an all-NUL
extension matches entry 0 of the root table (the loop of `delete` starts at
index 0 and the self-entry of an empty root passes the test for an empty
folder): `delete` ends, returns 0, marks `ROOT_CLUSTER_NUMBER` `EMPTY` in the
FAT and zeroes the name of entry 0, and stores that table back into the root
cluster. -/
theorem delete_matches_root_self_entry (E : Platform) (hE : E.Sane) (m : Machine)
    (fuel : Nat) (hfuel : 0 < fuel) :
    ∃ m', delete E fuel (create_fat32 E m) (root_entry_request E) = some (0, m') ∧
      (create_fat32 E m).driver_state.fat_table ROOT_CLUSTER_NUMBER
        = E.FAT32_FAT_END_OF_FILE ∧
      m'.driver_state.fat_table ROOT_CLUSTER_NUMBER = E.FAT32_FAT_EMPTY_ENTRY ∧
      (m'.driver_state.dir_table_buf 0).name = List.replicate 8 0 ∧
      (m'.driver_state.dir_table_buf 0).user_attribute = 0 ∧
      m'.storage ROOT_CLUSTER_NUMBER = .dir m'.driver_state.dir_table_buf := by
  have hroot := create_fat32_root_table E m
  have hfat := create_fat32_fat_root E m
  have hpar : (root_entry_request E).parent_cluster_number = ROOT_CLUSTER_NUMBER := rfl
  have h0 : init_directory_table E zero_table ([114, 111, 111, 116, 0] ++ E.root_literal_tail)
      ROOT_CLUSTER_NUMBER 0
      = { zero_entry with
          cluster_low := ROOT_CLUSTER_NUMBER &&& 0xFFFF
          cluster_high := (ROOT_CLUSTER_NUMBER >>> 16) &&& 0xFFFF
          user_attribute := E.UATTR_NOT_EMPTY
          attr := E.ATTR_SUBDIRECTORY
          name := ([114, 111, 111, 116, 0] ++ E.root_literal_tail).take 8 } :=
    upd_same _ _ _
  have hcl : entry_cluster (init_directory_table E zero_table
      ([114, 111, 111, 116, 0] ++ E.root_literal_tail) ROOT_CLUSTER_NUMBER 0)
      = ROOT_CLUSTER_NUMBER := by
    rw [h0]
    unfold ROOT_CLUSTER_NUMBER
    simp only [entry_cluster]
    decide
  have hd := delete_ok_eq E (create_fat32 E m) (root_entry_request E) fuel 0
    (upd (create_fat32 E m).driver_state.fat_table ROOT_CLUSTER_NUMBER E.FAT32_FAT_EMPTY_ENTRY)
    (by rw [hpar, hroot, h0])
    (by decide)
    (by
      rw [hpar, hroot, h0]
      unfold entry_matches
      show (memcmp_eq (([114, 111, 111, 116, 0] ++ E.root_literal_tail).take 8)
        ([114, 111, 111, 116, 0] ++ E.root_literal_tail) 8
        && memcmp_eq (List.replicate 3 0) (List.replicate 3 0) 3) = true
      rw [memcmp_eq_take]
      rfl)
    (fun j hj => by omega)
    (by
      rw [hpar, hroot, hcl, hroot]
      rintro ⟨-, hany⟩
      rw [List.any_eq_true] at hany
      obtain ⟨k, hk, hu⟩ := hany
      rw [List.mem_range'] at hk
      obtain ⟨i, -, rfl⟩ := hk
      have hz : init_directory_table E zero_table
          ([114, 111, 111, 116, 0] ++ E.root_literal_tail) ROOT_CLUSTER_NUMBER (1 + 1 * i)
          = zero_entry :=
        upd_other _ _ (show 1 + 1 * i ≠ 0 by omega)
      rw [hz] at hu
      have : (0 : Nat) = E.UATTR_NOT_EMPTY := by simpa [zero_entry] using hu
      exact hE.uattr_ne_zero this.symm)
    (by
      rw [hpar, hroot, hcl]
      obtain ⟨g, rfl⟩ : ∃ g, fuel = g + 1 := ⟨fuel - 1, by omega⟩
      simp only [delete_loop]
      rw [hfat, if_neg (not_not.2 rfl)])
  refine ⟨_, hd, hfat, ?_, ?_, ?_, ?_⟩
  · simp only
    rw [upd_same]
  · simp only
    rw [upd_same]
  · simp only
    rw [upd_same]
  · simp only
    rw [upd_other _ _ (show ROOT_CLUSTER_NUMBER ≠ FAT_CLUSTER_NUMBER by decide), hpar, upd_same]

/-- Witness of C27: the freshly formatted disk of the sample platform. -/
theorem delete_matches_root_self_entry_witness :
    ∃ m', delete specPlatform 128 (create_fat32 specPlatform blank_machine)
        (root_entry_request specPlatform) = some (0, m') ∧
      m'.driver_state.fat_table ROOT_CLUSTER_NUMBER = specPlatform.FAT32_FAT_EMPTY_ENTRY := by
  obtain ⟨m', h1, -, h2, -⟩ := delete_matches_root_self_entry specPlatform specPlatform_sane
    blank_machine 128 (by decide)
  exact ⟨m', h1, h2⟩


/-- C28 at a failing input: the file "a.txt" of 1500 bytes in the root
directory of the freshly formatted disk, read with `buffer_size` 1500 into a
zeroed buffer.  `read` returns 0 and copies three whole clusters of 512 bytes:
the bytes at the offsets 1500 to 1535 of the out-buffer, behind its end, are
overwritten with the rest of the last cluster (offset 1500 holds 246, offset
1535 holds 30); the byte at offset 1536 is still 0. -/
theorem read_stores_past_buffer_size :
    (specPlatform.as_dir (machine_with_file.storage ROOT_CLUSTER_NUMBER) 1).filesize = 1500 ∧
    (read_request 97 1500).buffer_size = 1500 ∧
    (read_request 97 1500).buf 1500 = 0 ∧
    (read_request 97 1500).buf 1535 = 0 ∧
    (read specPlatform 128 machine_with_file (read_request 97 1500)).map
        (fun r => (r.1, r.2.2 1499, r.2.2 1500, r.2.2 1535, r.2.2 1536))
      = some (0, 245, 246, 30, 0) := by
  decide!

/-- C30 at a failing input: on the freshly formatted disk with the single
folder "kaguyaaa" (8 bytes, extension "dir") in the root directory, no entry of
the root table or of the folder's table has the 7-byte name "kaguyaa".
`custom_strncpy` cuts the name of the folder to "kaguyaa" before the
comparison, so `print_path_to_dir` from the root with the target "kaguyaa"
takes the folder for the target and leaves the line "kaguyaaa/" in the buffer,
with a `memcmp` that returns the sign and with one that returns the byte
difference. -/
theorem print_path_finds_truncated_name :
    (write specPlatform fresh_machine
      (named_request name_kaguyaaa ext_dir ROOT_CLUSTER_NUMBER 0)).1 = 0 ∧
    entry_cluster (specPlatform.as_dir
      (machine_folder_kaguyaaa.storage ROOT_CLUSTER_NUMBER) 1) = 3 ∧
    (List.range directory_size).all (fun i =>
      (specPlatform.as_dir (machine_folder_kaguyaaa.storage ROOT_CLUSTER_NUMBER) i).name
        != name_kaguyaa
      && (specPlatform.as_dir (machine_folder_kaguyaaa.storage 3) i).name != name_kaguyaa)
      = true ∧
    buffer_prefix (print_path_to_dir specPlatform memcmp_sign machine_folder_kaguyaaa 8
        (fun _ => 7) ROOT_CLUSTER_NUMBER [107, 97, 103, 117, 121, 97, 97]) 11
      = some [107, 97, 103, 117, 121, 97, 97, 97, 47, 10, 0] ∧
    buffer_prefix (print_path_to_dir specPlatform memcmp_diff machine_folder_kaguyaaa 8
        (fun _ => 7) ROOT_CLUSTER_NUMBER [107, 97, 103, 117, 121, 97, 97]) 11
      = some [107, 97, 103, 117, 121, 97, 97, 97, 47, 10, 0] := by
  decide!


theorem specConfig_sane : specConfig.Sane :=
  ⟨by decide, by decide, by decide, by decide, by decide⟩

theorem update_page_directory_entry_flag (page_dir : PageDirectory)
    (physical_addr virtual_addr j : Nat) (flag : PageDirectoryEntryFlag)
    (h : (page_dir j).flag = flag ∨ page_index virtual_addr = j) :
    (update_page_directory_entry page_dir physical_addr virtual_addr flag j).flag = flag := by
  unfold update_page_directory_entry
  by_cases hj : j = page_index virtual_addr
  · subst hj
    rw [upd_same]
  · rw [upd_other _ _ hj]
    rcases h with h | h
    · exact h
    · exact absurd h.symm hj

/-- The loop of `process_create_user_process` over the page frames stores the
user flag in the entry that the kernel base address selects. -/
theorem process_map_frames_kernel_entry (P : ProcessConfig) (page_directory : PageDirectory)
    (virtual_addr_used : Nat → Nat) (n : Nat) (hn : 1 ≤ n) :
    ((process_map_frames P page_directory virtual_addr_used n).1
      (page_index (P.KERNEL_VIRTUAL_ADDRESS_BASE % 2 ^ 32))).flag
      = { present_bit := 1, write_bit := 1, user_bit := 1, use_pagesize_4_mb := 1 } := by
  have hinv : ∀ (l : List Nat) (r : PageDirectory × (Nat → Nat)),
      (r.1 (page_index (P.KERNEL_VIRTUAL_ADDRESS_BASE % 2 ^ 32))).flag
        = { present_bit := 1, write_bit := 1, user_bit := 1, use_pagesize_4_mb := 1 } →
      ((l.foldl
        (fun r i =>
          let virtual_addr := (P.KERNEL_VIRTUAL_ADDRESS_BASE + i * P.PAGE_FRAME_SIZE) % 2 ^ 32
          let physical_addr := (i * P.PAGE_FRAME_SIZE) % 2 ^ 32
          (update_page_directory_entry r.1 physical_addr virtual_addr
            { present_bit := 1, write_bit := 1, user_bit := 1, use_pagesize_4_mb := 1 },
            upd r.2 i virtual_addr)) r).1
        (page_index (P.KERNEL_VIRTUAL_ADDRESS_BASE % 2 ^ 32))).flag
        = { present_bit := 1, write_bit := 1, user_bit := 1, use_pagesize_4_mb := 1 } := by
    intro l
    induction l with
    | nil => intro r h; exact h
    | cons a l ih =>
      intro r h
      rw [List.foldl_cons]
      apply ih
      exact update_page_directory_entry_flag _ _ _ _ _ (Or.inl h)
  obtain ⟨k, rfl⟩ : ∃ k, n = k + 1 := ⟨n - 1, by omega⟩
  unfold process_map_frames
  rw [List.range_succ_eq_map, List.foldl_cons]
  apply hinv
  apply update_page_directory_entry_flag
  right
  simp

/-- C21 on the code: on a configuration with sane constants, for every call of
`process_create_user_process` that returns `PROCESS_CREATE_SUCCESS` and needs
at least one page frame, the loop over the page frames maps the virtual
addresses from `KERNEL_VIRTUAL_ADDRESS_BASE` on, so entry `0x300` of the new
process's page directory, which `paging_create_new_page_directory` copied from
the kernel template, is overwritten with a user entry: its user bit is 1. -/
theorem create_sets_user_bit_of_kernel_entry (E : Platform) (P : ProcessConfig)
    (hP : P.Sane) (fuel : Nat) (s s' : KernelState) (request : FAT32DriverRequest)
    (buf_addr : Nat) (mem : Nat → Nat)
    (hneed : 1 ≤ process_page_frame_count_needed P request)
    (hres : process_create_user_process E P fuel s request buf_addr
      = some (P.PROCESS_CREATE_SUCCESS, s', mem)) :
    ∃ p_index page_directory,
      (s'._process_list p_index).pid = s.pid_counter % 2 ^ 32 ∧
      (s'._process_list p_index).context.page_directory_virtual_addr = some page_directory ∧
      (s'.page_directory_list page_directory 0x300).flag
        = { present_bit := 1, write_bit := 1, user_bit := 1, use_pagesize_4_mb := 1 } ∧
      (s'.page_directory_list page_directory 0x300).flag.user_bit = 1 := by
  unfold process_create_user_process at hres
  by_cases h1 : s.active_process_count ≥ P.PROCESS_COUNT_MAX
  · rw [if_pos h1] at hres
    simp only [Option.some.injEq, Prod.mk.injEq] at hres
    exact absurd hres.1.symm hP.success_ne_max
  rw [if_neg h1] at hres
  by_cases h2 : buf_addr % 2 ^ 32 ≥ P.KERNEL_VIRTUAL_ADDRESS_BASE
  · rw [if_pos h2] at hres
    simp only [Option.some.injEq, Prod.mk.injEq] at hres
    exact absurd hres.1.symm hP.success_ne_entrypoint
  rw [if_neg h2] at hres
  simp only at hres
  by_cases h3 : (!paging_allocate_check s.page_manager_state
      (process_page_frame_count_needed P request)) = true
      ∨ process_page_frame_count_needed P request > P.PROCESS_PAGE_FRAME_COUNT_MAX
  · rw [if_pos h3] at hres
    simp only [Option.some.injEq, Prod.mk.injEq] at hres
    exact absurd hres.1.symm hP.success_ne_memory
  rw [if_neg h3] at hres
  · cases hpd : paging_create_new_page_directory P s with
    | mk a s1 =>
      rw [hpd] at hres
      cases a with
      | none =>
        simp only [Option.some.injEq, Prod.mk.injEq] at hres
        exact absurd hres.1.symm hP.success_ne_memory
      | some page_directory =>
        simp only at hres
        cases hrd : read E fuel s1.filesystem request with
        | none =>
          rw [hrd] at hres
          simp at hres
        | some x =>
          obtain ⟨ret, filesystem1, mem1⟩ := x
          rw [hrd] at hres
          simp only at hres
          split_ifs at hres with h4 h5
          · simp only [Option.some.injEq, Prod.mk.injEq] at hres
            exact absurd hres.1.symm hP.success_ne_read
          · simp only [Option.some.injEq, Prod.mk.injEq, true_and] at hres
            obtain ⟨hs, -⟩ := hres
            have hpid : s1.pid_counter = s.pid_counter := by
              unfold paging_create_new_page_directory at hpd
              split at hpd
              · simp only [Prod.mk.injEq] at hpd
                rw [← hpd.2]
              · simp at hpd
            refine ⟨(process_list_get_inactive_index P s).toNat, page_directory, ?_, ?_, ?_⟩
            · rw [← hs]
              simp only
              rw [upd_same, hpid]
            · rw [← hs]
              simp only
              rw [upd_same]
            · have hflag : (s'.page_directory_list page_directory 0x300).flag
                  = { present_bit := 1, write_bit := 1, user_bit := 1,
                      use_pagesize_4_mb := 1 } := by
                rw [← hs]
                simp only
                rw [upd_same, ← hP.kernel_base_index]
                exact process_map_frames_kernel_entry P _ _ _ hneed
              exact ⟨hflag, by rw [hflag]⟩

/-- Witness of C21: the first process created at boot for "a.txt"; entry 0 of
its page directory equals entry 0 of the kernel template, entry `0x300` has the
user bit set and the template's entry `0x300` has it clear. -/
theorem create_sets_user_bit_of_kernel_entry_witness :
    (kernel_one_process._process_list 0).context.page_directory_virtual_addr = some 0 ∧
    kernel_one_process.page_directory_list 0 0
      = kernel_one_process._paging_kernel_page_directory 0 ∧
    (kernel_one_process._paging_kernel_page_directory 0x300).flag.user_bit = 0 ∧
    (kernel_one_process.page_directory_list 0 0x300).flag.user_bit = 1 ∧
    ∃ s' mem p_index page_directory,
      process_create_user_process specPlatform specConfig 128 kernel_boot
        (read_request 97 2048) 0 = some (specConfig.PROCESS_CREATE_SUCCESS, s', mem) ∧
      (s'._process_list p_index).pid = kernel_boot.pid_counter % 2 ^ 32 ∧
      (s'._process_list p_index).context.page_directory_virtual_addr = some page_directory ∧
      (s'.page_directory_list page_directory 0x300).flag.user_bit = 1 := by
  have h : (kernel_one_process._process_list 0).context.page_directory_virtual_addr = some 0 ∧
      kernel_one_process.page_directory_list 0 0
        = kernel_one_process._paging_kernel_page_directory 0 ∧
      (kernel_one_process._paging_kernel_page_directory 0x300).flag.user_bit = 0 ∧
      (kernel_one_process.page_directory_list 0 0x300).flag.user_bit = 1 ∧
      1 ≤ process_page_frame_count_needed specConfig (read_request 97 2048) ∧
      create_code (process_create_user_process specPlatform specConfig 128 kernel_boot
        (read_request 97 2048) 0) = some specConfig.PROCESS_CREATE_SUCCESS := by
    decide!
  obtain ⟨h1, h2, h3, h4, h5, h6⟩ := h
  refine ⟨h1, h2, h3, h4, ?_⟩
  cases hr : process_create_user_process specPlatform specConfig 128 kernel_boot
      (read_request 97 2048) 0 with
  | none =>
    rw [hr] at h6
    simp [create_code] at h6
  | some x =>
    obtain ⟨c, s', mem⟩ := x
    rw [hr] at h6
    have hc : c = specConfig.PROCESS_CREATE_SUCCESS := by simpa [create_code] using h6
    subst hc
    obtain ⟨p, pd, e1, e2, -, e3⟩ := create_sets_user_bit_of_kernel_entry specPlatform
      specConfig specConfig_sane 128 kernel_boot s' (read_request 97 2048) 0 mem h5 hr
    exact ⟨s', mem, p, pd, rfl, e1, e2, e3⟩

/-- C22: for every state with `active_process_count >= PROCESS_COUNT_MAX` and
every request, `process_create_user_process` returns
`PROCESS_CREATE_FAIL_MAX_PROCESS_EXCEEDED` and leaves the process table, the
pool of page directories, the page-frame state, the file system driver and the
memory behind `request.buf` as they were. -/
theorem create_fails_when_table_full (E : Platform) (P : ProcessConfig) (fuel : Nat)
    (s : KernelState) (request : FAT32DriverRequest) (buf_addr : Nat)
    (hfull : P.PROCESS_COUNT_MAX ≤ s.active_process_count) :
    process_create_user_process E P fuel s request buf_addr
      = some (P.PROCESS_CREATE_FAIL_MAX_PROCESS_EXCEEDED, s, request.buf) := by
  unfold process_create_user_process
  rw [if_pos hfull]

/-- Witness of C22: the 17th call of `process_create_user_process` after 16
calls that returned `PROCESS_CREATE_SUCCESS`, with `PROCESS_COUNT_MAX` 16; 16
of the 32 page directories are in use before and after the call. -/
theorem create_fails_when_table_full_witness :
    (List.range 16).all (fun n =>
      create_code (process_create_user_process specPlatform specConfig 128
        (kernel_after_creates n) (read_request 97 2048) 0)
        == some specConfig.PROCESS_CREATE_SUCCESS) = true ∧
    ((List.range specConfig.PAGING_DIRECTORY_TABLE_MAX_COUNT).filter
      (kernel_after_creates 16).page_directory_used).length = 16 ∧
    process_create_user_process specPlatform specConfig 128 (kernel_after_creates 16)
        (read_request 97 2048) 0
      = some (specConfig.PROCESS_CREATE_FAIL_MAX_PROCESS_EXCEEDED, kernel_after_creates 16,
          (read_request 97 2048).buf) := by
  have h : (List.range 16).all (fun n =>
        create_code (process_create_user_process specPlatform specConfig 128
          (kernel_after_creates n) (read_request 97 2048) 0)
          == some specConfig.PROCESS_CREATE_SUCCESS) = true ∧
      ((List.range specConfig.PAGING_DIRECTORY_TABLE_MAX_COUNT).filter
        (kernel_after_creates 16).page_directory_used).length = 16 ∧
      specConfig.PROCESS_COUNT_MAX ≤ (kernel_after_creates 16).active_process_count := by
    decide!
  exact ⟨h.1, h.2.1, create_fails_when_table_full specPlatform specConfig 128
    (kernel_after_creates 16) (read_request 97 2048) 0 h.2.2⟩

/-- C23 at a failing input: from boot, two calls of
`process_create_user_process` return `PROCESS_CREATE_SUCCESS` (slots 0 and 1,
pids 1 and 2) and `process_destroy(1)` returns true; slot 0 then has pid 0 and
the state `PROCESS_STATE_TERMINATED`, and its page directory is back in the
pool.  `active_process_count` is still 2 and `get_next_process_index` looks at
neither pid nor state: the next call of `scheduler_switch_to_next_process`
selects index 0 and loads the freed page directory, and so does the third call
after it. -/
theorem scheduler_selects_destroyed_slot :
    create_code (process_create_user_process specPlatform specConfig 128 kernel_boot
      (read_request 97 2048) 0) = some specConfig.PROCESS_CREATE_SUCCESS ∧
    create_code (process_create_user_process specPlatform specConfig 128 kernel_one_process
      (read_request 97 2048) 0) = some specConfig.PROCESS_CREATE_SUCCESS ∧
    (kernel_two_processes._process_list 0).pid = 1 ∧
    (kernel_two_processes._process_list 1).pid = 2 ∧
    kernel_two_processes.page_directory_used 0 = true ∧
    (process_destroy specConfig kernel_two_processes 1).1 = true ∧
    (kernel_first_destroyed._process_list 0).pid = 0 ∧
    (kernel_first_destroyed._process_list 0).state = specConfig.PROCESS_STATE_TERMINATED ∧
    (kernel_first_destroyed._process_list 0).context.page_directory_virtual_addr = some 0 ∧
    kernel_first_destroyed.page_directory_used 0 = false ∧
    kernel_first_destroyed.active_process_count = 2 ∧
    kernel_first_destroyed.current_running_process_index = -1 ∧
    (scheduler_switch_to_next_process kernel_first_destroyed).map
        (fun s => (s.current_running_process_index, s.cr3)) = some (0, some 0) ∧
    (((scheduler_switch_to_next_process kernel_first_destroyed).bind
        scheduler_switch_to_next_process).bind scheduler_switch_to_next_process).map
        (fun s => (s.current_running_process_index, s.cr3)) = some (0, some 0) := by
  decide!

/-- C24 at the failing inputs: for every state with at least one process whose
`current_running_process_index` is not negative and differs from
`active_process_count - 1`, `scheduler_save_context_to_current_running_pcb(ctx)`
stores `ctx` in the PCB at index `active_process_count - 1`, the one that
`process_get_current_running_pcb_pointer` returns, and leaves every other PCB,
the one at `current_running_process_index` among them, as it was. -/
theorem save_context_stores_in_last_slot (s : KernelState) (ctx : Context)
    (hpos : 0 < s.active_process_count)
    (hnonneg : 0 ≤ s.current_running_process_index)
    (hcur : s.current_running_process_index ≠ ((s.active_process_count - 1 : Nat) : Int)) :
    ((scheduler_save_context_to_current_running_pcb s ctx)._process_list
      (s.active_process_count - 1)).context = ctx ∧
    (∀ i, i ≠ s.active_process_count - 1 →
      (scheduler_save_context_to_current_running_pcb s ctx)._process_list i
        = s._process_list i) ∧
    (scheduler_save_context_to_current_running_pcb s ctx)._process_list
        s.current_running_process_index.toNat
      = s._process_list s.current_running_process_index.toNat := by
  have e : scheduler_save_context_to_current_running_pcb s ctx
      = { s with
          _process_list := upd s._process_list (s.active_process_count - 1)
            { (s._process_list (s.active_process_count - 1)) with context := ctx } } := by
    unfold scheduler_save_context_to_current_running_pcb
      process_get_current_running_pcb_pointer
    rw [if_pos hpos]
  rw [e]
  refine ⟨?_, fun i hi => ?_, ?_⟩
  · simp only
    rw [upd_same]
  · simp only
    rw [upd_other _ _ hi]
  · simp only
    rw [upd_other]
    intro h
    apply hcur
    rw [← h]
    exact (Int.toNat_of_nonneg hnonneg).symm

/-- Witness of C24: two processes, and the scheduler has switched to index 0;
the context is stored in the PCB at index 1 and the saved context of the PCB at
index 0 is still the initial one, with `esp` at 4 MiB - 4. -/
theorem save_context_stores_in_last_slot_witness :
    kernel_switched.current_running_process_index = 0 ∧
    kernel_switched.active_process_count = 2 ∧
    ((scheduler_save_context_to_current_running_pcb kernel_switched
      sample_context)._process_list 1).context = sample_context ∧
    ((scheduler_save_context_to_current_running_pcb kernel_switched
      sample_context)._process_list 0).context.esp = 0x400000 - 4 := by
  have h : kernel_switched.current_running_process_index = 0 ∧
      kernel_switched.active_process_count = 2 ∧
      0 < kernel_switched.active_process_count ∧
      0 ≤ kernel_switched.current_running_process_index ∧
      kernel_switched.current_running_process_index
        ≠ ((kernel_switched.active_process_count - 1 : Nat) : Int) ∧
      (kernel_switched._process_list 0).context.esp = 0x400000 - 4 := by
    decide!
  have hw := save_context_stores_in_last_slot kernel_switched sample_context
    h.2.2.1 h.2.2.2.1 h.2.2.2.2.1
  have e1 : kernel_switched.active_process_count - 1 = 1 := by rw [h.2.1]
  rw [e1] at hw
  refine ⟨h.1, h.2.1, hw.1, ?_⟩
  rw [hw.2.1 0 (by decide)]
  exact h.2.2.2.2.2

theorem paging_free_page_directory_count (P : ProcessConfig) (s : KernelState)
    (page_dir : Option Nat) :
    (paging_free_page_directory P s page_dir).2.active_process_count
      = s.active_process_count := by
  unfold paging_free_page_directory
  cases page_dir with
  | none => rfl
  | some i =>
    simp only
    split_ifs <;> rfl

/-- C29 at the failing inputs: for every state and pid, `process_destroy` leaves
`active_process_count` as it was, also when it releases a PCB slot.  From boot,
after 16 calls of `process_create_user_process` and `process_destroy` for each
of the pids 1 to 16, which all return true, no PCB slot has a non-zero pid, but
`active_process_count` is 16 and the next `process_create_user_process`
returns `PROCESS_CREATE_FAIL_MAX_PROCESS_EXCEEDED`. -/
theorem destroy_keeps_active_process_count (P : ProcessConfig) (s : KernelState)
    (pid : Nat) :
    (process_destroy P s pid).2.active_process_count = s.active_process_count ∧
    occupied_slots specConfig (kernel_after_creates 16) = 16 ∧
    (List.range 16).all (fun n =>
      (process_destroy specConfig (kernel_after_destroys n) (n + 1)).1) = true ∧
    occupied_slots specConfig (kernel_after_destroys 16) = 0 ∧
    (kernel_after_destroys 16).active_process_count = 16 ∧
    create_code (process_create_user_process specPlatform specConfig 128
      (kernel_after_destroys 16) (read_request 97 2048) 0)
      = some specConfig.PROCESS_CREATE_FAIL_MAX_PROCESS_EXCEEDED := by
  refine ⟨?_, by decide!⟩
  unfold process_destroy
  cases process_list_get_pcb_by_pid P s pid with
  | none => rfl
  | some i => exact paging_free_page_directory_count P s _


/-- Counterexample to C11 as stated: in the root directory whose 63 child slots
are occupied, `write` of the 10-byte file "a.txt" returns 0 and stores the new
entry in entry 0 of the root table.  The request for "a.txt" with a 5-byte
buffer then matches a file entry whose `filesize` 10 is greater than
`buffer_size`, but entry 0 no longer has the attribute `ATTR_SUBDIRECTORY` and
`read` returns -1 on its check of the parent, not 2. -/
theorem read_small_buffer_counterexample :
    (write specPlatform machine_folder_root_full
      (sample_request 97 ext_txt ROOT_CLUSTER_NUMBER 10)).1 = 0 ∧
    entry_matches (specPlatform.as_dir (machine_root_overwritten.storage ROOT_CLUSTER_NUMBER) 0)
      (read_request 97 5) = true ∧
    (specPlatform.as_dir (machine_root_overwritten.storage ROOT_CLUSTER_NUMBER) 0).attr
      ≠ specPlatform.ATTR_SUBDIRECTORY ∧
    (specPlatform.as_dir (machine_root_overwritten.storage ROOT_CLUSTER_NUMBER) 0).filesize
      = 10 ∧
    (read_request 97 5).buffer_size = 5 ∧
    (read specPlatform 128 machine_root_overwritten (read_request 97 5)).map (fun r => r.1)
      = some (-1) := by
  decide!

/-- Counterexample to C13 as stated: in the same state the request for "d"
matches slot 1 of the root table, a subdirectory entry whose own table
(cluster 3) has the occupied child slot 1 ("h.txt"), but entry 0 of the root
table no longer has the attribute `ATTR_SUBDIRECTORY` and `delete` returns -1
on its check of the parent, not 2. -/
theorem delete_nonempty_folder_counterexample :
    entry_matches (specPlatform.as_dir (machine_root_overwritten.storage ROOT_CLUSTER_NUMBER) 1)
      (sample_request 100 ext_dir ROOT_CLUSTER_NUMBER 0) = true ∧
    (specPlatform.as_dir (machine_root_overwritten.storage ROOT_CLUSTER_NUMBER) 1).attr
      = specPlatform.ATTR_SUBDIRECTORY ∧
    entry_cluster (specPlatform.as_dir
      (machine_root_overwritten.storage ROOT_CLUSTER_NUMBER) 1) = 3 ∧
    (specPlatform.as_dir (machine_root_overwritten.storage 3) 1).user_attribute
      = specPlatform.UATTR_NOT_EMPTY ∧
    (specPlatform.as_dir (machine_root_overwritten.storage ROOT_CLUSTER_NUMBER) 0).attr
      ≠ specPlatform.ATTR_SUBDIRECTORY ∧
    (delete specPlatform 128 machine_root_overwritten
      (sample_request 100 ext_dir ROOT_CLUSTER_NUMBER 0)).map Prod.fst = some (-1) := by
  decide!

/-- Counterexample to C14 as stated, in two parts.  First, on the freshly
formatted disk the request for "z.txt" with parent cluster 9 matches no entry
of the table read from that cluster, which holds no directory table: `delete`
returns -1, not 1.  Second, in the state whose root table has "a.txt" in entry
0, the request for "a.txt" matches a file entry whose cluster chain, cluster 5,
ends in `FAT32_FAT_END_OF_FILE`: `delete` returns -1, not 0, and cluster 5 is
not freed. -/
theorem delete_file_counterexample :
    ((List.range directory_size).all (fun i =>
      !entry_matches (specPlatform.as_dir (fresh_machine.storage 9) i)
        (sample_request 122 ext_txt 9 0)) = true ∧
    (delete specPlatform 128 fresh_machine (sample_request 122 ext_txt 9 0)).map Prod.fst
      = some (-1)) ∧
    (entry_matches (specPlatform.as_dir (machine_root_overwritten.storage ROOT_CLUSTER_NUMBER) 0)
      (sample_request 97 ext_txt ROOT_CLUSTER_NUMBER 0) = true ∧
    (specPlatform.as_dir (machine_root_overwritten.storage ROOT_CLUSTER_NUMBER) 0).attr
      ≠ specPlatform.ATTR_SUBDIRECTORY ∧
    fat_chain specPlatform machine_root_overwritten.driver_state.fat_table 128
      (entry_cluster (specPlatform.as_dir
        (machine_root_overwritten.storage ROOT_CLUSTER_NUMBER) 0)) = some [5] ∧
    (delete specPlatform 128 machine_root_overwritten
      (sample_request 97 ext_txt ROOT_CLUSTER_NUMBER 0)).map
        (fun r => (r.1, r.2.driver_state.fat_table 5))
      = some (-1, specPlatform.FAT32_FAT_END_OF_FILE)) := by
  decide!

end Fat32

